import Mathlib

/-
  Verification of the breathsense firmware core (breath detection, breath
  metrics and mood scoring) against its natural-language specification.

  The Python sources are embedded shallowly over the rationals: every float
  is modelled as a rational number, Python `int(...)` as truncation toward
  zero, Python `round(...)` as rounding half to even, and `math.sqrt` as an
  abstract function parameter `sq : ℚ → ℚ` (no property of the square root
  is ever needed by the statements proved here, so every theorem quantifies
  over `sq`).  Fields named `_foo` in Python are named `foo` here.

  Namespaces:
    BreathSense          -- config.py constants, Python helpers
    BreathSense.MoodAnalyzer  -- src/firmware/mood_analyzer.py
    BreathSense.BreathMetrics -- src/firmware/breath_metrics.py
                                 (identical to src/firmware_nasalclip/breath_metrics.py)
    BreathSense.Fw       -- src/firmware/breath_detector.py
    BreathSense.Nc       -- src/firmware_nasalclip/breath_detector.py
-/

namespace BreathSense

/-! ### config.py constants -/

def FS_HZ : ℚ := 100
/-- Sample period `DT = 1.0 / FS_HZ` (breath_detector.py). -/
def DT : ℚ := 1 / FS_HZ
def ALPHA_FAST : ℚ := 22/100
def ALPHA_SLOW : ℚ := 4/1000
def ALPHA_FLOW : ℚ := 22/100
def DERIV_GAIN : ℚ := 18/100
def TH_FRAC_START : ℚ := 30/100
def TH_FRAC_END : ℚ := 20/100
def MIN_PHASE_S : ℚ := 20/100
def EMA_MAG : ℚ := 20/100
def LEAK_DECAY : ℚ := 994/1000
def SCALE_FLOOR : ℚ := 2/100
def IDLE_MAG_FRAC : ℚ := 20/100
def IDLE_SLOPE_FRAC : ℚ := 6/100
def IDLE_HOLD_S : ℚ := 22/10
def DEFAULT_VERY_SHORT_MAX : ℚ := 2
def DEFAULT_SHORT_MAX : ℚ := 35/10
def DEFAULT_MEDIUM_MAX : ℚ := 5
def DEFAULT_LONG_MAX : ℚ := 65/10

/-- `SENSITIVITY_PRESETS` from config.py: `(alpha_flow, deriv_gain, th_start, th_end)`. -/
def SENSITIVITY_PRESETS : List (ℚ × ℚ × ℚ × ℚ) :=
  [ (28/100,  6/100, 45/100, 30/100),
    (26/100,  8/100, 42/100, 28/100),
    (24/100, 10/100, 40/100, 26/100),
    (22/100, 12/100, 38/100, 24/100),
    (20/100, 12/100, 36/100, 22/100),
    (18/100, 12/100, 35/100, 20/100),
    (16/100, 14/100, 33/100, 20/100),
    (14/100, 16/100, 31/100, 18/100),
    (12/100, 18/100, 29/100, 16/100),
    (10/100, 20/100, 27/100, 14/100) ]

/-! ### mood_analyzer.py module constants -/

def STRESS_RATIO_ANXIOUS : ℚ := 8/10
def STRESS_RATIO_CALM : ℚ := 15/10
def STRESS_RMSSD_CV_ANXIOUS : ℚ := 40/100
def STRESS_RMSSD_CV_CALM : ℚ := 10/100
def FOCUS_CONSISTENCY_CV_THRESHOLD : ℚ := 15/100
def MEDITATION_CYCLE_MIN : ℚ := 6
def MEDITATION_CYCLE_OPTIMAL : ℚ := 10
def MEDITATION_STABILITY_THRESHOLD : ℚ := 15/100
def CALIBRATION_BREATHS : ℤ := 6

/-! ### Python numeric helpers -/

/-- Python `int(x)`: truncation toward zero. -/
def pyInt (q : ℚ) : ℤ := if 0 ≤ q then ⌊q⌋ else ⌈q⌉

/-- Python 3 `round(x)`: round to the nearest integer, ties to even. -/
def pyRound (q : ℚ) : ℤ :=
  if q - ⌊q⌋ < 1/2 then ⌊q⌋
  else if 1/2 < q - ⌊q⌋ then ⌊q⌋ + 1
  else if ⌊q⌋ % 2 = 0 then ⌊q⌋ else ⌊q⌋ + 1

/-- First differences of a list: `diffs [a, b, c] = [b - a, c - b]`.
Models the Python loops `for i in range(1, len(l)): out.append(l[i] - l[i-1])`. -/
def diffs (l : List ℚ) : List ℚ := List.zipWith (fun a b => a - b) l.tail l

/-! ### MoodAnalyzer (src/firmware/mood_analyzer.py) -/

/-- The mutable attributes of the Python `MoodAnalyzer` class.  Python
attributes named `_x` appear here without the leading underscore. -/
structure MoodAnalyzer where
  breath_count : ℕ
  is_calibrating : Bool
  calm_ratio : ℚ
  calm_variability_cv : ℚ
  focus_consistency_cv : ℚ
  calibration_breaths : ℤ
  recent_breaths : List (ℚ × ℚ × ℚ)
  max_recent : ℕ
  last_breath_duration : Option ℚ
  successive_diffs : List ℚ
  max_diffs : ℕ
  current_ratio : ℚ
  current_rmssd : ℚ
  current_consistency : ℚ
  current_cycle : ℚ
  stress_score : ℤ
  focus_score : ℤ
  meditation_score : ℤ
deriving DecidableEq

namespace MoodAnalyzer

/-- `MoodAnalyzer.__init__`. -/
def init : MoodAnalyzer :=
  { breath_count := 0
    is_calibrating := true
    calm_ratio := STRESS_RATIO_CALM
    calm_variability_cv := STRESS_RMSSD_CV_CALM
    focus_consistency_cv := FOCUS_CONSISTENCY_CV_THRESHOLD
    calibration_breaths := CALIBRATION_BREATHS
    recent_breaths := []
    max_recent := 5
    last_breath_duration := none
    successive_diffs := []
    max_diffs := 4
    current_ratio := 1
    current_rmssd := 1
    current_consistency := 1/2
    current_cycle := 4
    stress_score := 0
    focus_score := 5
    meditation_score := 0 }

/-- `MoodAnalyzer.set_thresholds` (the Python parameter `calibration_breaths`
arrives as a float and is truncated with `int(...)`). -/
def set_thresholds (cr cv fc cb : ℚ) (m : MoodAnalyzer) : MoodAnalyzer :=
  { m with calm_ratio := cr, calm_variability_cv := cv,
           focus_consistency_cv := fc, calibration_breaths := pyInt cb }

/-- `MoodAnalyzer.start_exhale` is `pass` in the source. -/
def start_exhale (m : MoodAnalyzer) : MoodAnalyzer := m

/-- `MoodAnalyzer.record_sample` is `pass` in the source. -/
def record_sample (m : MoodAnalyzer) (_flow_value : ℚ) : MoodAnalyzer := m

/-- `MoodAnalyzer._update_metrics`.  `sq` models `math.sqrt`. -/
def update_metrics (sq : ℚ → ℚ) (m : MoodAnalyzer) : MoodAnalyzer :=
  if m.recent_breaths = [] then m
  else
    let ratios := m.recent_breaths.map (fun (ex, inh, _) => ex / max (1/10) inh)
    let m := { m with current_ratio := ratios.sum / (ratios.length : ℚ) }
    let m :=
      if 2 ≤ m.successive_diffs.length then
        let squared := m.successive_diffs.map (fun d => d * d)
        { m with current_rmssd := sq (squared.sum / (squared.length : ℚ)) }
      else m
    let durations : List ℚ := m.recent_breaths.map (fun (_, _, total) => total)
    let m :=
      if 2 ≤ durations.length then
        let mean_dur := durations.sum / (durations.length : ℚ)
        let variance := (durations.map (fun d => (d - mean_dur) ^ 2)).sum / (durations.length : ℚ)
        { m with current_consistency := sq variance }
      else m
    { m with current_cycle := durations.sum / (durations.length : ℚ) }

/-- The clamped ratio component of `MoodAnalyzer._compute_stress_score`
(lines computing `ratio_score`). -/
def ratio_score (m : MoodAnalyzer) : ℚ :=
  let ratio_range := m.calm_ratio - STRESS_RATIO_ANXIOUS
  let ratio_norm := (m.current_ratio - STRESS_RATIO_ANXIOUS) / max (1/10) ratio_range
  max (-5) (min 5 (5 - ratio_norm * 10))

/-- The clamped duration component of `MoodAnalyzer._compute_stress_score`. -/
def duration_score (m : MoodAnalyzer) : ℚ :=
  let ds : ℚ :=
    if 3 ≤ m.recent_breaths.length then
      let baseline : ℚ := (m.recent_breaths.map (fun (_, _, t) => t)).sum / (m.recent_breaths.length : ℚ)
      let duration_ratio := m.current_cycle / max (1/10) baseline
      let duration_norm := (duration_ratio - 1) / (2/10)
      let neg_norm : ℚ := -duration_norm
      neg_norm * 3
    else 0
  max (-5) (min 5 ds)

/-- The clamped RMSSD-CV component of `MoodAnalyzer._compute_stress_score`. -/
def rmssd_score (m : MoodAnalyzer) : ℚ :=
  let rmssd_cv := m.current_rmssd / max (1/10) m.current_cycle
  let rmssd_range := STRESS_RMSSD_CV_ANXIOUS - m.calm_variability_cv
  let rmssd_norm := (rmssd_cv - m.calm_variability_cv) / max (1/100) rmssd_range
  max (-5) (min 5 (-5 + rmssd_norm * 10))

/-- `MoodAnalyzer._compute_stress_score`: 50/25/25 blend, clamped, rounded. -/
def compute_stress_score (m : MoodAnalyzer) : MoodAnalyzer :=
  { m with stress_score := pyRound (max (-5) (min 5
      ((1/2) * ratio_score m + (1/4) * duration_score m + (1/4) * rmssd_score m))) }

/-- `MoodAnalyzer._compute_focus_score`. -/
def compute_focus_score (m : MoodAnalyzer) : MoodAnalyzer :=
  let consistency_cv := m.current_consistency / max (1/10) m.current_cycle
  let thresh := m.focus_consistency_cv
  let focus : ℚ :=
    if consistency_cv < thresh * (1/2) then 9 + min 1 ((thresh * (1/2) - consistency_cv) * 20)
    else if consistency_cv < thresh then 6 + (1 - consistency_cv / thresh) * 3
    else if consistency_cv < thresh * 2 then 3 + (1 - (consistency_cv - thresh) / thresh) * 3
    else max 0 (3 - (consistency_cv - thresh * 2) * 10)
  { m with focus_score := pyRound (max 0 (min 10 focus)) }

/-- `MoodAnalyzer._compute_meditation_score`. -/
def compute_meditation_score (m : MoodAnalyzer) : MoodAnalyzer :=
  if m.recent_breaths.length < 3 then { m with meditation_score := 0 }
  else
    let cycle_score : ℚ :=
      if m.current_cycle < MEDITATION_CYCLE_MIN then (m.current_cycle / MEDITATION_CYCLE_MIN) * 4
      else if m.current_cycle < MEDITATION_CYCLE_OPTIMAL then
        4 + ((m.current_cycle - MEDITATION_CYCLE_MIN) /
             (MEDITATION_CYCLE_OPTIMAL - MEDITATION_CYCLE_MIN)) * 6
      else 10
    let cv := m.current_consistency / max (1/10) m.current_cycle
    let stability_score : ℚ :=
      if cv < MEDITATION_STABILITY_THRESHOLD then 10
      else if cv < MEDITATION_STABILITY_THRESHOLD * 2 then
        10 - ((cv - MEDITATION_STABILITY_THRESHOLD) / MEDITATION_STABILITY_THRESHOLD) * 5
      else max 0 (5 - (cv - MEDITATION_STABILITY_THRESHOLD * 2) * 10)
    { m with meditation_score := pyRound (max 0 (min 10 ((1/2) * cycle_score + (1/2) * stability_score))) }

/-- The window-update lines of `MoodAnalyzer.end_exhale` (count the breath,
push it on the rolling window, push the successive difference, remember the
total duration). -/
def push_breath (exhale_duration inhale_duration : ℚ) (m : MoodAnalyzer) : MoodAnalyzer :=
  let total_duration := exhale_duration + inhale_duration
  let m := { m with breath_count := m.breath_count + 1 }
  let rb := m.recent_breaths ++ [(exhale_duration, inhale_duration, total_duration)]
  let m := { m with recent_breaths := if m.max_recent < rb.length then rb.tail else rb }
  let m :=
    match m.last_breath_duration with
    | some last =>
        let sd := m.successive_diffs ++ [|total_duration - last|]
        { m with successive_diffs := if m.max_diffs < sd.length then sd.tail else sd }
    | none => m
  { m with last_breath_duration := some total_duration }

/-- `MoodAnalyzer.end_exhale`: validate the completed breath, update the
rolling windows and metrics, recompute the three scores, end calibration. -/
def end_exhale (sq : ℚ → ℚ) (exhale_duration inhale_duration _now : ℚ)
    (m : MoodAnalyzer) : MoodAnalyzer :=
  if exhale_duration < 3/10 ∨ inhale_duration < 2/10 then m
  else if 15 < exhale_duration ∨ 10 < inhale_duration then m
  else
    let m := push_breath exhale_duration inhale_duration m
    let m := update_metrics sq m
    let m := compute_stress_score m
    let m := compute_focus_score m
    let m := compute_meditation_score m
    if m.calibration_breaths ≤ (m.breath_count : ℤ) then { m with is_calibrating := false } else m

/-- `MoodAnalyzer.get_stress_score`: `None` while calibrating. -/
def get_stress_score (m : MoodAnalyzer) : Option ℤ :=
  if m.is_calibrating then none else some m.stress_score

/-- `MoodAnalyzer.get_focus_score`: `None` while calibrating. -/
def get_focus_score (m : MoodAnalyzer) : Option ℤ :=
  if m.is_calibrating then none else some m.focus_score

/-- `MoodAnalyzer.get_meditation_score`: `None` while calibrating. -/
def get_meditation_score (m : MoodAnalyzer) : Option ℤ :=
  if m.is_calibrating then none else some m.meditation_score

end MoodAnalyzer

/-! ### BreathMetrics (src/firmware/breath_metrics.py; the nasal-clip copy
src/firmware_nasalclip/breath_metrics.py implements the same class with the
same bodies, so one embedding serves both). -/

structure BreathMetrics where
  breath_count : ℕ
  is_calibrating : Bool
  calibration_breaths : ℤ
  last_exhale_duration : ℚ
  last_inhale_duration : ℚ
  last_cycle_duration : ℚ
  last_smoothness : ℤ
  last_peak_flow : ℚ
  last_symmetry : ℤ
  exhale_samples : List ℚ
  max_samples : ℕ
deriving DecidableEq

namespace BreathMetrics

/-- `BreathMetrics.__init__`. -/
def init : BreathMetrics :=
  { breath_count := 0
    is_calibrating := true
    calibration_breaths := CALIBRATION_BREATHS
    last_exhale_duration := 0
    last_inhale_duration := 0
    last_cycle_duration := 0
    last_smoothness := 100
    last_peak_flow := 0
    last_symmetry := 50
    exhale_samples := []
    max_samples := 50 }

/-- `BreathMetrics.set_thresholds` (only `calibration_breaths` is used). -/
def set_thresholds (_cr _cv _fc cb : ℚ) (m : BreathMetrics) : BreathMetrics :=
  { m with calibration_breaths := pyInt cb }

/-- `BreathMetrics.start_exhale`. -/
def start_exhale (m : BreathMetrics) : BreathMetrics := { m with exhale_samples := [] }

/-- `BreathMetrics.record_sample`. -/
def record_sample (m : BreathMetrics) (flow_value : ℚ) : BreathMetrics :=
  if m.exhale_samples.length < m.max_samples then
    { m with exhale_samples := m.exhale_samples ++ [flow_value] }
  else m

/-- `BreathMetrics._compute_smoothness` as a function of the exhale sample
buffer it reads. -/
def compute_smoothness (samples : List ℚ) : ℤ :=
  if samples.length < 7 then 100
  else
    let mean_abs_flow := (samples.map (fun s => |s|)).sum / (samples.length : ℚ)
    if mean_abs_flow < 5/100 then 100
    else
      let first_deriv := diffs samples
      let second_deriv := (diffs first_deriv).map (fun x => |x|)
      if second_deriv = [] then 100
      else
        let mean_accel := second_deriv.sum / (second_deriv.length : ℚ)
        let relative_accel := mean_accel / mean_abs_flow
        let smoothness := 100 - pyInt (min (2/10) relative_accel * 500)
        max 0 (min 100 smoothness)

/-- `BreathMetrics._compute_peak_flow` as a function of the sample buffer.
`max(abs(s) for s in samples)` is the least upper bound of the absolute
values; as they are all nonnegative it equals a fold of `max` from `0`. -/
def compute_peak_flow (samples : List ℚ) : ℚ :=
  if samples = [] then 0 else (samples.map (fun s => |s|)).foldr max 0

/-- `BreathMetrics._compute_symmetry` as a function of the sample buffer
(`list.index` returns the first index of the maximum). -/
def compute_symmetry (samples : List ℚ) : ℤ :=
  if samples.length < 3 then 50
  else
    let abs_samples := samples.map (fun s => |s|)
    let peak_idx := abs_samples.indexOf (abs_samples.foldr max 0)
    let symmetry := pyInt (((peak_idx : ℚ) / ((samples.length : ℚ) - 1)) * 100)
    max 0 (min 100 symmetry)

/-- `BreathMetrics.end_exhale`. -/
def end_exhale (exhale_duration inhale_duration _now : ℚ) (m : BreathMetrics) : BreathMetrics :=
  if exhale_duration < 3/10 ∨ inhale_duration < 2/10 then m
  else if 15 < exhale_duration ∨ 10 < inhale_duration then m
  else
    let m := { m with last_exhale_duration := exhale_duration,
                      last_inhale_duration := inhale_duration,
                      last_cycle_duration := exhale_duration + inhale_duration }
    let m := { m with last_smoothness := compute_smoothness m.exhale_samples,
                      last_peak_flow := compute_peak_flow m.exhale_samples,
                      last_symmetry := compute_symmetry m.exhale_samples }
    let m := { m with breath_count := m.breath_count + 1 }
    if m.calibration_breaths ≤ (m.breath_count : ℤ) then { m with is_calibrating := false } else m

end BreathMetrics

/-! ### Phase constants (PH_IDLE / PH_INH / PH_EXH in both breath_detector.py files) -/

inductive Phase where
  | idle
  | inh
  | exh
deriving DecidableEq

/-! ### BreathDetector of src/firmware/breath_detector.py -/

namespace Fw

/-- The mutable attributes of `BreathDetector` (firmware variant).  The raw
ADC conversion `read_temp_c` is not embedded: executions below quantify over
the temperature reading fed to each internal sample step, which subsumes
whatever the thermistor produces.  `time.monotonic()` results (`now`) are
likewise inputs of each call. -/
structure BreathDetector where
  t_fast : ℚ
  t_slow : ℚ
  prev_flow : ℚ
  flow_lp : ℚ
  scale_ex : ℚ
  scale_in : ℚ
  peak_ex : ℚ
  peak_in : ℚ
  phase : Phase
  t_phase_start : ℚ
  refrac_until : ℚ
  peak_val : ℚ
  prev_norm : ℚ
  idle_hold_start : Option ℚ
  norm : ℚ
  last_exhale_duration : ℚ
  exhale_start_time : Option ℚ
  last_inhale_duration : ℚ
  inhale_start_time : Option ℚ
  mood : MoodAnalyzer
  unworn : Bool
  short_streak : ℕ
  artifact_short_max : ℚ
  unworn_streak_needed : ℕ
  worn_recovery_min : ℚ
  last_exhale_time : Option ℚ
  last_exhale_short : Bool
  very_short_max : ℚ
  short_max : ℚ
  medium_max : ℚ
  long_max : ℚ
  alpha_flow : ℚ
  deriv_gain : ℚ
  th_start : ℚ
  th_end : ℚ
  next_proc : ℚ
deriving DecidableEq

/-- `BreathDetector.__init__`; `t0` is the `time.monotonic()` value at
construction. -/
def init (t0 : ℚ) : BreathDetector :=
  { t_fast := 0
    t_slow := 0
    prev_flow := 0
    flow_lp := 0
    scale_ex := 10/100
    scale_in := 10/100
    peak_ex := 10/100
    peak_in := 10/100
    phase := Phase.idle
    t_phase_start := t0
    refrac_until := 0
    peak_val := 0
    prev_norm := 0
    idle_hold_start := none
    norm := 0
    last_exhale_duration := 2
    exhale_start_time := none
    last_inhale_duration := 2
    inhale_start_time := none
    mood := MoodAnalyzer.init
    unworn := false
    short_streak := 0
    artifact_short_max := 6/10
    unworn_streak_needed := 6
    worn_recovery_min := 15/10
    last_exhale_time := none
    last_exhale_short := false
    very_short_max := DEFAULT_VERY_SHORT_MAX
    short_max := DEFAULT_SHORT_MAX
    medium_max := DEFAULT_MEDIUM_MAX
    long_max := DEFAULT_LONG_MAX
    alpha_flow := ALPHA_FLOW
    deriv_gain := DERIV_GAIN
    th_start := TH_FRAC_START
    th_end := TH_FRAC_END
    next_proc := t0 }

/-- `BreathDetector.apply_sensitivity`: clamp the preset index to 0..9,
install the four preset parameters, reset the four filter fields. -/
def apply_sensitivity (preset_id : ℤ) (d : BreathDetector) : BreathDetector :=
  let pid := max 0 (min 9 preset_id)
  let p := SENSITIVITY_PRESETS.getD pid.toNat (0, 0, 0, 0)
  { d with alpha_flow := p.1, deriv_gain := p.2.1, th_start := p.2.2.1, th_end := p.2.2.2,
           t_fast := 0, t_slow := 0, prev_flow := 0, flow_lp := 0 }

/-- `BreathDetector.apply_color_thresholds`. -/
def apply_color_thresholds (very_short short medium long : ℚ) (d : BreathDetector) :
    BreathDetector :=
  { d with very_short_max := very_short, short_max := short,
           medium_max := medium, long_max := long }

/-- `BreathDetector._record_exhale`: unworn-streak tracking. -/
def record_exhale (duration_s now : ℚ) (d : BreathDetector) : BreathDetector :=
  if duration_s ≤ d.artifact_short_max then
    let streak := d.short_streak + 1
    { d with short_streak := streak,
             unworn := if d.unworn_streak_needed ≤ streak then true else d.unworn,
             last_exhale_time := some now,
             last_exhale_short := true }
  else
    let d := { d with last_exhale_time := some now, last_exhale_short := false,
                      short_streak := 0 }
    if d.unworn = true ∧ d.worn_recovery_min ≤ duration_s then { d with unworn := false }
    else d

/-- The signal-conditioning and normalisation part of one iteration of the
`while now >= self.next_proc` loop in `BreathDetector.tick`, for one
temperature reading `t` (lines: EMA update, flow, derivative boost, leaky
peak / scale update, normalisation, exhale sample recording, peak update). -/
def step_signal (t : ℚ) (d : BreathDetector) : BreathDetector :=
  let t_fast := (1 - ALPHA_FAST) * d.t_fast + ALPHA_FAST * t
  let t_slow := (1 - ALPHA_SLOW) * d.t_slow + ALPHA_SLOW * t
  let flow := -(t_fast - t_slow)
  let dflow := (flow - d.prev_flow) / DT
  let flow_lp := (1 - d.alpha_flow) * d.flow_lp + d.alpha_flow * (flow + d.deriv_gain * dflow)
  let peak_ex := if 0 < flow_lp then max (d.peak_ex * LEAK_DECAY) flow_lp else d.peak_ex
  let scale_ex :=
    if 0 < flow_lp then max ((1 - EMA_MAG) * d.scale_ex + EMA_MAG * peak_ex) SCALE_FLOOR
    else d.scale_ex
  let peak_in := if flow_lp < 0 then max (d.peak_in * LEAK_DECAY) (-flow_lp) else d.peak_in
  let scale_in :=
    if flow_lp < 0 then max ((1 - EMA_MAG) * d.scale_in + EMA_MAG * peak_in) SCALE_FLOOR
    else d.scale_in
  let denom := max (1/1000000) (if 0 ≤ flow_lp then scale_ex else scale_in)
  let norm := flow_lp / denom
  { d with t_fast := t_fast, t_slow := t_slow, prev_flow := flow, flow_lp := flow_lp,
           peak_ex := peak_ex, scale_ex := scale_ex, peak_in := peak_in, scale_in := scale_in,
           prev_norm := norm, norm := norm,
           mood := if d.phase = Phase.exh then d.mood.record_sample flow_lp else d.mood,
           peak_val := max d.peak_val |norm|,
           next_proc := d.next_proc + DT }

/-- The denominator `denom = max(1e-6, scale)` used by the normalisation
division of the sample step starting from state `d` with reading `t`. -/
def step_denom (t : ℚ) (d : BreathDetector) : ℚ :=
  max (1/1000000)
    (if 0 ≤ (step_signal t d).flow_lp then (step_signal t d).scale_ex
     else (step_signal t d).scale_in)

/-- The slope `dnorm = (norm - self.prev_norm) / DT` of the sample step
starting from state `d` with reading `t`. -/
def step_dnorm (t : ℚ) (d : BreathDetector) : ℚ :=
  ((step_signal t d).norm - d.prev_norm) / DT

/-- The exhale hand-off on the transition-to-idle path of
`BreathDetector.tick` (updates `last_exhale_duration` and calls
`_record_exhale`; no call into the mood layer on this path). -/
def finish_exhale_idle (now : ℚ) (d : BreathDetector) : BreathDetector :=
  if d.phase = Phase.exh then
    match d.exhale_start_time with
    | some est => record_exhale (now - est) now { d with last_exhale_duration := now - est }
    | none => d
  else d

/-- The `Check for idle` block of `BreathDetector.tick`, acting on the
signal-updated state (whose `norm` field is this step's `norm`).
`phase_age` is computed by the caller from the pre-idle `t_phase_start`. -/
def idle_check (now dnorm phase_age : ℚ) (d : BreathDetector) : BreathDetector × Bool :=
  if d.phase ≠ Phase.idle then
    if |d.norm| ≤ IDLE_MAG_FRAC ∧ |dnorm| ≤ IDLE_SLOPE_FRAC then
      let hold := d.idle_hold_start.getD now
      let d1 := { d with idle_hold_start := some hold }
      if IDLE_HOLD_S * (15/10) ≤ now - hold ∧ MIN_PHASE_S ≤ phase_age then
        let d2 := finish_exhale_idle now d1
        ({ d2 with phase := Phase.idle, t_phase_start := now, peak_val := 0 }, true)
      else (d1, false)
    else ({ d with idle_hold_start := none }, false)
  else (d, false)

/-- The completed-breath hand-off on the `Detect inhale start` path of
`BreathDetector.tick`: record the exhale, then feed
`mood.end_exhale(last_exhale_duration, last_inhale_duration, now)`. -/
def end_exhale_to_inhale (sq : ℚ → ℚ) (now : ℚ) (d : BreathDetector) : BreathDetector :=
  if d.phase = Phase.exh then
    match d.exhale_start_time with
    | some est =>
        let dur := now - est
        let d1 := record_exhale dur now { d with last_exhale_duration := dur }
        { d1 with mood := d1.mood.end_exhale sq dur d1.last_inhale_duration now }
    | none => d
  else d

/-- The `Detect inhale start` / `Detect exhale start` blocks of
`BreathDetector.tick` (reached only when `now >= refrac_until`). -/
def trans_check (sq : ℚ → ℚ) (now phase_age : ℚ) (d : BreathDetector) :
    BreathDetector × Bool :=
  if d.phase ≠ Phase.inh ∧ d.th_start < d.norm then
    if MIN_PHASE_S ≤ phase_age ∨ d.phase = Phase.idle then
      let d1 := end_exhale_to_inhale sq now d
      ({ d1 with phase := Phase.inh, t_phase_start := now, inhale_start_time := some now,
                 peak_val := 0, idle_hold_start := none,
                 refrac_until := now + MIN_PHASE_S * (1/2) }, true)
    else (d, false)
  else if d.phase ≠ Phase.exh ∧ d.norm < -d.th_start then
    if MIN_PHASE_S ≤ phase_age ∨ d.phase = Phase.idle then
      let d1 :=
        if d.phase = Phase.inh then
          match d.inhale_start_time with
          | some ist => { d with last_inhale_duration := now - ist }
          | none => d
        else d
      ({ d1 with phase := Phase.exh, t_phase_start := now, exhale_start_time := some now,
                 peak_val := 0, idle_hold_start := none,
                 refrac_until := now + MIN_PHASE_S * (1/2),
                 mood := d1.mood.start_exhale }, true)
    else (d, false)
  else (d, false)

/-- The phase-detection part of one loop iteration of `BreathDetector.tick`:
idle check, refractory gate (`continue`), then the transition checks.
`phase_age` is `now - self.t_phase_start` of the state before the idle
check, exactly as in the source. -/
def step_phase (sq : ℚ → ℚ) (now dnorm : ℚ) (d : BreathDetector) : BreathDetector × Bool :=
  let phase_age := now - d.t_phase_start
  let r := idle_check now dnorm phase_age d
  if now < r.1.refrac_until then r
  else
    let r2 := trans_check sq now phase_age r.1
    (r2.1, r.2 || r2.2)

/-- One full iteration of the `while now >= self.next_proc` loop of
`BreathDetector.tick`, for the temperature reading `t`. -/
def step (sq : ℚ → ℚ) (now t : ℚ) (d : BreathDetector) : BreathDetector × Bool :=
  step_phase sq now (step_dnorm t d) (step_signal t d)

/-- The number of loop iterations a call `tick()` at time `now` performs:
the `while now >= self.next_proc` loop adds `DT` to `next_proc` each
iteration. -/
def num_steps (now next_proc : ℚ) : ℕ :=
  if now < next_proc then 0 else (⌊(now - next_proc) / DT⌋ + 1).toNat

/-- `n` loop iterations of `BreathDetector.tick` at wall-clock `now`, the
k-th iteration reading temperature `ts k`; the returned flag ORs the
per-iteration transition flags, as the Python `transition` variable does. -/
def tickN (sq : ℚ → ℚ) (now : ℚ) (ts : ℕ → ℚ) : ℕ → BreathDetector → BreathDetector × Bool
  | 0, d => (d, false)
  | n + 1, d =>
      let r := step sq now (ts 0) d
      let r2 := tickN sq now (fun k => ts (k + 1)) n r.1
      (r2.1, r.2 || r2.2)

/-- `BreathDetector.tick`: catch up on all whole sample periods owed. -/
def tick (sq : ℚ → ℚ) (now : ℚ) (ts : ℕ → ℚ) (d : BreathDetector) : BreathDetector × Bool :=
  tickN sq now ts (num_steps now d.next_proc) d

end Fw

/-! ### Executions.

An execution of a detector is a sequence of events: internal sample steps
(each one iteration of the tick loop, carrying its wall-clock time and its
temperature reading — a `tick()` call is a finite batch of such steps
sharing one `now`, see `Fw.tick`) and the three setter entry points that
collaborators may call between ticks. -/

inductive Ev where
  | step (now t : ℚ)
  | apply_sensitivity (preset_id : ℤ)
  | apply_color_thresholds (very_short short medium long : ℚ)
  | set_thresholds (cr cv fc cb : ℚ)

namespace Fw

/-- Apply one event to a firmware-variant detector state. -/
def applyEv (sq : ℚ → ℚ) (e : Ev) (d : BreathDetector) : BreathDetector :=
  match e with
  | .step now t => (step sq now t d).1
  | .apply_sensitivity i => apply_sensitivity i d
  | .apply_color_thresholds a b c l => apply_color_thresholds a b c l d
  | .set_thresholds cr cv fc cb => { d with mood := d.mood.set_thresholds cr cv fc cb }

/-- Run an execution from a freshly constructed detector. -/
def run (sq : ℚ → ℚ) (t0 : ℚ) (evs : List Ev) : BreathDetector :=
  evs.foldl (fun d e => applyEv sq e d) (init t0)

end Fw

/-! ### BreathDetector of src/firmware_nasalclip/breath_detector.py.

Identical detection pipeline; the mood layer is a `BreathMetrics` and
`_record_exhale` does not keep `_last_exhale_time` / `_last_exhale_short`. -/

namespace Nc

/-- The mutable attributes of `BreathDetector` (nasal-clip variant). -/
structure BreathDetector where
  t_fast : ℚ
  t_slow : ℚ
  prev_flow : ℚ
  flow_lp : ℚ
  scale_ex : ℚ
  scale_in : ℚ
  peak_ex : ℚ
  peak_in : ℚ
  phase : Phase
  t_phase_start : ℚ
  refrac_until : ℚ
  peak_val : ℚ
  prev_norm : ℚ
  idle_hold_start : Option ℚ
  norm : ℚ
  last_exhale_duration : ℚ
  exhale_start_time : Option ℚ
  last_inhale_duration : ℚ
  inhale_start_time : Option ℚ
  mood : BreathMetrics
  unworn : Bool
  short_streak : ℕ
  artifact_short_max : ℚ
  unworn_streak_needed : ℕ
  worn_recovery_min : ℚ
  very_short_max : ℚ
  short_max : ℚ
  medium_max : ℚ
  long_max : ℚ
  alpha_flow : ℚ
  deriv_gain : ℚ
  th_start : ℚ
  th_end : ℚ
  next_proc : ℚ
deriving DecidableEq

/-- `BreathDetector.__init__` (nasal-clip variant). -/
def init (t0 : ℚ) : BreathDetector :=
  { t_fast := 0
    t_slow := 0
    prev_flow := 0
    flow_lp := 0
    scale_ex := 10/100
    scale_in := 10/100
    peak_ex := 10/100
    peak_in := 10/100
    phase := Phase.idle
    t_phase_start := t0
    refrac_until := 0
    peak_val := 0
    prev_norm := 0
    idle_hold_start := none
    norm := 0
    last_exhale_duration := 2
    exhale_start_time := none
    last_inhale_duration := 2
    inhale_start_time := none
    mood := BreathMetrics.init
    unworn := false
    short_streak := 0
    artifact_short_max := 6/10
    unworn_streak_needed := 6
    worn_recovery_min := 15/10
    very_short_max := DEFAULT_VERY_SHORT_MAX
    short_max := DEFAULT_SHORT_MAX
    medium_max := DEFAULT_MEDIUM_MAX
    long_max := DEFAULT_LONG_MAX
    alpha_flow := ALPHA_FLOW
    deriv_gain := DERIV_GAIN
    th_start := TH_FRAC_START
    th_end := TH_FRAC_END
    next_proc := t0 }

/-- `BreathDetector.apply_sensitivity` (nasal-clip variant). -/
def apply_sensitivity (preset_id : ℤ) (d : BreathDetector) : BreathDetector :=
  let pid := max 0 (min 9 preset_id)
  let p := SENSITIVITY_PRESETS.getD pid.toNat (0, 0, 0, 0)
  { d with alpha_flow := p.1, deriv_gain := p.2.1, th_start := p.2.2.1, th_end := p.2.2.2,
           t_fast := 0, t_slow := 0, prev_flow := 0, flow_lp := 0 }

/-- `BreathDetector.apply_color_thresholds` (nasal-clip variant). -/
def apply_color_thresholds (very_short short medium long : ℚ) (d : BreathDetector) :
    BreathDetector :=
  { d with very_short_max := very_short, short_max := short,
           medium_max := medium, long_max := long }

/-- `BreathDetector._record_exhale` (nasal-clip variant). -/
def record_exhale (duration_s : ℚ) (_now : ℚ) (d : BreathDetector) : BreathDetector :=
  if duration_s ≤ d.artifact_short_max then
    let streak := d.short_streak + 1
    { d with short_streak := streak,
             unworn := if d.unworn_streak_needed ≤ streak then true else d.unworn }
  else
    let d := { d with short_streak := 0 }
    if d.unworn = true ∧ d.worn_recovery_min ≤ duration_s then { d with unworn := false }
    else d

/-- Signal conditioning and normalisation of one tick-loop iteration
(nasal-clip variant; here `record_sample` really appends to the exhale
sample buffer). -/
def step_signal (t : ℚ) (d : BreathDetector) : BreathDetector :=
  let t_fast := (1 - ALPHA_FAST) * d.t_fast + ALPHA_FAST * t
  let t_slow := (1 - ALPHA_SLOW) * d.t_slow + ALPHA_SLOW * t
  let flow := -(t_fast - t_slow)
  let dflow := (flow - d.prev_flow) / DT
  let flow_lp := (1 - d.alpha_flow) * d.flow_lp + d.alpha_flow * (flow + d.deriv_gain * dflow)
  let peak_ex := if 0 < flow_lp then max (d.peak_ex * LEAK_DECAY) flow_lp else d.peak_ex
  let scale_ex :=
    if 0 < flow_lp then max ((1 - EMA_MAG) * d.scale_ex + EMA_MAG * peak_ex) SCALE_FLOOR
    else d.scale_ex
  let peak_in := if flow_lp < 0 then max (d.peak_in * LEAK_DECAY) (-flow_lp) else d.peak_in
  let scale_in :=
    if flow_lp < 0 then max ((1 - EMA_MAG) * d.scale_in + EMA_MAG * peak_in) SCALE_FLOOR
    else d.scale_in
  let denom := max (1/1000000) (if 0 ≤ flow_lp then scale_ex else scale_in)
  let norm := flow_lp / denom
  { d with t_fast := t_fast, t_slow := t_slow, prev_flow := flow, flow_lp := flow_lp,
           peak_ex := peak_ex, scale_ex := scale_ex, peak_in := peak_in, scale_in := scale_in,
           prev_norm := norm, norm := norm,
           mood := if d.phase = Phase.exh then d.mood.record_sample flow_lp else d.mood,
           peak_val := max d.peak_val |norm|,
           next_proc := d.next_proc + DT }

/-- The normalisation denominator of the sample step (nasal-clip variant). -/
def step_denom (t : ℚ) (d : BreathDetector) : ℚ :=
  max (1/1000000)
    (if 0 ≤ (step_signal t d).flow_lp then (step_signal t d).scale_ex
     else (step_signal t d).scale_in)

/-- The slope `dnorm` of the sample step (nasal-clip variant). -/
def step_dnorm (t : ℚ) (d : BreathDetector) : ℚ :=
  ((step_signal t d).norm - d.prev_norm) / DT

/-- Exhale hand-off on the transition-to-idle path (nasal-clip variant). -/
def finish_exhale_idle (now : ℚ) (d : BreathDetector) : BreathDetector :=
  if d.phase = Phase.exh then
    match d.exhale_start_time with
    | some est => record_exhale (now - est) now { d with last_exhale_duration := now - est }
    | none => d
  else d

/-- The `Idle detection` block (nasal-clip variant). -/
def idle_check (now dnorm phase_age : ℚ) (d : BreathDetector) : BreathDetector × Bool :=
  if d.phase ≠ Phase.idle then
    if |d.norm| ≤ IDLE_MAG_FRAC ∧ |dnorm| ≤ IDLE_SLOPE_FRAC then
      let hold := d.idle_hold_start.getD now
      let d1 := { d with idle_hold_start := some hold }
      if IDLE_HOLD_S * (15/10) ≤ now - hold ∧ MIN_PHASE_S ≤ phase_age then
        let d2 := finish_exhale_idle now d1
        ({ d2 with phase := Phase.idle, t_phase_start := now, peak_val := 0 }, true)
      else (d1, false)
    else ({ d with idle_hold_start := none }, false)
  else (d, false)

/-- Completed-breath hand-off on the `Detect inhale` path (nasal-clip
variant; the mood layer is the `BreathMetrics` instance). -/
def end_exhale_to_inhale (now : ℚ) (d : BreathDetector) : BreathDetector :=
  if d.phase = Phase.exh then
    match d.exhale_start_time with
    | some est =>
        let dur := now - est
        let d1 := record_exhale dur now { d with last_exhale_duration := dur }
        { d1 with mood := d1.mood.end_exhale dur d1.last_inhale_duration now }
    | none => d
  else d

/-- The `Detect inhale` / `Detect exhale` blocks (nasal-clip variant). -/
def trans_check (now phase_age : ℚ) (d : BreathDetector) : BreathDetector × Bool :=
  if d.phase ≠ Phase.inh ∧ d.th_start < d.norm then
    if MIN_PHASE_S ≤ phase_age ∨ d.phase = Phase.idle then
      let d1 := end_exhale_to_inhale now d
      ({ d1 with phase := Phase.inh, t_phase_start := now, inhale_start_time := some now,
                 peak_val := 0, idle_hold_start := none,
                 refrac_until := now + MIN_PHASE_S * (1/2) }, true)
    else (d, false)
  else if d.phase ≠ Phase.exh ∧ d.norm < -d.th_start then
    if MIN_PHASE_S ≤ phase_age ∨ d.phase = Phase.idle then
      let d1 :=
        if d.phase = Phase.inh then
          match d.inhale_start_time with
          | some ist => { d with last_inhale_duration := now - ist }
          | none => d
        else d
      ({ d1 with phase := Phase.exh, t_phase_start := now, exhale_start_time := some now,
                 peak_val := 0, idle_hold_start := none,
                 refrac_until := now + MIN_PHASE_S * (1/2),
                 mood := d1.mood.start_exhale }, true)
    else (d, false)
  else (d, false)

/-- Phase detection of one tick-loop iteration (nasal-clip variant). -/
def step_phase (now dnorm : ℚ) (d : BreathDetector) : BreathDetector × Bool :=
  let phase_age := now - d.t_phase_start
  let r := idle_check now dnorm phase_age d
  if now < r.1.refrac_until then r
  else
    let r2 := trans_check now phase_age r.1
    (r2.1, r.2 || r2.2)

/-- One full iteration of the tick loop (nasal-clip variant). -/
def step (now t : ℚ) (d : BreathDetector) : BreathDetector × Bool :=
  step_phase now (step_dnorm t d) (step_signal t d)

/-- Loop iteration count of a `tick()` call (nasal-clip variant). -/
def num_steps (now next_proc : ℚ) : ℕ :=
  if now < next_proc then 0 else (⌊(now - next_proc) / DT⌋ + 1).toNat

/-- `n` tick-loop iterations (nasal-clip variant). -/
def tickN (now : ℚ) (ts : ℕ → ℚ) : ℕ → BreathDetector → BreathDetector × Bool
  | 0, d => (d, false)
  | n + 1, d =>
      let r := step now (ts 0) d
      let r2 := tickN now (fun k => ts (k + 1)) n r.1
      (r2.1, r.2 || r2.2)

/-- `BreathDetector.tick` (nasal-clip variant). -/
def tick (now : ℚ) (ts : ℕ → ℚ) (d : BreathDetector) : BreathDetector × Bool :=
  tickN now ts (num_steps now d.next_proc) d

/-- Apply one event (nasal-clip variant). -/
def applyEv (e : Ev) (d : BreathDetector) : BreathDetector :=
  match e with
  | .step now t => (step now t d).1
  | .apply_sensitivity i => apply_sensitivity i d
  | .apply_color_thresholds a b c l => apply_color_thresholds a b c l d
  | .set_thresholds cr cv fc cb => { d with mood := d.mood.set_thresholds cr cv fc cb }

/-- Run an execution from a freshly constructed detector (nasal-clip). -/
def run (t0 : ℚ) (evs : List Ev) : BreathDetector :=
  evs.foldl (fun d e => applyEv e d) (init t0)

end Nc

/-! ### Statement helpers (predicates over the embedded detectors) -/

/-- The idle-hold condition of the sample step from state `d` with reading
`t`: the step's normalized value and slope are within the idle bounds
(`abs(norm) <= IDLE_MAG_FRAC and abs(dnorm) <= IDLE_SLOPE_FRAC`). -/
def Fw.idle_bounds_ok (t : ℚ) (d : Fw.BreathDetector) : Prop :=
  |(Fw.step_signal t d).norm| ≤ IDLE_MAG_FRAC ∧ |Fw.step_dnorm t d| ≤ IDLE_SLOPE_FRAC

/-- Idle-hold condition of a sample step (nasal-clip variant). -/
def Nc.idle_bounds_ok (t : ℚ) (d : Nc.BreathDetector) : Prop :=
  |(Nc.step_signal t d).norm| ≤ IDLE_MAG_FRAC ∧ |Nc.step_dnorm t d| ≤ IDLE_SLOPE_FRAC

/-- A step from `d` to `d'` performed a transition into Inhale or Exhale
(a non-idle transition). -/
def Fw.non_idle_transition (d d' : Fw.BreathDetector) : Prop :=
  d'.phase ≠ d.phase ∧ (d'.phase = Phase.inh ∨ d'.phase = Phase.exh)

/-- Non-idle transition (nasal-clip variant). -/
def Nc.non_idle_transition (d d' : Nc.BreathDetector) : Prop :=
  d'.phase ≠ d.phase ∧ (d'.phase = Phase.inh ∨ d'.phase = Phase.exh)

/-- The duration-dependent statistics of a `BreathMetrics` instance are the
same in `a` and `b`: breath count, calibration state, and the six per-breath
metric fields.  (The exhale sample buffer is deliberately not included.) -/
def BreathMetrics.sameStats (a b : BreathMetrics) : Prop :=
  b.breath_count = a.breath_count
  ∧ b.is_calibrating = a.is_calibrating
  ∧ b.calibration_breaths = a.calibration_breaths
  ∧ b.last_exhale_duration = a.last_exhale_duration
  ∧ b.last_inhale_duration = a.last_inhale_duration
  ∧ b.last_cycle_duration = a.last_cycle_duration
  ∧ b.last_smoothness = a.last_smoothness
  ∧ b.last_peak_flow = a.last_peak_flow
  ∧ b.last_symmetry = a.last_symmetry

/-- An execution of the `MoodAnalyzer` alone: the sequence of
`end_exhale(exhale_duration, inhale_duration, now)` calls the detector makes
on it, starting from a freshly constructed analyzer. -/
def MoodAnalyzer.runBreaths (sq : ℚ → ℚ) (calls : List (ℚ × ℚ × ℚ)) : MoodAnalyzer :=
  calls.foldl (fun m c => MoodAnalyzer.end_exhale sq c.1 c.2.1 c.2.2 m) MoodAnalyzer.init

/-! ## Theorems -/

/-! ### Helper lemmas on the Python numeric helpers -/

lemma le_pyRound_of_le {a : ℤ} {q : ℚ} (h : (a : ℚ) ≤ q) : a ≤ pyRound q := by
  have hf : a ≤ ⌊q⌋ := Int.le_floor.mpr h
  unfold pyRound
  split_ifs <;> omega

lemma pyRound_le_of_le {b : ℤ} {q : ℚ} (h : q ≤ (b : ℚ)) : pyRound q ≤ b := by
  have hf : ⌊q⌋ ≤ b := by
    have := Int.floor_le_floor h
    simpa using this
  unfold pyRound
  split_ifs with h1 h2 h3
  · exact hf
  · -- round up: q - ⌊q⌋ > 1/2, so ⌊q⌋ < b
    have hq : (⌊q⌋ : ℚ) + 1/2 < q := by linarith
    have : (⌊q⌋ : ℚ) < (b : ℚ) := by linarith
    have : ⌊q⌋ < b := by exact_mod_cast this
    omega
  · exact hf
  · -- exact tie: q = ⌊q⌋ + 1/2, so ⌊q⌋ < b
    have hq : (⌊q⌋ : ℚ) + 1/2 ≤ q := by linarith
    have : (⌊q⌋ : ℚ) < (b : ℚ) := by linarith
    have : ⌊q⌋ < b := by exact_mod_cast this
    omega

/-- Rejection branch of `MoodAnalyzer.end_exhale` (the two validation early
returns leave the state untouched). -/
lemma end_exhale_reject (sq : ℚ → ℚ) (ex inh now : ℚ) (m : MoodAnalyzer)
    (h : ex < 3/10 ∨ 15 < ex ∨ inh < 2/10 ∨ 10 < inh) :
    MoodAnalyzer.end_exhale sq ex inh now m = m := by
  unfold MoodAnalyzer.end_exhale
  split_ifs with h1 h2
  · rfl
  · rfl
  · push_neg at h1 h2
    rcases h with h | h | h | h <;> [exact absurd h (by linarith [h1.1]);
      exact absurd h (by linarith [h2.1]); exact absurd h (by linarith [h1.2]);
      exact absurd h (by linarith [h2.2])]

/-- Rejection branch of `BreathMetrics.end_exhale`. -/
lemma bm_end_exhale_reject (ex inh now : ℚ) (m : BreathMetrics)
    (h : ex < 3/10 ∨ 15 < ex ∨ inh < 2/10 ∨ 10 < inh) :
    BreathMetrics.end_exhale ex inh now m = m := by
  unfold BreathMetrics.end_exhale
  split_ifs with h1 h2
  · rfl
  · rfl
  · push_neg at h1 h2
    rcases h with h | h | h | h <;> [exact absurd h (by linarith [h1.1]);
      exact absurd h (by linarith [h2.1]); exact absurd h (by linarith [h1.2]);
      exact absurd h (by linarith [h2.2])]


/-! ### C3 -/

/-- C3: a completed breath cycle whose exhale duration is below 0.3 s or
above 15 s, or whose inhale duration is below 0.2 s or above 10 s, is
rejected by `end_exhale` with the analyzer state left exactly as it was —
in both the `MoodAnalyzer` and the `BreathMetrics` implementation. -/
theorem C3_invalid_breath_leaves_state_unchanged :
    (∀ (sq : ℚ → ℚ) (ex inh now : ℚ) (m : MoodAnalyzer),
        ex < 3/10 ∨ 15 < ex ∨ inh < 2/10 ∨ 10 < inh →
        MoodAnalyzer.end_exhale sq ex inh now m = m)
    ∧ (∀ (ex inh now : ℚ) (m : BreathMetrics),
        ex < 3/10 ∨ 15 < ex ∨ inh < 2/10 ∨ 10 < inh →
        BreathMetrics.end_exhale ex inh now m = m) :=
  ⟨fun sq ex inh now m h => end_exhale_reject sq ex inh now m h,
   fun ex inh now m h => bm_end_exhale_reject ex inh now m h⟩

/-- Witness for C3: a 0.1 s exhale is rejected by both implementations. -/
theorem C3_invalid_breath_leaves_state_unchanged_witness :
    MoodAnalyzer.end_exhale (fun q => q) (1/10) 1 0 MoodAnalyzer.init = MoodAnalyzer.init
    ∧ BreathMetrics.end_exhale (1/10) 1 0 BreathMetrics.init = BreathMetrics.init :=
  ⟨C3_invalid_breath_leaves_state_unchanged.1 (fun q => q) (1/10) 1 0 MoodAnalyzer.init
      (Or.inl (by norm_num)),
   C3_invalid_breath_leaves_state_unchanged.2 (1/10) 1 0 BreathMetrics.init
      (Or.inl (by norm_num))⟩

/-! ### C8 -/

/-- C8: with fewer than 7 buffered exhale samples the smoothness score is
exactly 100 whatever the samples are; with 7 or more samples the score is
always within [0, 100]. -/
theorem C8_smoothness_default_and_range :
    (∀ samples : List ℚ, samples.length < 7 →
        BreathMetrics.compute_smoothness samples = 100)
    ∧ (∀ samples : List ℚ, 7 ≤ samples.length →
        0 ≤ BreathMetrics.compute_smoothness samples
        ∧ BreathMetrics.compute_smoothness samples ≤ 100) := by
  constructor
  · intro s h
    unfold BreathMetrics.compute_smoothness
    rw [if_pos h]
  · intro s _
    simp only [BreathMetrics.compute_smoothness]
    split_ifs
    · exact ⟨by norm_num, by norm_num⟩
    · exact ⟨by norm_num, by norm_num⟩
    · exact ⟨by norm_num, by norm_num⟩
    · exact ⟨le_max_left _ _, max_le (by norm_num) (min_le_left _ _)⟩

/-- Witness for C8: the empty buffer scores 100; a 7-sample buffer scores
inside [0, 100]. -/
theorem C8_smoothness_default_and_range_witness :
    BreathMetrics.compute_smoothness [] = 100
    ∧ (0 ≤ BreathMetrics.compute_smoothness [0, 0, 0, 0, 0, 0, 0]
       ∧ BreathMetrics.compute_smoothness [0, 0, 0, 0, 0, 0, 0] ≤ 100) :=
  ⟨C8_smoothness_default_and_range.1 [] (by norm_num),
   C8_smoothness_default_and_range.2 [0, 0, 0, 0, 0, 0, 0] (by norm_num)⟩

/-! ### C9 -/

/-- C9: `apply_sensitivity` clamps any integer preset index into 0..9, is
idempotent (a second identical call reproduces exactly the same state), and
changes nothing beyond installing the four preset parameters and zeroing the
four filter fields — in both firmware variants. -/
theorem C9_apply_sensitivity_idempotent_and_frame :
    (∀ (i : ℤ) (d : Fw.BreathDetector),
      Fw.apply_sensitivity i (Fw.apply_sensitivity i d) = Fw.apply_sensitivity i d
      ∧ Fw.apply_sensitivity i d = Fw.apply_sensitivity (max 0 (min 9 i)) d
      ∧ (Fw.apply_sensitivity i d).alpha_flow
          = (SENSITIVITY_PRESETS.getD (max 0 (min 9 i)).toNat (0, 0, 0, 0)).1
      ∧ (Fw.apply_sensitivity i d).deriv_gain
          = (SENSITIVITY_PRESETS.getD (max 0 (min 9 i)).toNat (0, 0, 0, 0)).2.1
      ∧ (Fw.apply_sensitivity i d).th_start
          = (SENSITIVITY_PRESETS.getD (max 0 (min 9 i)).toNat (0, 0, 0, 0)).2.2.1
      ∧ (Fw.apply_sensitivity i d).th_end
          = (SENSITIVITY_PRESETS.getD (max 0 (min 9 i)).toNat (0, 0, 0, 0)).2.2.2
      ∧ (Fw.apply_sensitivity i d).t_fast = 0
      ∧ (Fw.apply_sensitivity i d).t_slow = 0
      ∧ (Fw.apply_sensitivity i d).prev_flow = 0
      ∧ (Fw.apply_sensitivity i d).flow_lp = 0
      ∧ (Fw.apply_sensitivity i d).scale_ex = d.scale_ex
      ∧ (Fw.apply_sensitivity i d).scale_in = d.scale_in
      ∧ (Fw.apply_sensitivity i d).peak_ex = d.peak_ex
      ∧ (Fw.apply_sensitivity i d).peak_in = d.peak_in
      ∧ (Fw.apply_sensitivity i d).phase = d.phase
      ∧ (Fw.apply_sensitivity i d).t_phase_start = d.t_phase_start
      ∧ (Fw.apply_sensitivity i d).refrac_until = d.refrac_until
      ∧ (Fw.apply_sensitivity i d).peak_val = d.peak_val
      ∧ (Fw.apply_sensitivity i d).prev_norm = d.prev_norm
      ∧ (Fw.apply_sensitivity i d).idle_hold_start = d.idle_hold_start
      ∧ (Fw.apply_sensitivity i d).norm = d.norm
      ∧ (Fw.apply_sensitivity i d).last_exhale_duration = d.last_exhale_duration
      ∧ (Fw.apply_sensitivity i d).exhale_start_time = d.exhale_start_time
      ∧ (Fw.apply_sensitivity i d).last_inhale_duration = d.last_inhale_duration
      ∧ (Fw.apply_sensitivity i d).inhale_start_time = d.inhale_start_time
      ∧ (Fw.apply_sensitivity i d).mood = d.mood
      ∧ (Fw.apply_sensitivity i d).unworn = d.unworn
      ∧ (Fw.apply_sensitivity i d).short_streak = d.short_streak
      ∧ (Fw.apply_sensitivity i d).artifact_short_max = d.artifact_short_max
      ∧ (Fw.apply_sensitivity i d).unworn_streak_needed = d.unworn_streak_needed
      ∧ (Fw.apply_sensitivity i d).worn_recovery_min = d.worn_recovery_min
      ∧ (Fw.apply_sensitivity i d).last_exhale_time = d.last_exhale_time
      ∧ (Fw.apply_sensitivity i d).last_exhale_short = d.last_exhale_short
      ∧ (Fw.apply_sensitivity i d).very_short_max = d.very_short_max
      ∧ (Fw.apply_sensitivity i d).short_max = d.short_max
      ∧ (Fw.apply_sensitivity i d).medium_max = d.medium_max
      ∧ (Fw.apply_sensitivity i d).long_max = d.long_max
      ∧ (Fw.apply_sensitivity i d).next_proc = d.next_proc)
    ∧ (∀ (i : ℤ) (d : Nc.BreathDetector),
      Nc.apply_sensitivity i (Nc.apply_sensitivity i d) = Nc.apply_sensitivity i d
      ∧ Nc.apply_sensitivity i d = Nc.apply_sensitivity (max 0 (min 9 i)) d
      ∧ (Nc.apply_sensitivity i d).alpha_flow
          = (SENSITIVITY_PRESETS.getD (max 0 (min 9 i)).toNat (0, 0, 0, 0)).1
      ∧ (Nc.apply_sensitivity i d).deriv_gain
          = (SENSITIVITY_PRESETS.getD (max 0 (min 9 i)).toNat (0, 0, 0, 0)).2.1
      ∧ (Nc.apply_sensitivity i d).th_start
          = (SENSITIVITY_PRESETS.getD (max 0 (min 9 i)).toNat (0, 0, 0, 0)).2.2.1
      ∧ (Nc.apply_sensitivity i d).th_end
          = (SENSITIVITY_PRESETS.getD (max 0 (min 9 i)).toNat (0, 0, 0, 0)).2.2.2
      ∧ (Nc.apply_sensitivity i d).t_fast = 0
      ∧ (Nc.apply_sensitivity i d).t_slow = 0
      ∧ (Nc.apply_sensitivity i d).prev_flow = 0
      ∧ (Nc.apply_sensitivity i d).flow_lp = 0
      ∧ (Nc.apply_sensitivity i d).scale_ex = d.scale_ex
      ∧ (Nc.apply_sensitivity i d).scale_in = d.scale_in
      ∧ (Nc.apply_sensitivity i d).peak_ex = d.peak_ex
      ∧ (Nc.apply_sensitivity i d).peak_in = d.peak_in
      ∧ (Nc.apply_sensitivity i d).phase = d.phase
      ∧ (Nc.apply_sensitivity i d).t_phase_start = d.t_phase_start
      ∧ (Nc.apply_sensitivity i d).refrac_until = d.refrac_until
      ∧ (Nc.apply_sensitivity i d).peak_val = d.peak_val
      ∧ (Nc.apply_sensitivity i d).prev_norm = d.prev_norm
      ∧ (Nc.apply_sensitivity i d).idle_hold_start = d.idle_hold_start
      ∧ (Nc.apply_sensitivity i d).norm = d.norm
      ∧ (Nc.apply_sensitivity i d).last_exhale_duration = d.last_exhale_duration
      ∧ (Nc.apply_sensitivity i d).exhale_start_time = d.exhale_start_time
      ∧ (Nc.apply_sensitivity i d).last_inhale_duration = d.last_inhale_duration
      ∧ (Nc.apply_sensitivity i d).inhale_start_time = d.inhale_start_time
      ∧ (Nc.apply_sensitivity i d).mood = d.mood
      ∧ (Nc.apply_sensitivity i d).unworn = d.unworn
      ∧ (Nc.apply_sensitivity i d).short_streak = d.short_streak
      ∧ (Nc.apply_sensitivity i d).artifact_short_max = d.artifact_short_max
      ∧ (Nc.apply_sensitivity i d).unworn_streak_needed = d.unworn_streak_needed
      ∧ (Nc.apply_sensitivity i d).worn_recovery_min = d.worn_recovery_min
      ∧ (Nc.apply_sensitivity i d).very_short_max = d.very_short_max
      ∧ (Nc.apply_sensitivity i d).short_max = d.short_max
      ∧ (Nc.apply_sensitivity i d).medium_max = d.medium_max
      ∧ (Nc.apply_sensitivity i d).long_max = d.long_max
      ∧ (Nc.apply_sensitivity i d).next_proc = d.next_proc) := by
  constructor
  · intro i d
    have hpid : max 0 (min 9 (max 0 (min 9 i))) = max 0 (min 9 i) := by omega
    refine ⟨rfl, ?_, rfl, rfl, rfl, rfl, rfl, rfl, rfl, rfl, rfl, rfl, rfl, rfl, rfl,
      rfl, rfl, rfl, rfl, rfl, rfl, rfl, rfl, rfl, rfl, rfl, rfl, rfl, rfl, rfl, rfl,
      rfl, rfl, rfl, rfl, rfl, rfl, rfl⟩
    show Fw.apply_sensitivity i d = Fw.apply_sensitivity (max 0 (min 9 i)) d
    unfold Fw.apply_sensitivity
    rw [hpid]
  · intro i d
    have hpid : max 0 (min 9 (max 0 (min 9 i))) = max 0 (min 9 i) := by omega
    refine ⟨rfl, ?_, rfl, rfl, rfl, rfl, rfl, rfl, rfl, rfl, rfl, rfl, rfl, rfl, rfl,
      rfl, rfl, rfl, rfl, rfl, rfl, rfl, rfl, rfl, rfl, rfl, rfl, rfl, rfl, rfl, rfl,
      rfl, rfl, rfl, rfl, rfl⟩
    show Nc.apply_sensitivity i d = Nc.apply_sensitivity (max 0 (min 9 i)) d
    unfold Nc.apply_sensitivity
    rw [hpid]

/-! ### C4 -/

lemma record_exhale_short_run (l : List ℚ) :
    ∀ d : Fw.BreathDetector, (∀ x ∈ l, x ≤ d.artifact_short_max) →
      (l.foldl (fun s dur => Fw.record_exhale dur 0 s) d).short_streak
          = d.short_streak + l.length
      ∧ (l.foldl (fun s dur => Fw.record_exhale dur 0 s) d).artifact_short_max
          = d.artifact_short_max
      ∧ (l.foldl (fun s dur => Fw.record_exhale dur 0 s) d).unworn_streak_needed
          = d.unworn_streak_needed
      ∧ ((l.foldl (fun s dur => Fw.record_exhale dur 0 s) d).unworn = true ↔
          (d.unworn = true ∨ (l ≠ [] ∧ d.unworn_streak_needed ≤ d.short_streak + l.length))) := by
  induction l with
  | nil => intro d _; simp
  | cons a tl ih =>
      intro d h
      have ha : a ≤ d.artifact_short_max := h a (List.mem_cons_self a tl)
      have hstep : Fw.record_exhale a 0 d =
          { d with short_streak := d.short_streak + 1,
                   unworn := if d.unworn_streak_needed ≤ d.short_streak + 1 then true
                             else d.unworn,
                   last_exhale_time := some 0,
                   last_exhale_short := true } := by
        unfold Fw.record_exhale
        rw [if_pos ha]
      have htl : ∀ x ∈ tl, x ≤ (Fw.record_exhale a 0 d).artifact_short_max := by
        intro x hx
        rw [hstep]
        exact h x (List.mem_cons_of_mem a hx)
      obtain ⟨h1, h2, h3, h4⟩ := ih (Fw.record_exhale a 0 d) htl
      rw [List.foldl_cons]
      refine ⟨?_, ?_, ?_, ?_⟩
      · rw [h1, hstep]
        simp [List.length_cons]
        omega
      · rw [h2, hstep]
      · rw [h3, hstep]
      · rw [h4, hstep]
        simp only [List.length_cons, ne_eq]
        by_cases hn : d.unworn_streak_needed ≤ d.short_streak + 1
        · rw [if_pos hn]
          constructor
          · intro _; right; exact ⟨List.cons_ne_nil a tl, by omega⟩
          · intro _; left; rfl
        · rw [if_neg hn]
          constructor
          · rintro (hu | ⟨hne, hle⟩)
            · exact Or.inl hu
            · right
              refine ⟨by simp, by omega⟩
          · rintro (hu | ⟨_, hle⟩)
            · exact Or.inl hu
            · rcases List.eq_nil_or_concat tl with htl0 | _
              · subst htl0
                simp only [List.length_nil] at hle ⊢
                omega
              · right
                constructor
                · intro hcon
                  subst hcon
                  simp at hle
                  omega
                · omega

lemma record_exhale_long_run (l : List ℚ) :
    ∀ d : Fw.BreathDetector, (∀ x ∈ l, d.artifact_short_max < x) → d.unworn = false →
      (l.foldl (fun s dur => Fw.record_exhale dur 0 s) d).unworn = false
      ∧ (l.foldl (fun s dur => Fw.record_exhale dur 0 s) d).artifact_short_max
          = d.artifact_short_max := by
  induction l with
  | nil => intro d _ hu; exact ⟨hu, rfl⟩
  | cons a tl ih =>
      intro d h hu
      have ha : d.artifact_short_max < a := h a (List.mem_cons_self a tl)
      have hstep : Fw.record_exhale a 0 d =
          { d with last_exhale_time := some 0, last_exhale_short := false,
                   short_streak := 0 } := by
        unfold Fw.record_exhale
        rw [if_neg (not_le.mpr ha)]
        rw [if_neg]
        simp [hu]
      rw [List.foldl_cons]
      have htl : ∀ x ∈ tl, (Fw.record_exhale a 0 d).artifact_short_max < x := by
        intro x hx
        rw [hstep]
        exact h x (List.mem_cons_of_mem a hx)
      have hu2 : (Fw.record_exhale a 0 d).unworn = false := by rw [hstep]; exact hu
      obtain ⟨g1, g2⟩ := ih (Fw.record_exhale a 0 d) htl hu2
      exact ⟨g1, by rw [g2, hstep]⟩

/-- C4: the short-exhale streak counter increments on every recorded exhale
of duration at most `artifact_short_max` and resets to 0 on any longer one;
the unworn flag is set exactly when the incremented streak reaches
`unworn_streak_needed` (so, from a fresh detector, a run of sub-0.6 s
exhales sets it iff it contains at least 6 of them — precisely at the 6th —
while exhales all longer than 0.6 s, such as six 1.8 s ones, never set it);
and once set, an exhale clears it exactly when its duration reaches
`worn_recovery_min` (1.5 s, at the default thresholds). -/
theorem C4_unworn_streak :
    (∀ (d : Fw.BreathDetector) (dur now : ℚ), dur ≤ d.artifact_short_max →
        (Fw.record_exhale dur now d).short_streak = d.short_streak + 1)
    ∧ (∀ (d : Fw.BreathDetector) (dur now : ℚ), d.artifact_short_max < dur →
        (Fw.record_exhale dur now d).short_streak = 0)
    ∧ (∀ (d : Fw.BreathDetector) (dur now : ℚ), dur ≤ d.artifact_short_max →
        ((Fw.record_exhale dur now d).unworn = true ↔
          (d.unworn = true ∨ d.unworn_streak_needed ≤ d.short_streak + 1)))
    ∧ (∀ l : List ℚ, (∀ x ∈ l, x ≤ 6/10) →
        ((l.foldl (fun s dur => Fw.record_exhale dur 0 s) (Fw.init 0)).unworn = true ↔
          6 ≤ l.length))
    ∧ (∀ l : List ℚ, (∀ x ∈ l, 6/10 < x) →
        (l.foldl (fun s dur => Fw.record_exhale dur 0 s) (Fw.init 0)).unworn = false)
    ∧ (∀ (d : Fw.BreathDetector) (dur now : ℚ), d.unworn = true →
        d.artifact_short_max = 6/10 → d.worn_recovery_min = 3/2 →
        ((Fw.record_exhale dur now d).unworn = false ↔ 3/2 ≤ dur)) := by
  refine ⟨?_, ?_, ?_, ?_, ?_, ?_⟩
  · intro d dur now h
    simp only [Fw.record_exhale]
    rw [if_pos h]
  · intro d dur now h
    simp only [Fw.record_exhale]
    rw [if_neg (not_le.mpr h)]
    split_ifs <;> rfl
  · intro d dur now h
    simp only [Fw.record_exhale]
    rw [if_pos h]
    by_cases hn : d.unworn_streak_needed ≤ d.short_streak + 1
    · rw [if_pos hn]
      simp [hn]
    · rw [if_neg hn]
      simp [hn]
  · intro l h
    have := (record_exhale_short_run l (Fw.init 0) (by intro x hx; exact h x hx)).2.2.2
    rw [this]
    show false = true ∨ l ≠ [] ∧ 6 ≤ 0 + l.length ↔ 6 ≤ l.length
    constructor
    · rintro (hc | ⟨_, hle⟩)
      · exact absurd hc (by simp)
      · omega
    · intro hle
      right
      refine ⟨?_, by omega⟩
      intro hc
      subst hc
      simp at hle
  · intro l h
    exact (record_exhale_long_run l (Fw.init 0) (by intro x hx; exact h x hx) rfl).1
  · intro d dur now hu ha hw
    simp only [Fw.record_exhale]
    by_cases hs : dur ≤ d.artifact_short_max
    · rw [if_pos hs]
      constructor
      · intro hfalse
        by_cases hn : d.unworn_streak_needed ≤ d.short_streak + 1
        · simp [hn] at hfalse
        · simp [hn, hu] at hfalse
      · intro hge
        exfalso
        rw [ha] at hs
        linarith
    · rw [if_neg hs]
      by_cases h32 : (3/2 : ℚ) ≤ dur
      · rw [if_pos]
        · simp [h32]
        · refine ⟨hu, ?_⟩
          show d.worn_recovery_min ≤ dur
          rw [hw]
          exact h32
      · rw [if_neg]
        · constructor
          · intro hc
            exact absurd hc (by simp [hu])
          · intro hc
            exact absurd hc h32
        · rintro ⟨_, hc⟩
          apply h32
          calc (3/2 : ℚ) = d.worn_recovery_min := hw.symm
            _ ≤ dur := hc

/-- Witness for C4: concrete instances of each conjunct — a 0.5 s exhale
increments the fresh streak to 1 and leaves unworn clear; a 1 s exhale
resets it; ten 0.5 s exhales set unworn (6 ≤ 10); six 1.8 s exhales do not;
a 2 s exhale clears a set unworn flag. -/
theorem C4_unworn_streak_witness :
    (Fw.record_exhale (1/2) 0 (Fw.init 0)).short_streak = (Fw.init 0).short_streak + 1
    ∧ (Fw.record_exhale 1 0 (Fw.init 0)).short_streak = 0
    ∧ ((Fw.record_exhale (1/2) 0 (Fw.init 0)).unworn = true ↔
        ((Fw.init 0).unworn = true ∨ (Fw.init 0).unworn_streak_needed ≤ (Fw.init 0).short_streak + 1))
    ∧ (((List.replicate 10 (1/2 : ℚ)).foldl (fun s dur => Fw.record_exhale dur 0 s)
          (Fw.init 0)).unworn = true ↔ 6 ≤ (List.replicate 10 (1/2 : ℚ)).length)
    ∧ ((List.replicate 6 (9/5 : ℚ)).foldl (fun s dur => Fw.record_exhale dur 0 s)
          (Fw.init 0)).unworn = false
    ∧ ((Fw.record_exhale 2 0 { Fw.init 0 with unworn := true }).unworn = false ↔ (3/2 : ℚ) ≤ 2) :=
  ⟨C4_unworn_streak.1 (Fw.init 0) (1/2) 0 (by norm_num [Fw.init]),
   C4_unworn_streak.2.1 (Fw.init 0) 1 0 (by norm_num [Fw.init]),
   C4_unworn_streak.2.2.1 (Fw.init 0) (1/2) 0 (by norm_num [Fw.init]),
   C4_unworn_streak.2.2.2.1 (List.replicate 10 (1/2 : ℚ))
     (by intro x hx; rw [List.eq_of_mem_replicate hx]; norm_num),
   C4_unworn_streak.2.2.2.2.1 (List.replicate 6 (9/5 : ℚ))
     (by intro x hx; rw [List.eq_of_mem_replicate hx]; norm_num),
   C4_unworn_streak.2.2.2.2.2 { Fw.init 0 with unworn := true } 2 0 (by norm_num [Fw.init])
     (by norm_num [Fw.init]) (by norm_num [Fw.init])⟩

/-! ### Projection lemmas through the MoodAnalyzer pipeline -/

lemma update_metrics_proj (sq : ℚ → ℚ) (m : MoodAnalyzer) :
    (MoodAnalyzer.update_metrics sq m).breath_count = m.breath_count
    ∧ (MoodAnalyzer.update_metrics sq m).is_calibrating = m.is_calibrating
    ∧ (MoodAnalyzer.update_metrics sq m).calibration_breaths = m.calibration_breaths := by
  simp only [MoodAnalyzer.update_metrics]
  split_ifs <;> exact ⟨rfl, rfl, rfl⟩

lemma compute_meditation_proj (m : MoodAnalyzer) :
    (MoodAnalyzer.compute_meditation_score m).breath_count = m.breath_count
    ∧ (MoodAnalyzer.compute_meditation_score m).is_calibrating = m.is_calibrating
    ∧ (MoodAnalyzer.compute_meditation_score m).calibration_breaths = m.calibration_breaths
    ∧ (MoodAnalyzer.compute_meditation_score m).stress_score = m.stress_score
    ∧ MoodAnalyzer.ratio_score (MoodAnalyzer.compute_meditation_score m)
        = MoodAnalyzer.ratio_score m
    ∧ MoodAnalyzer.duration_score (MoodAnalyzer.compute_meditation_score m)
        = MoodAnalyzer.duration_score m
    ∧ MoodAnalyzer.rmssd_score (MoodAnalyzer.compute_meditation_score m)
        = MoodAnalyzer.rmssd_score m := by
  simp only [MoodAnalyzer.compute_meditation_score]
  split_ifs <;>
    exact ⟨rfl, rfl, rfl, rfl, rfl, rfl, rfl⟩

lemma push_breath_proj (ex inh : ℚ) (m : MoodAnalyzer) :
    (MoodAnalyzer.push_breath ex inh m).breath_count = m.breath_count + 1
    ∧ (MoodAnalyzer.push_breath ex inh m).is_calibrating = m.is_calibrating
    ∧ (MoodAnalyzer.push_breath ex inh m).calibration_breaths = m.calibration_breaths := by
  obtain ⟨bc, ic, cr, cv, fc, cb, rb, mr, lbd, sd, md, cra, crm, crc, ccy, ss, fs, ms⟩ := m
  unfold MoodAnalyzer.push_breath
  cases lbd <;> exact ⟨rfl, rfl, rfl⟩

lemma compute_stress_proj (m : MoodAnalyzer) :
    (MoodAnalyzer.compute_stress_score m).breath_count = m.breath_count
    ∧ (MoodAnalyzer.compute_stress_score m).is_calibrating = m.is_calibrating
    ∧ (MoodAnalyzer.compute_stress_score m).calibration_breaths = m.calibration_breaths
    ∧ (MoodAnalyzer.compute_stress_score m).stress_score
        = pyRound (max (-5) (min 5
            ((1/2) * MoodAnalyzer.ratio_score m + (1/4) * MoodAnalyzer.duration_score m
             + (1/4) * MoodAnalyzer.rmssd_score m)))
    ∧ MoodAnalyzer.ratio_score (MoodAnalyzer.compute_stress_score m)
        = MoodAnalyzer.ratio_score m
    ∧ MoodAnalyzer.duration_score (MoodAnalyzer.compute_stress_score m)
        = MoodAnalyzer.duration_score m
    ∧ MoodAnalyzer.rmssd_score (MoodAnalyzer.compute_stress_score m)
        = MoodAnalyzer.rmssd_score m :=
  ⟨rfl, rfl, rfl, rfl, rfl, rfl, rfl⟩

lemma compute_focus_proj (m : MoodAnalyzer) :
    (MoodAnalyzer.compute_focus_score m).breath_count = m.breath_count
    ∧ (MoodAnalyzer.compute_focus_score m).is_calibrating = m.is_calibrating
    ∧ (MoodAnalyzer.compute_focus_score m).calibration_breaths = m.calibration_breaths
    ∧ (MoodAnalyzer.compute_focus_score m).stress_score = m.stress_score
    ∧ MoodAnalyzer.ratio_score (MoodAnalyzer.compute_focus_score m)
        = MoodAnalyzer.ratio_score m
    ∧ MoodAnalyzer.duration_score (MoodAnalyzer.compute_focus_score m)
        = MoodAnalyzer.duration_score m
    ∧ MoodAnalyzer.rmssd_score (MoodAnalyzer.compute_focus_score m)
        = MoodAnalyzer.rmssd_score m :=
  ⟨rfl, rfl, rfl, rfl, rfl, rfl, rfl⟩

/-- Accepted branch of `MoodAnalyzer.end_exhale`: the breath is counted,
`calibration_breaths` is untouched, the calibration flag follows the source
rule, and the stored stress score is the clamped rounded 50/25/25 blend of
the three component scores of the resulting state. -/
lemma end_exhale_valid (sq : ℚ → ℚ) (ex inh now : ℚ) (m : MoodAnalyzer)
    (h1 : ¬(ex < 3/10 ∨ inh < 2/10)) (h2 : ¬(15 < ex ∨ 10 < inh)) :
    (MoodAnalyzer.end_exhale sq ex inh now m).breath_count = m.breath_count + 1
    ∧ (MoodAnalyzer.end_exhale sq ex inh now m).calibration_breaths = m.calibration_breaths
    ∧ (MoodAnalyzer.end_exhale sq ex inh now m).is_calibrating
        = (if m.calibration_breaths ≤ (m.breath_count : ℤ) + 1 then false
           else m.is_calibrating)
    ∧ (MoodAnalyzer.end_exhale sq ex inh now m).stress_score
        = pyRound (max (-5) (min 5
            ((1/2) * MoodAnalyzer.ratio_score (MoodAnalyzer.end_exhale sq ex inh now m)
             + (1/4) * MoodAnalyzer.duration_score (MoodAnalyzer.end_exhale sq ex inh now m)
             + (1/4) * MoodAnalyzer.rmssd_score (MoodAnalyzer.end_exhale sq ex inh now m)))) := by
  obtain ⟨hpc, hpi, hpb⟩ := push_breath_proj ex inh m
  obtain ⟨huc, hui, hub⟩ := update_metrics_proj sq (MoodAnalyzer.push_breath ex inh m)
  set A := MoodAnalyzer.update_metrics sq (MoodAnalyzer.push_breath ex inh m) with hA
  obtain ⟨hmc, hmi, hmb, hms, hmr, hmd, hmv⟩ := compute_meditation_proj
      (MoodAnalyzer.compute_focus_score (MoodAnalyzer.compute_stress_score A))
  set N := MoodAnalyzer.compute_focus_score (MoodAnalyzer.compute_stress_score A) with hN
  have heq : MoodAnalyzer.end_exhale sq ex inh now m =
      (if (MoodAnalyzer.compute_meditation_score N).calibration_breaths
          ≤ ((MoodAnalyzer.compute_meditation_score N).breath_count : ℤ)
       then { MoodAnalyzer.compute_meditation_score N with is_calibrating := false }
       else MoodAnalyzer.compute_meditation_score N) := by
    unfold MoodAnalyzer.end_exhale
    rw [if_neg h1, if_neg h2]
  have hcount : (MoodAnalyzer.compute_meditation_score N).breath_count = m.breath_count + 1 := by
    rw [hmc]
    show A.breath_count = m.breath_count + 1
    rw [huc, hpc]
  have hcb : (MoodAnalyzer.compute_meditation_score N).calibration_breaths
      = m.calibration_breaths := by
    rw [hmb]
    show A.calibration_breaths = m.calibration_breaths
    rw [hub, hpb]
  have hic : (MoodAnalyzer.compute_meditation_score N).is_calibrating = m.is_calibrating := by
    rw [hmi]
    show A.is_calibrating = m.is_calibrating
    rw [hui, hpi]
  have hsA : (MoodAnalyzer.compute_meditation_score N).stress_score
      = pyRound (max (-5) (min 5
          ((1/2) * MoodAnalyzer.ratio_score A + (1/4) * MoodAnalyzer.duration_score A
           + (1/4) * MoodAnalyzer.rmssd_score A))) := by
    rw [hms]
    rfl
  have hrA : MoodAnalyzer.ratio_score (MoodAnalyzer.compute_meditation_score N)
      = MoodAnalyzer.ratio_score A := by
    rw [hmr]
    rfl
  have hdA : MoodAnalyzer.duration_score (MoodAnalyzer.compute_meditation_score N)
      = MoodAnalyzer.duration_score A := by
    rw [hmd]
    rfl
  have hvA : MoodAnalyzer.rmssd_score (MoodAnalyzer.compute_meditation_score N)
      = MoodAnalyzer.rmssd_score A := by
    rw [hmv]
    rfl
  rw [heq]
  by_cases hcond : (MoodAnalyzer.compute_meditation_score N).calibration_breaths
      ≤ ((MoodAnalyzer.compute_meditation_score N).breath_count : ℤ)
  · rw [if_pos hcond]
    refine ⟨hcount, hcb, ?_, ?_⟩
    · rw [hcb, hcount] at hcond
      have hcond' : m.calibration_breaths ≤ (m.breath_count : ℤ) + 1 := by
        push_cast at hcond
        omega
      rw [if_pos hcond']
    · show (MoodAnalyzer.compute_meditation_score N).stress_score = _
      rw [hsA]
      have e1 : MoodAnalyzer.ratio_score
          { MoodAnalyzer.compute_meditation_score N with is_calibrating := false }
          = MoodAnalyzer.ratio_score (MoodAnalyzer.compute_meditation_score N) := rfl
      have e2 : MoodAnalyzer.duration_score
          { MoodAnalyzer.compute_meditation_score N with is_calibrating := false }
          = MoodAnalyzer.duration_score (MoodAnalyzer.compute_meditation_score N) := rfl
      have e3 : MoodAnalyzer.rmssd_score
          { MoodAnalyzer.compute_meditation_score N with is_calibrating := false }
          = MoodAnalyzer.rmssd_score (MoodAnalyzer.compute_meditation_score N) := rfl
      rw [e1, e2, e3, hrA, hdA, hvA]
  · rw [if_neg hcond]
    refine ⟨hcount, hcb, ?_, ?_⟩
    · rw [hcb, hcount] at hcond
      have hcond' : ¬(m.calibration_breaths ≤ (m.breath_count : ℤ) + 1) := by
        push_cast at hcond
        omega
      rw [if_neg hcond']
      exact hic
    · rw [hsA, hrA, hdA, hvA]

/-! ### C5 -/

lemma runBreaths_inv (sq : ℚ → ℚ) (calls : List (ℚ × ℚ × ℚ)) :
    (MoodAnalyzer.runBreaths sq calls).calibration_breaths = 6
    ∧ ((MoodAnalyzer.runBreaths sq calls).is_calibrating = true ↔
        ((MoodAnalyzer.runBreaths sq calls).breath_count : ℤ) < 6) := by
  unfold MoodAnalyzer.runBreaths
  suffices h : ∀ m : MoodAnalyzer, m.calibration_breaths = 6 →
      (m.is_calibrating = true ↔ (m.breath_count : ℤ) < 6) →
      (calls.foldl (fun m c => MoodAnalyzer.end_exhale sq c.1 c.2.1 c.2.2 m) m).calibration_breaths = 6
      ∧ ((calls.foldl (fun m c => MoodAnalyzer.end_exhale sq c.1 c.2.1 c.2.2 m) m).is_calibrating = true ↔
          ((calls.foldl (fun m c => MoodAnalyzer.end_exhale sq c.1 c.2.1 c.2.2 m) m).breath_count : ℤ) < 6) by
    exact h MoodAnalyzer.init rfl (by norm_num [MoodAnalyzer.init])
  induction calls with
  | nil => exact fun m h1 h2 => ⟨h1, h2⟩
  | cons c tl ih =>
      intro m h1 h2
      rw [List.foldl_cons]
      apply ih
      · by_cases hv1 : c.1 < 3/10 ∨ c.2.1 < 2/10
        · rw [end_exhale_reject sq c.1 c.2.1 c.2.2 m (by tauto)]
          exact h1
        · by_cases hv2 : 15 < c.1 ∨ 10 < c.2.1
          · rw [end_exhale_reject sq c.1 c.2.1 c.2.2 m (by tauto)]
            exact h1
          · rw [(end_exhale_valid sq c.1 c.2.1 c.2.2 m hv1 hv2).2.1]
            exact h1
      · by_cases hv1 : c.1 < 3/10 ∨ c.2.1 < 2/10
        · rw [end_exhale_reject sq c.1 c.2.1 c.2.2 m (by tauto)]
          exact h2
        · by_cases hv2 : 15 < c.1 ∨ 10 < c.2.1
          · rw [end_exhale_reject sq c.1 c.2.1 c.2.2 m (by tauto)]
            exact h2
          · obtain ⟨e1, _, e3, _⟩ := end_exhale_valid sq c.1 c.2.1 c.2.2 m hv1 hv2
            rw [e1, e3, h1]
            by_cases hc : (6 : ℤ) ≤ (m.breath_count : ℤ) + 1
            · rw [if_pos hc]
              push_cast
              constructor
              · intro hf
                exact absurd hf (by simp)
              · intro hlt
                exact absurd hlt (by omega)
            · rw [if_neg hc]
              push_cast
              constructor
              · intro hi
                have := h2.mp hi
                omega
              · intro _
                exact h2.mpr (by omega)

/-- C5: along any sequence of completed-breath reports, the three mood-score
getters return `none` exactly while fewer than `calibration_breaths`
(the default 6) valid breaths have been recorded, and return the stored
integer scores on every call after that point. -/
theorem C5_scores_gated_by_calibration (sq : ℚ → ℚ) (calls : List (ℚ × ℚ × ℚ)) :
    ((MoodAnalyzer.runBreaths sq calls).breath_count < 6 →
      (MoodAnalyzer.runBreaths sq calls).get_stress_score = none
      ∧ (MoodAnalyzer.runBreaths sq calls).get_focus_score = none
      ∧ (MoodAnalyzer.runBreaths sq calls).get_meditation_score = none)
    ∧ (6 ≤ (MoodAnalyzer.runBreaths sq calls).breath_count →
      (MoodAnalyzer.runBreaths sq calls).get_stress_score
          = some (MoodAnalyzer.runBreaths sq calls).stress_score
      ∧ (MoodAnalyzer.runBreaths sq calls).get_focus_score
          = some (MoodAnalyzer.runBreaths sq calls).focus_score
      ∧ (MoodAnalyzer.runBreaths sq calls).get_meditation_score
          = some (MoodAnalyzer.runBreaths sq calls).meditation_score) := by
  obtain ⟨h1, h2⟩ := runBreaths_inv sq calls
  constructor
  · intro hlt
    have hic : (MoodAnalyzer.runBreaths sq calls).is_calibrating = true :=
      h2.mpr (by exact_mod_cast hlt)
    unfold MoodAnalyzer.get_stress_score MoodAnalyzer.get_focus_score
      MoodAnalyzer.get_meditation_score
    rw [if_pos hic, if_pos hic, if_pos hic]
    exact ⟨rfl, rfl, rfl⟩
  · intro hge
    have hic : ¬((MoodAnalyzer.runBreaths sq calls).is_calibrating = true) := by
      intro hia
      have := h2.mp hia
      omega
    unfold MoodAnalyzer.get_stress_score MoodAnalyzer.get_focus_score
      MoodAnalyzer.get_meditation_score
    rw [if_neg hic, if_neg hic, if_neg hic]
    exact ⟨rfl, rfl, rfl⟩

/-- Witness for C5: the fresh analyzer returns `none`; after six valid
1 s / 1 s breaths every getter returns a score. -/
theorem C5_scores_gated_by_calibration_witness :
    (MoodAnalyzer.runBreaths (fun q => q) []).get_stress_score = none
    ∧ (MoodAnalyzer.runBreaths (fun q => q)
        (List.replicate 6 (1, 1, 0))).get_stress_score
        = some (MoodAnalyzer.runBreaths (fun q => q)
            (List.replicate 6 (1, 1, 0))).stress_score :=
  ⟨((C5_scores_gated_by_calibration (fun q => q) []).1
      (of_decide_eq_true (by with_unfolding_all rfl))).1,
   ((C5_scores_gated_by_calibration (fun q => q) (List.replicate 6 (1, 1, 0))).2
      (of_decide_eq_true (by with_unfolding_all rfl))).1⟩

/-! ### C7 -/

lemma component_score_bounds (m : MoodAnalyzer) :
    (-5 ≤ MoodAnalyzer.ratio_score m ∧ MoodAnalyzer.ratio_score m ≤ 5)
    ∧ (-5 ≤ MoodAnalyzer.duration_score m ∧ MoodAnalyzer.duration_score m ≤ 5)
    ∧ (-5 ≤ MoodAnalyzer.rmssd_score m ∧ MoodAnalyzer.rmssd_score m ≤ 5) := by
  unfold MoodAnalyzer.ratio_score MoodAnalyzer.duration_score MoodAnalyzer.rmssd_score
  refine ⟨⟨le_max_left _ _, max_le (by norm_num) (min_le_left _ _)⟩,
    ⟨le_max_left _ _, max_le (by norm_num) (min_le_left _ _)⟩,
    ⟨le_max_left _ _, max_le (by norm_num) (min_le_left _ _)⟩⟩

/-- C7: on every accepted breath the stored stress score equals the rounded
(ties to even, as Python `round`) clamp to [-5, 5] of
`0.5 * ratio_score + 0.25 * duration_score + 0.25 * rmssd_score`, where each
component score is itself clamped to [-5, 5]; hence the stored stress score
is an integer in [-5, 5]. -/
theorem C7_stress_score_blend (sq : ℚ → ℚ) (ex inh now : ℚ) (m : MoodAnalyzer)
    (h1 : ¬(ex < 3/10 ∨ inh < 2/10)) (h2 : ¬(15 < ex ∨ 10 < inh)) :
    (MoodAnalyzer.end_exhale sq ex inh now m).stress_score
        = pyRound (max (-5) (min 5
            ((1/2) * MoodAnalyzer.ratio_score (MoodAnalyzer.end_exhale sq ex inh now m)
             + (1/4) * MoodAnalyzer.duration_score (MoodAnalyzer.end_exhale sq ex inh now m)
             + (1/4) * MoodAnalyzer.rmssd_score (MoodAnalyzer.end_exhale sq ex inh now m))))
    ∧ -5 ≤ MoodAnalyzer.ratio_score (MoodAnalyzer.end_exhale sq ex inh now m)
    ∧ MoodAnalyzer.ratio_score (MoodAnalyzer.end_exhale sq ex inh now m) ≤ 5
    ∧ -5 ≤ MoodAnalyzer.duration_score (MoodAnalyzer.end_exhale sq ex inh now m)
    ∧ MoodAnalyzer.duration_score (MoodAnalyzer.end_exhale sq ex inh now m) ≤ 5
    ∧ -5 ≤ MoodAnalyzer.rmssd_score (MoodAnalyzer.end_exhale sq ex inh now m)
    ∧ MoodAnalyzer.rmssd_score (MoodAnalyzer.end_exhale sq ex inh now m) ≤ 5
    ∧ -5 ≤ (MoodAnalyzer.end_exhale sq ex inh now m).stress_score
    ∧ (MoodAnalyzer.end_exhale sq ex inh now m).stress_score ≤ 5 := by
  obtain ⟨_, _, _, hs⟩ := end_exhale_valid sq ex inh now m h1 h2
  obtain ⟨⟨b1, b2⟩, ⟨b3, b4⟩, ⟨b5, b6⟩⟩ :=
    component_score_bounds (MoodAnalyzer.end_exhale sq ex inh now m)
  refine ⟨hs, b1, b2, b3, b4, b5, b6, ?_, ?_⟩
  · rw [hs]
    apply le_pyRound_of_le
    push_cast
    exact le_max_left _ _
  · rw [hs]
    apply pyRound_le_of_le
    push_cast
    exact max_le (by norm_num) (min_le_left _ _)

/-- Witness for C7: a 1 s / 1 s breath from the fresh analyzer. -/
theorem C7_stress_score_blend_witness :
    (MoodAnalyzer.end_exhale (fun q => q) 1 1 0 MoodAnalyzer.init).stress_score
        = pyRound (max (-5) (min 5
            ((1/2) * MoodAnalyzer.ratio_score
                (MoodAnalyzer.end_exhale (fun q => q) 1 1 0 MoodAnalyzer.init)
             + (1/4) * MoodAnalyzer.duration_score
                (MoodAnalyzer.end_exhale (fun q => q) 1 1 0 MoodAnalyzer.init)
             + (1/4) * MoodAnalyzer.rmssd_score
                (MoodAnalyzer.end_exhale (fun q => q) 1 1 0 MoodAnalyzer.init))))
    ∧ -5 ≤ (MoodAnalyzer.end_exhale (fun q => q) 1 1 0 MoodAnalyzer.init).stress_score
    ∧ (MoodAnalyzer.end_exhale (fun q => q) 1 1 0 MoodAnalyzer.init).stress_score ≤ 5 := by
  obtain ⟨hs, _, _, _, _, _, _, hb1, hb2⟩ :=
    C7_stress_score_blend (fun q => q) 1 1 0 MoodAnalyzer.init (by norm_num) (by norm_num)
  exact ⟨hs, hb1, hb2⟩

/-! ### Stage lemmas for the firmware detector -/

lemma fw_record_frame (a b : ℚ) (y : Fw.BreathDetector) :
    (Fw.record_exhale a b y).scale_ex = y.scale_ex
    ∧ (Fw.record_exhale a b y).scale_in = y.scale_in
    ∧ (Fw.record_exhale a b y).th_start = y.th_start
    ∧ (Fw.record_exhale a b y).norm = y.norm
    ∧ (Fw.record_exhale a b y).refrac_until = y.refrac_until
    ∧ (Fw.record_exhale a b y).phase = y.phase
    ∧ (Fw.record_exhale a b y).t_phase_start = y.t_phase_start
    ∧ (Fw.record_exhale a b y).idle_hold_start = y.idle_hold_start
    ∧ (Fw.record_exhale a b y).mood = y.mood
    ∧ (Fw.record_exhale a b y).last_inhale_duration = y.last_inhale_duration
    ∧ (Fw.record_exhale a b y).inhale_start_time = y.inhale_start_time
    ∧ (Fw.record_exhale a b y).exhale_start_time = y.exhale_start_time
    ∧ (Fw.record_exhale a b y).last_exhale_duration = y.last_exhale_duration := by
  simp only [Fw.record_exhale]
  split_ifs <;>
    exact ⟨rfl, rfl, rfl, rfl, rfl, rfl, rfl, rfl, rfl, rfl, rfl, rfl, rfl⟩

lemma fw_fei_frame (now : ℚ) (y : Fw.BreathDetector) :
    (Fw.finish_exhale_idle now y).scale_ex = y.scale_ex
    ∧ (Fw.finish_exhale_idle now y).scale_in = y.scale_in
    ∧ (Fw.finish_exhale_idle now y).th_start = y.th_start
    ∧ (Fw.finish_exhale_idle now y).norm = y.norm
    ∧ (Fw.finish_exhale_idle now y).refrac_until = y.refrac_until
    ∧ (Fw.finish_exhale_idle now y).phase = y.phase
    ∧ (Fw.finish_exhale_idle now y).t_phase_start = y.t_phase_start
    ∧ (Fw.finish_exhale_idle now y).idle_hold_start = y.idle_hold_start
    ∧ (Fw.finish_exhale_idle now y).mood = y.mood
    ∧ (Fw.finish_exhale_idle now y).last_inhale_duration = y.last_inhale_duration
    ∧ (Fw.finish_exhale_idle now y).inhale_start_time = y.inhale_start_time
    ∧ (Fw.finish_exhale_idle now y).exhale_start_time = y.exhale_start_time := by
  unfold Fw.finish_exhale_idle
  split
  · split
    · obtain ⟨f1, f2, f3, f4, f5, f6, f7, f8, f9, f10, f11, f12, _⟩ :=
        fw_record_frame _ _ _
      exact ⟨f1, f2, f3, f4, f5, f6, f7, f8, f9, f10, f11, f12⟩
    · exact ⟨rfl, rfl, rfl, rfl, rfl, rfl, rfl, rfl, rfl, rfl, rfl, rfl⟩
  · exact ⟨rfl, rfl, rfl, rfl, rfl, rfl, rfl, rfl, rfl, rfl, rfl, rfl⟩

lemma fw_idle_frame (now dn pa : ℚ) (y : Fw.BreathDetector) :
    (Fw.idle_check now dn pa y).1.scale_ex = y.scale_ex
    ∧ (Fw.idle_check now dn pa y).1.scale_in = y.scale_in
    ∧ (Fw.idle_check now dn pa y).1.th_start = y.th_start
    ∧ (Fw.idle_check now dn pa y).1.norm = y.norm
    ∧ (Fw.idle_check now dn pa y).1.refrac_until = y.refrac_until
    ∧ (Fw.idle_check now dn pa y).1.mood = y.mood
    ∧ (Fw.idle_check now dn pa y).1.last_inhale_duration = y.last_inhale_duration
    ∧ (Fw.idle_check now dn pa y).1.inhale_start_time = y.inhale_start_time
    ∧ (Fw.idle_check now dn pa y).1.exhale_start_time = y.exhale_start_time := by
  simp only [Fw.idle_check]
  split_ifs
  · obtain ⟨f1, f2, f3, f4, f5, _, _, _, f9, f10, f11, f12⟩ :=
      fw_fei_frame now { y with idle_hold_start := some (y.idle_hold_start.getD now) }
    exact ⟨f1, f2, f3, f4, f5, f9, f10, f11, f12⟩
  · exact ⟨rfl, rfl, rfl, rfl, rfl, rfl, rfl, rfl, rfl⟩
  · exact ⟨rfl, rfl, rfl, rfl, rfl, rfl, rfl, rfl, rfl⟩
  · exact ⟨rfl, rfl, rfl, rfl, rfl, rfl, rfl, rfl, rfl⟩

lemma fw_trans_frame (sq : ℚ → ℚ) (now pa : ℚ) (y : Fw.BreathDetector) :
    (Fw.trans_check sq now pa y).1.scale_ex = y.scale_ex
    ∧ (Fw.trans_check sq now pa y).1.scale_in = y.scale_in
    ∧ (Fw.trans_check sq now pa y).1.th_start = y.th_start := by
  simp only [Fw.trans_check, Fw.end_exhale_to_inhale]
  split_ifs <;> try exact ⟨rfl, rfl, rfl⟩
  all_goals split
  all_goals try exact ⟨rfl, rfl, rfl⟩
  all_goals (
    obtain ⟨f1, f2, f3, _⟩ := fw_record_frame _ _ _
    exact ⟨f1, f2, f3⟩)

lemma fw_sig_frame (t : ℚ) (d : Fw.BreathDetector) :
    (Fw.step_signal t d).phase = d.phase
    ∧ (Fw.step_signal t d).t_phase_start = d.t_phase_start
    ∧ (Fw.step_signal t d).refrac_until = d.refrac_until
    ∧ (Fw.step_signal t d).idle_hold_start = d.idle_hold_start
    ∧ (Fw.step_signal t d).th_start = d.th_start
    ∧ (Fw.step_signal t d).exhale_start_time = d.exhale_start_time
    ∧ (Fw.step_signal t d).inhale_start_time = d.inhale_start_time
    ∧ (Fw.step_signal t d).last_inhale_duration = d.last_inhale_duration
    ∧ (Fw.step_signal t d).last_exhale_duration = d.last_exhale_duration
    ∧ (Fw.step_signal t d).unworn = d.unworn
    ∧ (Fw.step_signal t d).short_streak = d.short_streak
    ∧ (Fw.step_signal t d).mood = d.mood := by
  refine ⟨rfl, rfl, rfl, rfl, rfl, rfl, rfl, rfl, rfl, rfl, rfl, ?_⟩
  simp only [Fw.step_signal]
  split_ifs <;> rfl

lemma fw_sig_scale (t : ℚ) (d : Fw.BreathDetector)
    (hex : SCALE_FLOOR ≤ d.scale_ex) (hin : SCALE_FLOOR ≤ d.scale_in) :
    SCALE_FLOOR ≤ (Fw.step_signal t d).scale_ex
    ∧ SCALE_FLOOR ≤ (Fw.step_signal t d).scale_in
    ∧ SCALE_FLOOR ≤ Fw.step_denom t d := by
  have h1 : SCALE_FLOOR ≤ (Fw.step_signal t d).scale_ex := by
    simp only [Fw.step_signal]
    split_ifs <;> [exact le_max_right _ _; exact hex]
  have h2 : SCALE_FLOOR ≤ (Fw.step_signal t d).scale_in := by
    simp only [Fw.step_signal]
    split_ifs <;> [exact le_max_right _ _; exact hin]
  refine ⟨h1, h2, ?_⟩
  unfold Fw.step_denom
  split_ifs
  · exact le_trans h1 (le_max_right _ _)
  · exact le_trans h2 (le_max_right _ _)

lemma fw_idle_cases (now dn pa : ℚ) (y : Fw.BreathDetector) :
    (Fw.idle_check now dn pa y).1.phase = y.phase
    ∨ ((Fw.idle_check now dn pa y).1.phase = Phase.idle ∧ y.phase ≠ Phase.idle
       ∧ |y.norm| ≤ IDLE_MAG_FRAC ∧ |dn| ≤ IDLE_SLOPE_FRAC
       ∧ (∃ h, y.idle_hold_start = some h ∧ IDLE_HOLD_S * (15/10) ≤ now - h)
       ∧ MIN_PHASE_S ≤ pa) := by
  by_cases h1 : y.phase ≠ Phase.idle
  · by_cases h2 : |y.norm| ≤ IDLE_MAG_FRAC ∧ |dn| ≤ IDLE_SLOPE_FRAC
    · by_cases h3 : IDLE_HOLD_S * (15/10) ≤ now - y.idle_hold_start.getD now
          ∧ MIN_PHASE_S ≤ pa
      · right
        simp only [Fw.idle_check]
        rw [if_pos h1, if_pos h2, if_pos h3]
        refine ⟨rfl, h1, h2.1, h2.2, ?_, h3.2⟩
        cases hh : y.idle_hold_start with
        | none =>
            exfalso
            have h30 := h3.1
            rw [hh] at h30
            simp only [Option.getD_none] at h30
            rw [IDLE_HOLD_S] at h30
            nlinarith [h30]
        | some h =>
            refine ⟨h, rfl, ?_⟩
            have h30 := h3.1
            rw [hh] at h30
            simpa using h30
      · left
        simp only [Fw.idle_check]
        rw [if_pos h1, if_pos h2, if_neg h3]
    · left
      simp only [Fw.idle_check]
      rw [if_pos h1, if_neg h2]
  · left
    simp only [Fw.idle_check]
    rw [if_neg h1]

lemma fw_idle_hold (now dn pa : ℚ) (y : Fw.BreathDetector) (hph : y.phase ≠ Phase.idle) :
    (Fw.idle_check now dn pa y).1.idle_hold_start
      = (if |y.norm| ≤ IDLE_MAG_FRAC ∧ |dn| ≤ IDLE_SLOPE_FRAC
         then some (y.idle_hold_start.getD now) else none) := by
  by_cases h2 : |y.norm| ≤ IDLE_MAG_FRAC ∧ |dn| ≤ IDLE_SLOPE_FRAC
  · rw [if_pos h2]
    simp only [Fw.idle_check]
    rw [if_pos hph, if_pos h2]
    by_cases h3 : IDLE_HOLD_S * (15/10) ≤ now - y.idle_hold_start.getD now ∧ MIN_PHASE_S ≤ pa
    · rw [if_pos h3]
      exact (fw_fei_frame now _).2.2.2.2.2.2.2.1
    · rw [if_neg h3]
  · rw [if_neg h2]
    simp only [Fw.idle_check]
    rw [if_pos hph, if_neg h2]

lemma fw_trans_cases (sq : ℚ → ℚ) (now pa : ℚ) (y : Fw.BreathDetector) :
    Fw.trans_check sq now pa y = (y, false)
    ∨ ((Fw.trans_check sq now pa y).2 = true
       ∧ (((Fw.trans_check sq now pa y).1.phase = Phase.inh ∧ y.phase ≠ Phase.inh
            ∧ y.th_start < y.norm)
          ∨ ((Fw.trans_check sq now pa y).1.phase = Phase.exh ∧ y.phase ≠ Phase.exh
            ∧ y.norm < -y.th_start))
       ∧ (Fw.trans_check sq now pa y).1.refrac_until = now + MIN_PHASE_S * (1/2)
       ∧ (Fw.trans_check sq now pa y).1.idle_hold_start = none) := by
  by_cases hA : y.phase ≠ Phase.inh ∧ y.th_start < y.norm
  · by_cases hB : MIN_PHASE_S ≤ pa ∨ y.phase = Phase.idle
    · right
      simp only [Fw.trans_check]
      rw [if_pos hA, if_pos hB]
      exact ⟨rfl, Or.inl ⟨rfl, hA.1, hA.2⟩, rfl, rfl⟩
    · left
      simp only [Fw.trans_check]
      rw [if_pos hA, if_neg hB]
  · by_cases hC : y.phase ≠ Phase.exh ∧ y.norm < -y.th_start
    · by_cases hD : MIN_PHASE_S ≤ pa ∨ y.phase = Phase.idle
      · right
        simp only [Fw.trans_check]
        rw [if_neg hA, if_pos hC, if_pos hD]
        exact ⟨rfl, Or.inr ⟨rfl, hC.1, hC.2⟩, rfl, rfl⟩
      · left
        simp only [Fw.trans_check]
        rw [if_neg hA, if_pos hC, if_neg hD]
    · left
      simp only [Fw.trans_check]
      rw [if_neg hA, if_neg hC]

lemma fw_trans_mood (sq : ℚ → ℚ) (now pa : ℚ) (y : Fw.BreathDetector)
    (h : ¬(y.phase = Phase.exh ∧ (Fw.trans_check sq now pa y).1.phase = Phase.inh)) :
    (Fw.trans_check sq now pa y).1.mood = y.mood := by
  by_cases hA : y.phase ≠ Phase.inh ∧ y.th_start < y.norm
  · by_cases hB : MIN_PHASE_S ≤ pa ∨ y.phase = Phase.idle
    · have hexh : ¬(y.phase = Phase.exh) := by
        intro hex
        apply h
        refine ⟨hex, ?_⟩
        simp only [Fw.trans_check]
        rw [if_pos hA, if_pos hB]
      simp only [Fw.trans_check]
      rw [if_pos hA, if_pos hB]
      show (Fw.end_exhale_to_inhale sq now y).mood = y.mood
      unfold Fw.end_exhale_to_inhale
      rw [if_neg hexh]
    · simp only [Fw.trans_check]
      rw [if_pos hA, if_neg hB]
  · by_cases hC : y.phase ≠ Phase.exh ∧ y.norm < -y.th_start
    · by_cases hD : MIN_PHASE_S ≤ pa ∨ y.phase = Phase.idle
      · simp only [Fw.trans_check]
        rw [if_neg hA, if_pos hC, if_pos hD]
        show MoodAnalyzer.start_exhale _ = y.mood
        unfold MoodAnalyzer.start_exhale
        split
        · split <;> rfl
        · rfl
      · simp only [Fw.trans_check]
        rw [if_neg hA, if_pos hC, if_neg hD]
    · simp only [Fw.trans_check]
      rw [if_neg hA, if_neg hC]

lemma fw_step_eq_suppressed (sq : ℚ → ℚ) (now t : ℚ) (d : Fw.BreathDetector)
    (hg : now < d.refrac_until) :
    Fw.step sq now t d
      = Fw.idle_check now (Fw.step_dnorm t d)
          (now - (Fw.step_signal t d).t_phase_start) (Fw.step_signal t d) := by
  have hIr : (Fw.idle_check now (Fw.step_dnorm t d)
      (now - (Fw.step_signal t d).t_phase_start) (Fw.step_signal t d)).1.refrac_until
      = d.refrac_until := by
    rw [(fw_idle_frame _ _ _ _).2.2.2.2.1, (fw_sig_frame t d).2.2.1]
  simp only [Fw.step, Fw.step_phase]
  rw [hIr, if_pos hg]

lemma fw_step_eq_open (sq : ℚ → ℚ) (now t : ℚ) (d : Fw.BreathDetector)
    (hg : ¬(now < d.refrac_until)) :
    (Fw.step sq now t d).1
      = (Fw.trans_check sq now (now - (Fw.step_signal t d).t_phase_start)
          (Fw.idle_check now (Fw.step_dnorm t d)
            (now - (Fw.step_signal t d).t_phase_start) (Fw.step_signal t d)).1).1 := by
  have hIr : (Fw.idle_check now (Fw.step_dnorm t d)
      (now - (Fw.step_signal t d).t_phase_start) (Fw.step_signal t d)).1.refrac_until
      = d.refrac_until := by
    rw [(fw_idle_frame _ _ _ _).2.2.2.2.1, (fw_sig_frame t d).2.2.1]
  simp only [Fw.step, Fw.step_phase]
  rw [hIr, if_neg hg]

lemma fw_step_suppressed (sq : ℚ → ℚ) (now t : ℚ) (d : Fw.BreathDetector)
    (hg : now < d.refrac_until) :
    ((Fw.step sq now t d).1.phase = d.phase ∨ (Fw.step sq now t d).1.phase = Phase.idle)
    ∧ (Fw.step sq now t d).1.refrac_until = d.refrac_until
    ∧ (d.phase ≠ Phase.idle →
        (Fw.idle_bounds_ok t d →
          (Fw.step sq now t d).1.idle_hold_start = some (d.idle_hold_start.getD now))
        ∧ (¬Fw.idle_bounds_ok t d → (Fw.step sq now t d).1.idle_hold_start = none)) := by
  have hstep := fw_step_eq_suppressed sq now t d hg
  have hsig := fw_sig_frame t d
  refine ⟨?_, ?_, ?_⟩
  · rw [hstep]
    rcases fw_idle_cases now (Fw.step_dnorm t d)
        (now - (Fw.step_signal t d).t_phase_start) (Fw.step_signal t d) with hc | hc
    · left
      rw [hc, hsig.1]
    · right
      exact hc.1
  · rw [hstep, (fw_idle_frame _ _ _ _).2.2.2.2.1, hsig.2.2.1]
  · intro hph
    have hph' : (Fw.step_signal t d).phase ≠ Phase.idle := by
      rw [hsig.1]
      exact hph
    constructor
    · intro hb
      unfold Fw.idle_bounds_ok at hb
      rw [hstep, fw_idle_hold now (Fw.step_dnorm t d) _ _ hph', if_pos hb,
        hsig.2.2.2.1]
    · intro hb
      unfold Fw.idle_bounds_ok at hb
      rw [hstep, fw_idle_hold now (Fw.step_dnorm t d) _ _ hph', if_neg hb]

lemma fw_step_main (sq : ℚ → ℚ) (now t : ℚ) (d : Fw.BreathDetector)
    (hth : IDLE_MAG_FRAC < d.th_start) :
    (((Fw.step sq now t d).1.phase = d.phase ∨ (Fw.step sq now t d).1.phase = Phase.idle)
      ∧ (Fw.step sq now t d).1.refrac_until = d.refrac_until)
    ∨ (¬(now < d.refrac_until)
       ∧ Fw.non_idle_transition d (Fw.step sq now t d).1
       ∧ (Fw.step sq now t d).1.refrac_until = now + MIN_PHASE_S * (1/2)) := by
  have hsig := fw_sig_frame t d
  by_cases hg : now < d.refrac_until
  · left
    exact ⟨(fw_step_suppressed sq now t d hg).1, (fw_step_suppressed sq now t d hg).2.1⟩
  · have hstep := fw_step_eq_open sq now t d hg
    have hIfr := fw_idle_frame now (Fw.step_dnorm t d)
        (now - (Fw.step_signal t d).t_phase_start) (Fw.step_signal t d)
    rcases fw_trans_cases sq now (now - (Fw.step_signal t d).t_phase_start)
        (Fw.idle_check now (Fw.step_dnorm t d)
          (now - (Fw.step_signal t d).t_phase_start) (Fw.step_signal t d)).1 with hno | hfire
    · left
      have h1 : (Fw.step sq now t d).1
          = (Fw.idle_check now (Fw.step_dnorm t d)
              (now - (Fw.step_signal t d).t_phase_start) (Fw.step_signal t d)).1 := by
        rw [hstep, hno]
      rw [h1]
      constructor
      · rcases fw_idle_cases now (Fw.step_dnorm t d)
            (now - (Fw.step_signal t d).t_phase_start) (Fw.step_signal t d) with hc | hc
        · left
          rw [hc, hsig.1]
        · right
          exact hc.1
      · rw [hIfr.2.2.2.2.1, hsig.2.2.1]
    · obtain ⟨_, hwhich, hrf, _⟩ := hfire
      -- the idle check cannot have moved to Idle here, else no threshold crossing
      have hsame : (Fw.idle_check now (Fw.step_dnorm t d)
          (now - (Fw.step_signal t d).t_phase_start) (Fw.step_signal t d)).1.phase
          = d.phase := by
        rcases fw_idle_cases now (Fw.step_dnorm t d)
            (now - (Fw.step_signal t d).t_phase_start) (Fw.step_signal t d) with hc | hc
        · rw [hc, hsig.1]
        · exfalso
          obtain ⟨hidle, _, hmag, _, _, _⟩ := hc
          have hnorm : |(Fw.step_signal t d).norm| ≤ IDLE_MAG_FRAC := hmag
          have hth' : (Fw.idle_check now (Fw.step_dnorm t d)
              (now - (Fw.step_signal t d).t_phase_start)
              (Fw.step_signal t d)).1.th_start = d.th_start := by
            rw [hIfr.2.2.1, hsig.2.2.2.2.1]
          have hnorm' : (Fw.idle_check now (Fw.step_dnorm t d)
              (now - (Fw.step_signal t d).t_phase_start)
              (Fw.step_signal t d)).1.norm = (Fw.step_signal t d).norm := hIfr.2.2.2.1
          rcases hwhich with ⟨_, _, hcross⟩ | ⟨_, _, hcross⟩
          · rw [hth', hnorm'] at hcross
            have := abs_le.mp hnorm
            linarith [this.2]
          · rw [hth', hnorm'] at hcross
            have := abs_le.mp hnorm
            linarith [this.1]
      right
      refine ⟨hg, ?_, ?_⟩
      · rcases hwhich with ⟨hph, hne, _⟩ | ⟨hph, hne, _⟩
        · refine ⟨?_, Or.inl (by rw [hstep]; exact hph)⟩
          rw [hstep, hph]
          rw [hsame] at hne
          exact fun hc => hne hc.symm
        · refine ⟨?_, Or.inr (by rw [hstep]; exact hph)⟩
          rw [hstep, hph]
          rw [hsame] at hne
          exact fun hc => hne hc.symm
      · rw [hstep, hrf]

lemma fw_step_frame (sq : ℚ → ℚ) (now t : ℚ) (d : Fw.BreathDetector) :
    (Fw.step sq now t d).1.scale_ex = (Fw.step_signal t d).scale_ex
    ∧ (Fw.step sq now t d).1.scale_in = (Fw.step_signal t d).scale_in
    ∧ (Fw.step sq now t d).1.th_start = d.th_start := by
  by_cases hg : now < d.refrac_until
  · rw [fw_step_eq_suppressed sq now t d hg]
    obtain ⟨f1, f2, f3, _⟩ := fw_idle_frame now (Fw.step_dnorm t d)
        (now - (Fw.step_signal t d).t_phase_start) (Fw.step_signal t d)
    exact ⟨f1, f2, f3.trans (fw_sig_frame t d).2.2.2.2.1⟩
  · rw [fw_step_eq_open sq now t d hg]
    obtain ⟨g1, g2, g3⟩ := fw_trans_frame sq now (now - (Fw.step_signal t d).t_phase_start)
        (Fw.idle_check now (Fw.step_dnorm t d)
          (now - (Fw.step_signal t d).t_phase_start) (Fw.step_signal t d)).1
    obtain ⟨f1, f2, f3, _⟩ := fw_idle_frame now (Fw.step_dnorm t d)
        (now - (Fw.step_signal t d).t_phase_start) (Fw.step_signal t d)
    exact ⟨g1.trans f1, g2.trans f2, (g3.trans f3).trans (fw_sig_frame t d).2.2.2.2.1⟩

lemma fw_step_hold_some (sq : ℚ → ℚ) (now t : ℚ) (d : Fw.BreathDetector) (h : ℚ)
    (h1 : (Fw.step sq now t d).1.idle_hold_start = some h)
    (h2 : (Fw.step sq now t d).1.phase ≠ Phase.idle) :
    d.phase ≠ Phase.idle ∧ Fw.idle_bounds_ok t d
    ∧ (d.idle_hold_start = some h ∨ (d.idle_hold_start = none ∧ h = now)) := by
  have hsig := fw_sig_frame t d
  have key : ∀ r1 : Fw.BreathDetector,
      r1 = (Fw.idle_check now (Fw.step_dnorm t d)
        (now - (Fw.step_signal t d).t_phase_start) (Fw.step_signal t d)).1 →
      r1.idle_hold_start = some h → r1.phase ≠ Phase.idle →
      d.phase ≠ Phase.idle ∧ Fw.idle_bounds_ok t d
      ∧ (d.idle_hold_start = some h ∨ (d.idle_hold_start = none ∧ h = now)) := by
    intro r1 hr1 hh hph
    have hdph : d.phase ≠ Phase.idle := by
      rcases fw_idle_cases now (Fw.step_dnorm t d)
          (now - (Fw.step_signal t d).t_phase_start) (Fw.step_signal t d) with hc | hc
      · intro hcon
        apply hph
        rw [hr1, hc, hsig.1]
        exact hcon
      · exact fun hcon => hph (by rw [hr1]; exact hc.1)
    have hph' : (Fw.step_signal t d).phase ≠ Phase.idle := by
      rw [hsig.1]
      exact hdph
    by_cases hb : |(Fw.step_signal t d).norm| ≤ IDLE_MAG_FRAC
        ∧ |Fw.step_dnorm t d| ≤ IDLE_SLOPE_FRAC
    · refine ⟨hdph, hb, ?_⟩
      rw [hr1, fw_idle_hold now (Fw.step_dnorm t d) _ _ hph', if_pos hb,
        hsig.2.2.2.1] at hh
      cases hd : d.idle_hold_start with
      | none =>
          right
          rw [hd] at hh
          simp only [Option.getD_none, Option.some.injEq] at hh
          exact ⟨rfl, hh.symm⟩
      | some h0 =>
          left
          rw [hd] at hh
          simp only [Option.getD_some, Option.some.injEq] at hh
          rw [hh]
    · exfalso
      rw [hr1, fw_idle_hold now (Fw.step_dnorm t d) _ _ hph', if_neg hb] at hh
      exact Option.noConfusion hh
  by_cases hg : now < d.refrac_until
  · have hstep := fw_step_eq_suppressed sq now t d hg
    exact key (Fw.step sq now t d).1 (by rw [hstep]) h1 h2
  · have hstep := fw_step_eq_open sq now t d hg
    rcases fw_trans_cases sq now (now - (Fw.step_signal t d).t_phase_start)
        (Fw.idle_check now (Fw.step_dnorm t d)
          (now - (Fw.step_signal t d).t_phase_start) (Fw.step_signal t d)).1 with hno | hfire
    · have h1' : (Fw.step sq now t d).1
          = (Fw.idle_check now (Fw.step_dnorm t d)
              (now - (Fw.step_signal t d).t_phase_start) (Fw.step_signal t d)).1 := by
        rw [hstep, hno]
      exact key (Fw.step sq now t d).1 h1' h1 h2
    · exfalso
      obtain ⟨_, _, _, hhold⟩ := hfire
      rw [hstep, hhold] at h1
      exact Option.noConfusion h1

lemma fw_step_hold_reset (sq : ℚ → ℚ) (now t : ℚ) (d : Fw.BreathDetector)
    (hph : d.phase ≠ Phase.idle) (hb : ¬Fw.idle_bounds_ok t d) :
    (Fw.step sq now t d).1.idle_hold_start = none := by
  have hsig := fw_sig_frame t d
  have hph' : (Fw.step_signal t d).phase ≠ Phase.idle := by
    rw [hsig.1]
    exact hph
  unfold Fw.idle_bounds_ok at hb
  have hr1 : (Fw.idle_check now (Fw.step_dnorm t d)
      (now - (Fw.step_signal t d).t_phase_start)
      (Fw.step_signal t d)).1.idle_hold_start = none := by
    rw [fw_idle_hold now (Fw.step_dnorm t d) _ _ hph', if_neg hb]
  by_cases hg : now < d.refrac_until
  · rw [fw_step_eq_suppressed sq now t d hg]
    exact hr1
  · rw [fw_step_eq_open sq now t d hg]
    rcases fw_trans_cases sq now (now - (Fw.step_signal t d).t_phase_start)
        (Fw.idle_check now (Fw.step_dnorm t d)
          (now - (Fw.step_signal t d).t_phase_start) (Fw.step_signal t d)).1 with hno | hfire
    · rw [hno]
      exact hr1
    · exact hfire.2.2.2

lemma fw_step_idle_entry (sq : ℚ → ℚ) (now t : ℚ) (d : Fw.BreathDetector)
    (hph : d.phase ≠ Phase.idle) (hpost : (Fw.step sq now t d).1.phase = Phase.idle) :
    Fw.idle_bounds_ok t d
    ∧ ∃ h, d.idle_hold_start = some h ∧ IDLE_HOLD_S * (15/10) ≤ now - h
        ∧ MIN_PHASE_S ≤ now - d.t_phase_start := by
  have hsig := fw_sig_frame t d
  have key : (Fw.idle_check now (Fw.step_dnorm t d)
      (now - (Fw.step_signal t d).t_phase_start) (Fw.step_signal t d)).1.phase = Phase.idle →
      Fw.idle_bounds_ok t d
      ∧ ∃ h, d.idle_hold_start = some h ∧ IDLE_HOLD_S * (15/10) ≤ now - h
          ∧ MIN_PHASE_S ≤ now - d.t_phase_start := by
    intro hidle
    rcases fw_idle_cases now (Fw.step_dnorm t d)
        (now - (Fw.step_signal t d).t_phase_start) (Fw.step_signal t d) with hc | hc
    · exfalso
      rw [hc, hsig.1] at hidle
      exact hph hidle
    · obtain ⟨_, _, hmag, hslope, ⟨h, hh, hlong⟩, hpa⟩ := hc
      refine ⟨⟨hmag, hslope⟩, h, ?_, hlong, ?_⟩
      · rw [← hsig.2.2.2.1]
        exact hh
      · rw [← hsig.2.1]
        exact hpa
  by_cases hg : now < d.refrac_until
  · rw [fw_step_eq_suppressed sq now t d hg] at hpost
    exact key hpost
  · rw [fw_step_eq_open sq now t d hg] at hpost
    rcases fw_trans_cases sq now (now - (Fw.step_signal t d).t_phase_start)
        (Fw.idle_check now (Fw.step_dnorm t d)
          (now - (Fw.step_signal t d).t_phase_start) (Fw.step_signal t d)).1 with hno | hfire
    · rw [hno] at hpost
      exact key hpost
    · exfalso
      rcases hfire.2.1 with ⟨hph2, _, _⟩ | ⟨hph2, _, _⟩ <;>
        (rw [hpost] at hph2; exact Phase.noConfusion hph2)

lemma fw_step_mood (sq : ℚ → ℚ) (now t : ℚ) (d : Fw.BreathDetector)
    (hx : ¬(d.phase = Phase.exh ∧ (Fw.step sq now t d).1.phase = Phase.inh)) :
    (Fw.step sq now t d).1.mood = d.mood := by
  have hsig := fw_sig_frame t d
  by_cases hg : now < d.refrac_until
  · rw [fw_step_eq_suppressed sq now t d hg]
    exact ((fw_idle_frame _ _ _ _).2.2.2.2.2.1).trans hsig.2.2.2.2.2.2.2.2.2.2.2
  · have hstep := fw_step_eq_open sq now t d hg
    have hr1m : (Fw.idle_check now (Fw.step_dnorm t d)
        (now - (Fw.step_signal t d).t_phase_start) (Fw.step_signal t d)).1.mood = d.mood :=
      ((fw_idle_frame _ _ _ _).2.2.2.2.2.1).trans hsig.2.2.2.2.2.2.2.2.2.2.2
    rw [hstep]
    rw [fw_trans_mood sq now (now - (Fw.step_signal t d).t_phase_start) _ ?_]
    · exact hr1m
    · intro ⟨hrex, hrinh⟩
      rcases fw_idle_cases now (Fw.step_dnorm t d)
          (now - (Fw.step_signal t d).t_phase_start) (Fw.step_signal t d) with hc | hc
      · apply hx
        constructor
        · rw [← hsig.1, ← hc]
          exact hrex
        · rw [hstep]
          exact hrinh
      · rw [hc.1] at hrex
        exact Phase.noConfusion hrex

lemma fw_step_exh_idle (sq : ℚ → ℚ) (now t : ℚ) (d : Fw.BreathDetector)
    (hexh : d.phase = Phase.exh) (hidle : (Fw.step sq now t d).1.phase = Phase.idle) :
    (Fw.step sq now t d).1.last_inhale_duration = d.last_inhale_duration
    ∧ (Fw.step sq now t d).1.inhale_start_time = d.inhale_start_time
    ∧ (Fw.step sq now t d).1.exhale_start_time = d.exhale_start_time
    ∧ (Fw.step sq now t d).1.mood = d.mood := by
  have hsig := fw_sig_frame t d
  have hmood : (Fw.step sq now t d).1.mood = d.mood := by
    apply fw_step_mood
    intro ⟨_, hinh⟩
    rw [hidle] at hinh
    exact Phase.noConfusion hinh
  have hchain : ∀ r1 : Fw.BreathDetector,
      r1 = (Fw.idle_check now (Fw.step_dnorm t d)
        (now - (Fw.step_signal t d).t_phase_start) (Fw.step_signal t d)).1 →
      r1.last_inhale_duration = d.last_inhale_duration
      ∧ r1.inhale_start_time = d.inhale_start_time
      ∧ r1.exhale_start_time = d.exhale_start_time := by
    intro r1 hr1
    obtain ⟨_, _, _, _, _, _, f7, f8, f9⟩ := fw_idle_frame now (Fw.step_dnorm t d)
        (now - (Fw.step_signal t d).t_phase_start) (Fw.step_signal t d)
    rw [hr1]
    exact ⟨f7.trans hsig.2.2.2.2.2.2.2.1, f8.trans hsig.2.2.2.2.2.2.1,
      f9.trans hsig.2.2.2.2.2.1⟩
  by_cases hg : now < d.refrac_until
  · have hstep := fw_step_eq_suppressed sq now t d hg
    obtain ⟨c1, c2, c3⟩ := hchain (Fw.step sq now t d).1 (by rw [hstep])
    exact ⟨c1, c2, c3, hmood⟩
  · have hstep := fw_step_eq_open sq now t d hg
    rcases fw_trans_cases sq now (now - (Fw.step_signal t d).t_phase_start)
        (Fw.idle_check now (Fw.step_dnorm t d)
          (now - (Fw.step_signal t d).t_phase_start) (Fw.step_signal t d)).1 with hno | hfire
    · have h1' : (Fw.step sq now t d).1
          = (Fw.idle_check now (Fw.step_dnorm t d)
              (now - (Fw.step_signal t d).t_phase_start) (Fw.step_signal t d)).1 := by
        rw [hstep, hno]
      obtain ⟨c1, c2, c3⟩ := hchain (Fw.step sq now t d).1 h1'
      exact ⟨c1, c2, c3, hmood⟩
    · exfalso
      rcases hfire.2.1 with ⟨hph2, _, _⟩ | ⟨hph2, _, _⟩ <;>
        (rw [← hstep, hidle] at hph2; exact Phase.noConfusion hph2)

lemma preset_th_lb (i : ℤ) :
    27/100 ≤ (SENSITIVITY_PRESETS.getD (max 0 (min 9 i)).toNat (0, 0, 0, 0)).2.2.1 := by
  have hn : (max 0 (min 9 i)).toNat ≤ 9 := by omega
  set n := (max 0 (min 9 i)).toNat with hdef
  interval_cases n <;> norm_num [SENSITIVITY_PRESETS]

lemma fw_applyEv_inv (sq : ℚ → ℚ) (e : Ev) (d : Fw.BreathDetector)
    (h1 : SCALE_FLOOR ≤ d.scale_ex) (h2 : SCALE_FLOOR ≤ d.scale_in)
    (h3 : 27/100 ≤ d.th_start) :
    SCALE_FLOOR ≤ (Fw.applyEv sq e d).scale_ex
    ∧ SCALE_FLOOR ≤ (Fw.applyEv sq e d).scale_in
    ∧ 27/100 ≤ (Fw.applyEv sq e d).th_start := by
  cases e with
  | step now t =>
      obtain ⟨f1, f2, f3⟩ := fw_step_frame sq now t d
      obtain ⟨s1, s2, _⟩ := fw_sig_scale t d h1 h2
      refine ⟨?_, ?_, ?_⟩
      · show SCALE_FLOOR ≤ (Fw.step sq now t d).1.scale_ex
        rw [f1]
        exact s1
      · show SCALE_FLOOR ≤ (Fw.step sq now t d).1.scale_in
        rw [f2]
        exact s2
      · show 27/100 ≤ (Fw.step sq now t d).1.th_start
        rw [f3]
        exact h3
  | apply_sensitivity i => exact ⟨h1, h2, preset_th_lb i⟩
  | apply_color_thresholds a b c l => exact ⟨h1, h2, h3⟩
  | set_thresholds cr cv fc cb => exact ⟨h1, h2, h3⟩

lemma fw_run_inv (sq : ℚ → ℚ) (t0 : ℚ) (evs : List Ev) :
    SCALE_FLOOR ≤ (Fw.run sq t0 evs).scale_ex
    ∧ SCALE_FLOOR ≤ (Fw.run sq t0 evs).scale_in
    ∧ 27/100 ≤ (Fw.run sq t0 evs).th_start := by
  unfold Fw.run
  suffices h : ∀ d : Fw.BreathDetector,
      SCALE_FLOOR ≤ d.scale_ex → SCALE_FLOOR ≤ d.scale_in → 27/100 ≤ d.th_start →
      SCALE_FLOOR ≤ (evs.foldl (fun d e => Fw.applyEv sq e d) d).scale_ex
      ∧ SCALE_FLOOR ≤ (evs.foldl (fun d e => Fw.applyEv sq e d) d).scale_in
      ∧ 27/100 ≤ (evs.foldl (fun d e => Fw.applyEv sq e d) d).th_start by
    exact h (Fw.init t0) (by norm_num [Fw.init, SCALE_FLOOR])
      (by norm_num [Fw.init, SCALE_FLOOR]) (by norm_num [Fw.init, TH_FRAC_START])
  induction evs with
  | nil => exact fun d u1 u2 u3 => ⟨u1, u2, u3⟩
  | cons e tl ih =>
      intro d u1 u2 u3
      rw [List.foldl_cons]
      obtain ⟨v1, v2, v3⟩ := fw_applyEv_inv sq e d u1 u2 u3
      exact ih (Fw.applyEv sq e d) v1 v2 v3

lemma fw_run_append (sq : ℚ → ℚ) (t0 : ℚ) (evs : List Ev) (e : Ev) :
    Fw.run sq t0 (evs ++ [e]) = Fw.applyEv sq e (Fw.run sq t0 evs) := by
  unfold Fw.run
  rw [List.foldl_append]
  rfl

lemma fw_run_cons_middle (sq : ℚ → ℚ) (t0 : ℚ) (evs1 : List Ev) (e : Ev) (evs2 : List Ev) :
    Fw.run sq t0 (evs1 ++ e :: evs2)
      = evs2.foldl (fun d ev => Fw.applyEv sq ev d) (Fw.applyEv sq e (Fw.run sq t0 evs1)) := by
  unfold Fw.run
  rw [List.foldl_append]
  rfl

lemma fw_fold_refrac (sq : ℚ → ℚ) (c : ℚ) (evs : List Ev) :
    ∀ d : Fw.BreathDetector, SCALE_FLOOR ≤ d.scale_ex → SCALE_FLOOR ≤ d.scale_in →
      27/100 ≤ d.th_start → c ≤ d.refrac_until →
      c ≤ (evs.foldl (fun d e => Fw.applyEv sq e d) d).refrac_until := by
  induction evs with
  | nil => exact fun d _ _ _ h4 => h4
  | cons e tl ih =>
      intro d h1 h2 h3 h4
      rw [List.foldl_cons]
      obtain ⟨v1, v2, v3⟩ := fw_applyEv_inv sq e d h1 h2 h3
      refine ih (Fw.applyEv sq e d) v1 v2 v3 ?_
      cases e with
      | step now t =>
          have hth : IDLE_MAG_FRAC < d.th_start := by
            rw [IDLE_MAG_FRAC]
            linarith
          rcases fw_step_main sq now t d hth with ⟨_, hsame⟩ | ⟨hgate, _, hset⟩
          · show c ≤ (Fw.step sq now t d).1.refrac_until
            rw [hsame]
            exact h4
          · show c ≤ (Fw.step sq now t d).1.refrac_until
            rw [hset]
            push_neg at hgate
            have : (0 : ℚ) < MIN_PHASE_S * (1/2) := by
              rw [MIN_PHASE_S]
              norm_num
            linarith
      | apply_sensitivity i => exact h4
      | apply_color_thresholds a b cth l => exact h4
      | set_thresholds cr cv fc cb => exact h4

lemma fw_refractory_trace (sq : ℚ → ℚ) (t0 : ℚ) (evs1 : List Ev) (now1 t1 : ℚ)
    (evs2 : List Ev) (now2 t2 : ℚ)
    (h1 : Fw.non_idle_transition (Fw.run sq t0 evs1)
      (Fw.step sq now1 t1 (Fw.run sq t0 evs1)).1)
    (h2 : Fw.non_idle_transition (Fw.run sq t0 (evs1 ++ Ev.step now1 t1 :: evs2))
      (Fw.step sq now2 t2 (Fw.run sq t0 (evs1 ++ Ev.step now1 t1 :: evs2))).1) :
    now1 + MIN_PHASE_S * (1/2) ≤ now2 := by
  obtain ⟨i1, i2, i3⟩ := fw_run_inv sq t0 evs1
  have hth1 : IDLE_MAG_FRAC < (Fw.run sq t0 evs1).th_start := by
    rw [IDLE_MAG_FRAC]
    linarith
  -- the first transition stamps the refractory deadline
  have hstamp : (Fw.step sq now1 t1 (Fw.run sq t0 evs1)).1.refrac_until
      = now1 + MIN_PHASE_S * (1/2) := by
    rcases fw_step_main sq now1 t1 (Fw.run sq t0 evs1) hth1 with ⟨hph, _⟩ | ⟨_, _, hset⟩
    · exfalso
      obtain ⟨hne, hio⟩ := h1
      rcases hph with hsame | hidle
      · exact hne (by rw [hsame])
      · rcases hio with hx | hx <;> (rw [hidle] at hx; exact Phase.noConfusion hx)
    · exact hset
  -- the deadline persists along evs2
  obtain ⟨j1, j2, j3⟩ := fw_applyEv_inv sq (Ev.step now1 t1) (Fw.run sq t0 evs1) i1 i2 i3
  have hcarry : now1 + MIN_PHASE_S * (1/2)
      ≤ (Fw.run sq t0 (evs1 ++ Ev.step now1 t1 :: evs2)).refrac_until := by
    rw [fw_run_cons_middle]
    refine fw_fold_refrac sq _ evs2 _ j1 j2 j3 ?_
    show now1 + MIN_PHASE_S * (1/2) ≤ (Fw.step sq now1 t1 (Fw.run sq t0 evs1)).1.refrac_until
    rw [hstamp]
  -- the second transition fires only at or after the deadline
  obtain ⟨k1, k2, k3⟩ := fw_run_inv sq t0 (evs1 ++ Ev.step now1 t1 :: evs2)
  have hth2 : IDLE_MAG_FRAC < (Fw.run sq t0 (evs1 ++ Ev.step now1 t1 :: evs2)).th_start := by
    rw [IDLE_MAG_FRAC]
    linarith
  rcases fw_step_main sq now2 t2 (Fw.run sq t0 (evs1 ++ Ev.step now1 t1 :: evs2)) hth2 with
    ⟨hph, _⟩ | ⟨hgate, _, _⟩
  · exfalso
    obtain ⟨hne, hio⟩ := h2
    rcases hph with hsame | hidle
    · exact hne (by rw [hsame])
    · rcases hio with hx | hx <;> (rw [hidle] at hx; exact Phase.noConfusion hx)
  · push_neg at hgate
    linarith

/-- Provenance of the idle-hold timer (firmware): while the detector sits in
a non-idle phase with `idle_hold_start = some h`, the hold was started by a
sample step at wall-clock `h` whose idle bounds held, and every later sample
step also satisfied the idle bounds with the phase never passing through
Idle. -/
lemma fw_hold_provenance (sq : ℚ → ℚ) (t0 : ℚ) (evs : List Ev) :
    ∀ h : ℚ, (Fw.run sq t0 evs).phase ≠ Phase.idle →
    (Fw.run sq t0 evs).idle_hold_start = some h →
    ∃ j, ∃ hj : j < evs.length, ∃ tj : ℚ,
      evs.get ⟨j, hj⟩ = Ev.step h tj
      ∧ (Fw.run sq t0 (evs.take j)).phase ≠ Phase.idle
      ∧ Fw.idle_bounds_ok tj (Fw.run sq t0 (evs.take j))
      ∧ ∀ i, ∀ hi : i < evs.length, j < i → ∀ n' t' : ℚ,
          evs.get ⟨i, hi⟩ = Ev.step n' t' →
          (Fw.run sq t0 (evs.take i)).phase ≠ Phase.idle
          ∧ Fw.idle_bounds_ok t' (Fw.run sq t0 (evs.take i)) := by
  induction evs using List.reverseRecOn with
  | nil =>
      intro h _ hh
      exfalso
      have : (Fw.run sq t0 []).idle_hold_start = none := rfl
      rw [this] at hh
      exact Option.noConfusion hh
  | append_singleton tl e ih =>
      intro h hph hh
      rw [fw_run_append] at hph hh
      have htake : ∀ i, i ≤ tl.length → (tl ++ [e]).take i = tl.take i := fun i hi =>
        List.take_append_of_le_length hi
      cases e with
      | step now t =>
          obtain ⟨hdph, hbounds, hor⟩ := fw_step_hold_some sq now t (Fw.run sq t0 tl) h hh hph
          rcases hor with hsome | ⟨hnone, hnow⟩
          · obtain ⟨j, hj, tj, e1, e2, e3, e4⟩ := ih h hdph hsome
            refine ⟨j, by simp; omega, tj, ?_, ?_, ?_, ?_⟩
            · rw [List.get_append j hj]
              exact e1
            · rw [htake j (le_of_lt hj)]
              exact e2
            · rw [htake j (le_of_lt hj)]
              exact e3
            · intro i hi hji n' t' hev
              by_cases hitl : i < tl.length
              · rw [htake i (le_of_lt hitl)]
                rw [List.get_append i hitl] at hev
                exact e4 i hitl hji n' t' hev
              · have hieq : i = tl.length := by
                  simp at hi
                  omega
                subst hieq
                rw [htake tl.length le_rfl, List.take_length tl]
                have hev' : Ev.step now t = Ev.step n' t' := by
                  have hget : (tl ++ [Ev.step now t]).get ⟨tl.length, hi⟩ = Ev.step now t := by
                    simp
                  rw [hget] at hev
                  exact hev
                cases hev'
                exact ⟨hdph, hbounds⟩
          · refine ⟨tl.length, by simp, t, ?_, ?_, ?_, ?_⟩
            · have : (tl ++ [Ev.step now t]).get ⟨tl.length, by simp⟩ = Ev.step now t := by
                simp
              rw [this, hnow]
            · rw [htake tl.length le_rfl, List.take_length tl]
              exact hdph
            · rw [htake tl.length le_rfl, List.take_length tl]
              exact hbounds
            · intro i hi hji n' t' _
              exfalso
              simp at hi
              omega
      | apply_sensitivity ip =>
          obtain ⟨j, hj, tj, e1, e2, e3, e4⟩ := ih h hph hh
          refine ⟨j, by simp; omega, tj, ?_, ?_, ?_, ?_⟩
          · rw [List.get_append j hj]
            exact e1
          · rw [htake j (le_of_lt hj)]
            exact e2
          · rw [htake j (le_of_lt hj)]
            exact e3
          · intro i hi hji n' t' hev
            by_cases hitl : i < tl.length
            · rw [htake i (le_of_lt hitl)]
              rw [List.get_append i hitl] at hev
              exact e4 i hitl hji n' t' hev
            · exfalso
              have hieq : i = tl.length := by
                simp at hi
                omega
              subst hieq
              have : (tl ++ [Ev.apply_sensitivity ip]).get ⟨tl.length, hi⟩
                  = Ev.apply_sensitivity ip := by simp
              rw [this] at hev
              exact Ev.noConfusion hev
      | apply_color_thresholds a b c l =>
          obtain ⟨j, hj, tj, e1, e2, e3, e4⟩ := ih h hph hh
          refine ⟨j, by simp; omega, tj, ?_, ?_, ?_, ?_⟩
          · rw [List.get_append j hj]
            exact e1
          · rw [htake j (le_of_lt hj)]
            exact e2
          · rw [htake j (le_of_lt hj)]
            exact e3
          · intro i hi hji n' t' hev
            by_cases hitl : i < tl.length
            · rw [htake i (le_of_lt hitl)]
              rw [List.get_append i hitl] at hev
              exact e4 i hitl hji n' t' hev
            · exfalso
              have hieq : i = tl.length := by
                simp at hi
                omega
              subst hieq
              have : (tl ++ [Ev.apply_color_thresholds a b c l]).get ⟨tl.length, hi⟩
                  = Ev.apply_color_thresholds a b c l := by simp
              rw [this] at hev
              exact Ev.noConfusion hev
      | set_thresholds cr cv fc cb =>
          obtain ⟨j, hj, tj, e1, e2, e3, e4⟩ := ih h hph hh
          refine ⟨j, by simp; omega, tj, ?_, ?_, ?_, ?_⟩
          · rw [List.get_append j hj]
            exact e1
          · rw [htake j (le_of_lt hj)]
            exact e2
          · rw [htake j (le_of_lt hj)]
            exact e3
          · intro i hi hji n' t' hev
            by_cases hitl : i < tl.length
            · rw [htake i (le_of_lt hitl)]
              rw [List.get_append i hitl] at hev
              exact e4 i hitl hji n' t' hev
            · exfalso
              have hieq : i = tl.length := by
                simp at hi
                omega
              subst hieq
              have : (tl ++ [Ev.set_thresholds cr cv fc cb]).get ⟨tl.length, hi⟩
                  = Ev.set_thresholds cr cv fc cb := by simp
              rw [this] at hev
              exact Ev.noConfusion hev

/-! ### Stage lemmas for the nasal-clip detector -/

lemma nc_record_frame (a b : ℚ) (y : Nc.BreathDetector) :
    (Nc.record_exhale a b y).scale_ex = y.scale_ex
    ∧ (Nc.record_exhale a b y).scale_in = y.scale_in
    ∧ (Nc.record_exhale a b y).th_start = y.th_start
    ∧ (Nc.record_exhale a b y).norm = y.norm
    ∧ (Nc.record_exhale a b y).refrac_until = y.refrac_until
    ∧ (Nc.record_exhale a b y).phase = y.phase
    ∧ (Nc.record_exhale a b y).t_phase_start = y.t_phase_start
    ∧ (Nc.record_exhale a b y).idle_hold_start = y.idle_hold_start
    ∧ (Nc.record_exhale a b y).mood = y.mood
    ∧ (Nc.record_exhale a b y).last_inhale_duration = y.last_inhale_duration
    ∧ (Nc.record_exhale a b y).inhale_start_time = y.inhale_start_time
    ∧ (Nc.record_exhale a b y).exhale_start_time = y.exhale_start_time
    ∧ (Nc.record_exhale a b y).last_exhale_duration = y.last_exhale_duration := by
  simp only [Nc.record_exhale]
  split_ifs <;>
    exact ⟨rfl, rfl, rfl, rfl, rfl, rfl, rfl, rfl, rfl, rfl, rfl, rfl, rfl⟩

lemma nc_fei_frame (now : ℚ) (y : Nc.BreathDetector) :
    (Nc.finish_exhale_idle now y).scale_ex = y.scale_ex
    ∧ (Nc.finish_exhale_idle now y).scale_in = y.scale_in
    ∧ (Nc.finish_exhale_idle now y).th_start = y.th_start
    ∧ (Nc.finish_exhale_idle now y).norm = y.norm
    ∧ (Nc.finish_exhale_idle now y).refrac_until = y.refrac_until
    ∧ (Nc.finish_exhale_idle now y).phase = y.phase
    ∧ (Nc.finish_exhale_idle now y).t_phase_start = y.t_phase_start
    ∧ (Nc.finish_exhale_idle now y).idle_hold_start = y.idle_hold_start
    ∧ (Nc.finish_exhale_idle now y).mood = y.mood
    ∧ (Nc.finish_exhale_idle now y).last_inhale_duration = y.last_inhale_duration
    ∧ (Nc.finish_exhale_idle now y).inhale_start_time = y.inhale_start_time
    ∧ (Nc.finish_exhale_idle now y).exhale_start_time = y.exhale_start_time := by
  unfold Nc.finish_exhale_idle
  split
  · split
    · obtain ⟨f1, f2, f3, f4, f5, f6, f7, f8, f9, f10, f11, f12, _⟩ :=
        nc_record_frame _ _ _
      exact ⟨f1, f2, f3, f4, f5, f6, f7, f8, f9, f10, f11, f12⟩
    · exact ⟨rfl, rfl, rfl, rfl, rfl, rfl, rfl, rfl, rfl, rfl, rfl, rfl⟩
  · exact ⟨rfl, rfl, rfl, rfl, rfl, rfl, rfl, rfl, rfl, rfl, rfl, rfl⟩

lemma nc_idle_frame (now dn pa : ℚ) (y : Nc.BreathDetector) :
    (Nc.idle_check now dn pa y).1.scale_ex = y.scale_ex
    ∧ (Nc.idle_check now dn pa y).1.scale_in = y.scale_in
    ∧ (Nc.idle_check now dn pa y).1.th_start = y.th_start
    ∧ (Nc.idle_check now dn pa y).1.norm = y.norm
    ∧ (Nc.idle_check now dn pa y).1.refrac_until = y.refrac_until
    ∧ (Nc.idle_check now dn pa y).1.mood = y.mood
    ∧ (Nc.idle_check now dn pa y).1.last_inhale_duration = y.last_inhale_duration
    ∧ (Nc.idle_check now dn pa y).1.inhale_start_time = y.inhale_start_time
    ∧ (Nc.idle_check now dn pa y).1.exhale_start_time = y.exhale_start_time := by
  simp only [Nc.idle_check]
  split_ifs
  · obtain ⟨f1, f2, f3, f4, f5, _, _, _, f9, f10, f11, f12⟩ :=
      nc_fei_frame now { y with idle_hold_start := some (y.idle_hold_start.getD now) }
    exact ⟨f1, f2, f3, f4, f5, f9, f10, f11, f12⟩
  · exact ⟨rfl, rfl, rfl, rfl, rfl, rfl, rfl, rfl, rfl⟩
  · exact ⟨rfl, rfl, rfl, rfl, rfl, rfl, rfl, rfl, rfl⟩
  · exact ⟨rfl, rfl, rfl, rfl, rfl, rfl, rfl, rfl, rfl⟩

lemma nc_trans_frame (now pa : ℚ) (y : Nc.BreathDetector) :
    (Nc.trans_check now pa y).1.scale_ex = y.scale_ex
    ∧ (Nc.trans_check now pa y).1.scale_in = y.scale_in
    ∧ (Nc.trans_check now pa y).1.th_start = y.th_start := by
  simp only [Nc.trans_check, Nc.end_exhale_to_inhale]
  split_ifs <;> try exact ⟨rfl, rfl, rfl⟩
  all_goals split
  all_goals try exact ⟨rfl, rfl, rfl⟩
  all_goals (
    obtain ⟨f1, f2, f3, _⟩ := nc_record_frame _ _ _
    exact ⟨f1, f2, f3⟩)

lemma nc_sig_frame (t : ℚ) (d : Nc.BreathDetector) :
    (Nc.step_signal t d).phase = d.phase
    ∧ (Nc.step_signal t d).t_phase_start = d.t_phase_start
    ∧ (Nc.step_signal t d).refrac_until = d.refrac_until
    ∧ (Nc.step_signal t d).idle_hold_start = d.idle_hold_start
    ∧ (Nc.step_signal t d).th_start = d.th_start
    ∧ (Nc.step_signal t d).exhale_start_time = d.exhale_start_time
    ∧ (Nc.step_signal t d).inhale_start_time = d.inhale_start_time
    ∧ (Nc.step_signal t d).last_inhale_duration = d.last_inhale_duration
    ∧ (Nc.step_signal t d).last_exhale_duration = d.last_exhale_duration
    ∧ (Nc.step_signal t d).unworn = d.unworn
    ∧ (Nc.step_signal t d).short_streak = d.short_streak := by
  exact ⟨rfl, rfl, rfl, rfl, rfl, rfl, rfl, rfl, rfl, rfl, rfl⟩

lemma nc_sig_scale (t : ℚ) (d : Nc.BreathDetector)
    (hex : SCALE_FLOOR ≤ d.scale_ex) (hin : SCALE_FLOOR ≤ d.scale_in) :
    SCALE_FLOOR ≤ (Nc.step_signal t d).scale_ex
    ∧ SCALE_FLOOR ≤ (Nc.step_signal t d).scale_in
    ∧ SCALE_FLOOR ≤ Nc.step_denom t d := by
  have h1 : SCALE_FLOOR ≤ (Nc.step_signal t d).scale_ex := by
    simp only [Nc.step_signal]
    split_ifs <;> [exact le_max_right _ _; exact hex]
  have h2 : SCALE_FLOOR ≤ (Nc.step_signal t d).scale_in := by
    simp only [Nc.step_signal]
    split_ifs <;> [exact le_max_right _ _; exact hin]
  refine ⟨h1, h2, ?_⟩
  unfold Nc.step_denom
  split_ifs
  · exact le_trans h1 (le_max_right _ _)
  · exact le_trans h2 (le_max_right _ _)

lemma nc_idle_cases (now dn pa : ℚ) (y : Nc.BreathDetector) :
    (Nc.idle_check now dn pa y).1.phase = y.phase
    ∨ ((Nc.idle_check now dn pa y).1.phase = Phase.idle ∧ y.phase ≠ Phase.idle
       ∧ |y.norm| ≤ IDLE_MAG_FRAC ∧ |dn| ≤ IDLE_SLOPE_FRAC
       ∧ (∃ h, y.idle_hold_start = some h ∧ IDLE_HOLD_S * (15/10) ≤ now - h)
       ∧ MIN_PHASE_S ≤ pa) := by
  by_cases h1 : y.phase ≠ Phase.idle
  · by_cases h2 : |y.norm| ≤ IDLE_MAG_FRAC ∧ |dn| ≤ IDLE_SLOPE_FRAC
    · by_cases h3 : IDLE_HOLD_S * (15/10) ≤ now - y.idle_hold_start.getD now
          ∧ MIN_PHASE_S ≤ pa
      · right
        simp only [Nc.idle_check]
        rw [if_pos h1, if_pos h2, if_pos h3]
        refine ⟨rfl, h1, h2.1, h2.2, ?_, h3.2⟩
        cases hh : y.idle_hold_start with
        | none =>
            exfalso
            have h30 := h3.1
            rw [hh] at h30
            simp only [Option.getD_none] at h30
            rw [IDLE_HOLD_S] at h30
            nlinarith [h30]
        | some h =>
            refine ⟨h, rfl, ?_⟩
            have h30 := h3.1
            rw [hh] at h30
            simpa using h30
      · left
        simp only [Nc.idle_check]
        rw [if_pos h1, if_pos h2, if_neg h3]
    · left
      simp only [Nc.idle_check]
      rw [if_pos h1, if_neg h2]
  · left
    simp only [Nc.idle_check]
    rw [if_neg h1]

lemma nc_idle_hold (now dn pa : ℚ) (y : Nc.BreathDetector) (hph : y.phase ≠ Phase.idle) :
    (Nc.idle_check now dn pa y).1.idle_hold_start
      = (if |y.norm| ≤ IDLE_MAG_FRAC ∧ |dn| ≤ IDLE_SLOPE_FRAC
         then some (y.idle_hold_start.getD now) else none) := by
  by_cases h2 : |y.norm| ≤ IDLE_MAG_FRAC ∧ |dn| ≤ IDLE_SLOPE_FRAC
  · rw [if_pos h2]
    simp only [Nc.idle_check]
    rw [if_pos hph, if_pos h2]
    by_cases h3 : IDLE_HOLD_S * (15/10) ≤ now - y.idle_hold_start.getD now ∧ MIN_PHASE_S ≤ pa
    · rw [if_pos h3]
      exact (nc_fei_frame now _).2.2.2.2.2.2.2.1
    · rw [if_neg h3]
  · rw [if_neg h2]
    simp only [Nc.idle_check]
    rw [if_pos hph, if_neg h2]

lemma nc_trans_cases (now pa : ℚ) (y : Nc.BreathDetector) :
    Nc.trans_check now pa y = (y, false)
    ∨ ((Nc.trans_check now pa y).2 = true
       ∧ (((Nc.trans_check now pa y).1.phase = Phase.inh ∧ y.phase ≠ Phase.inh
            ∧ y.th_start < y.norm)
          ∨ ((Nc.trans_check now pa y).1.phase = Phase.exh ∧ y.phase ≠ Phase.exh
            ∧ y.norm < -y.th_start))
       ∧ (Nc.trans_check now pa y).1.refrac_until = now + MIN_PHASE_S * (1/2)
       ∧ (Nc.trans_check now pa y).1.idle_hold_start = none) := by
  by_cases hA : y.phase ≠ Phase.inh ∧ y.th_start < y.norm
  · by_cases hB : MIN_PHASE_S ≤ pa ∨ y.phase = Phase.idle
    · right
      simp only [Nc.trans_check]
      rw [if_pos hA, if_pos hB]
      exact ⟨rfl, Or.inl ⟨rfl, hA.1, hA.2⟩, rfl, rfl⟩
    · left
      simp only [Nc.trans_check]
      rw [if_pos hA, if_neg hB]
  · by_cases hC : y.phase ≠ Phase.exh ∧ y.norm < -y.th_start
    · by_cases hD : MIN_PHASE_S ≤ pa ∨ y.phase = Phase.idle
      · right
        simp only [Nc.trans_check]
        rw [if_neg hA, if_pos hC, if_pos hD]
        exact ⟨rfl, Or.inr ⟨rfl, hC.1, hC.2⟩, rfl, rfl⟩
      · left
        simp only [Nc.trans_check]
        rw [if_neg hA, if_pos hC, if_neg hD]
    · left
      simp only [Nc.trans_check]
      rw [if_neg hA, if_neg hC]

lemma nc_step_eq_suppressed (now t : ℚ) (d : Nc.BreathDetector)
    (hg : now < d.refrac_until) :
    Nc.step now t d
      = Nc.idle_check now (Nc.step_dnorm t d)
          (now - (Nc.step_signal t d).t_phase_start) (Nc.step_signal t d) := by
  have hIr : (Nc.idle_check now (Nc.step_dnorm t d)
      (now - (Nc.step_signal t d).t_phase_start) (Nc.step_signal t d)).1.refrac_until
      = d.refrac_until := by
    rw [(nc_idle_frame _ _ _ _).2.2.2.2.1, (nc_sig_frame t d).2.2.1]
  simp only [Nc.step, Nc.step_phase]
  rw [hIr, if_pos hg]

lemma nc_step_eq_open (now t : ℚ) (d : Nc.BreathDetector)
    (hg : ¬(now < d.refrac_until)) :
    (Nc.step now t d).1
      = (Nc.trans_check now (now - (Nc.step_signal t d).t_phase_start)
          (Nc.idle_check now (Nc.step_dnorm t d)
            (now - (Nc.step_signal t d).t_phase_start) (Nc.step_signal t d)).1).1 := by
  have hIr : (Nc.idle_check now (Nc.step_dnorm t d)
      (now - (Nc.step_signal t d).t_phase_start) (Nc.step_signal t d)).1.refrac_until
      = d.refrac_until := by
    rw [(nc_idle_frame _ _ _ _).2.2.2.2.1, (nc_sig_frame t d).2.2.1]
  simp only [Nc.step, Nc.step_phase]
  rw [hIr, if_neg hg]

lemma nc_step_suppressed (now t : ℚ) (d : Nc.BreathDetector)
    (hg : now < d.refrac_until) :
    ((Nc.step now t d).1.phase = d.phase ∨ (Nc.step now t d).1.phase = Phase.idle)
    ∧ (Nc.step now t d).1.refrac_until = d.refrac_until
    ∧ (d.phase ≠ Phase.idle →
        (Nc.idle_bounds_ok t d →
          (Nc.step now t d).1.idle_hold_start = some (d.idle_hold_start.getD now))
        ∧ (¬Nc.idle_bounds_ok t d → (Nc.step now t d).1.idle_hold_start = none)) := by
  have hstep := nc_step_eq_suppressed now t d hg
  have hsig := nc_sig_frame t d
  refine ⟨?_, ?_, ?_⟩
  · rw [hstep]
    rcases nc_idle_cases now (Nc.step_dnorm t d)
        (now - (Nc.step_signal t d).t_phase_start) (Nc.step_signal t d) with hc | hc
    · left
      rw [hc, hsig.1]
    · right
      exact hc.1
  · rw [hstep, (nc_idle_frame _ _ _ _).2.2.2.2.1, hsig.2.2.1]
  · intro hph
    have hph' : (Nc.step_signal t d).phase ≠ Phase.idle := by
      rw [hsig.1]
      exact hph
    constructor
    · intro hb
      unfold Nc.idle_bounds_ok at hb
      rw [hstep, nc_idle_hold now (Nc.step_dnorm t d) _ _ hph', if_pos hb,
        hsig.2.2.2.1]
    · intro hb
      unfold Nc.idle_bounds_ok at hb
      rw [hstep, nc_idle_hold now (Nc.step_dnorm t d) _ _ hph', if_neg hb]

lemma nc_step_main (now t : ℚ) (d : Nc.BreathDetector)
    (hth : IDLE_MAG_FRAC < d.th_start) :
    (((Nc.step now t d).1.phase = d.phase ∨ (Nc.step now t d).1.phase = Phase.idle)
      ∧ (Nc.step now t d).1.refrac_until = d.refrac_until)
    ∨ (¬(now < d.refrac_until)
       ∧ Nc.non_idle_transition d (Nc.step now t d).1
       ∧ (Nc.step now t d).1.refrac_until = now + MIN_PHASE_S * (1/2)) := by
  have hsig := nc_sig_frame t d
  by_cases hg : now < d.refrac_until
  · left
    exact ⟨(nc_step_suppressed now t d hg).1, (nc_step_suppressed now t d hg).2.1⟩
  · have hstep := nc_step_eq_open now t d hg
    have hIfr := nc_idle_frame now (Nc.step_dnorm t d)
        (now - (Nc.step_signal t d).t_phase_start) (Nc.step_signal t d)
    rcases nc_trans_cases now (now - (Nc.step_signal t d).t_phase_start)
        (Nc.idle_check now (Nc.step_dnorm t d)
          (now - (Nc.step_signal t d).t_phase_start) (Nc.step_signal t d)).1 with hno | hfire
    · left
      have h1 : (Nc.step now t d).1
          = (Nc.idle_check now (Nc.step_dnorm t d)
              (now - (Nc.step_signal t d).t_phase_start) (Nc.step_signal t d)).1 := by
        rw [hstep, hno]
      rw [h1]
      constructor
      · rcases nc_idle_cases now (Nc.step_dnorm t d)
            (now - (Nc.step_signal t d).t_phase_start) (Nc.step_signal t d) with hc | hc
        · left
          rw [hc, hsig.1]
        · right
          exact hc.1
      · rw [hIfr.2.2.2.2.1, hsig.2.2.1]
    · obtain ⟨_, hwhich, hrf, _⟩ := hfire
      -- the idle check cannot have moved to Idle here, else no threshold crossing
      have hsame : (Nc.idle_check now (Nc.step_dnorm t d)
          (now - (Nc.step_signal t d).t_phase_start) (Nc.step_signal t d)).1.phase
          = d.phase := by
        rcases nc_idle_cases now (Nc.step_dnorm t d)
            (now - (Nc.step_signal t d).t_phase_start) (Nc.step_signal t d) with hc | hc
        · rw [hc, hsig.1]
        · exfalso
          obtain ⟨hidle, _, hmag, _, _, _⟩ := hc
          have hnorm : |(Nc.step_signal t d).norm| ≤ IDLE_MAG_FRAC := hmag
          have hth' : (Nc.idle_check now (Nc.step_dnorm t d)
              (now - (Nc.step_signal t d).t_phase_start)
              (Nc.step_signal t d)).1.th_start = d.th_start := by
            rw [hIfr.2.2.1, hsig.2.2.2.2.1]
          have hnorm' : (Nc.idle_check now (Nc.step_dnorm t d)
              (now - (Nc.step_signal t d).t_phase_start)
              (Nc.step_signal t d)).1.norm = (Nc.step_signal t d).norm := hIfr.2.2.2.1
          rcases hwhich with ⟨_, _, hcross⟩ | ⟨_, _, hcross⟩
          · rw [hth', hnorm'] at hcross
            have := abs_le.mp hnorm
            linarith [this.2]
          · rw [hth', hnorm'] at hcross
            have := abs_le.mp hnorm
            linarith [this.1]
      right
      refine ⟨hg, ?_, ?_⟩
      · rcases hwhich with ⟨hph, hne, _⟩ | ⟨hph, hne, _⟩
        · refine ⟨?_, Or.inl (by rw [hstep]; exact hph)⟩
          rw [hstep, hph]
          rw [hsame] at hne
          exact fun hc => hne hc.symm
        · refine ⟨?_, Or.inr (by rw [hstep]; exact hph)⟩
          rw [hstep, hph]
          rw [hsame] at hne
          exact fun hc => hne hc.symm
      · rw [hstep, hrf]

lemma nc_step_frame (now t : ℚ) (d : Nc.BreathDetector) :
    (Nc.step now t d).1.scale_ex = (Nc.step_signal t d).scale_ex
    ∧ (Nc.step now t d).1.scale_in = (Nc.step_signal t d).scale_in
    ∧ (Nc.step now t d).1.th_start = d.th_start := by
  by_cases hg : now < d.refrac_until
  · rw [nc_step_eq_suppressed now t d hg]
    obtain ⟨f1, f2, f3, _⟩ := nc_idle_frame now (Nc.step_dnorm t d)
        (now - (Nc.step_signal t d).t_phase_start) (Nc.step_signal t d)
    exact ⟨f1, f2, f3.trans (nc_sig_frame t d).2.2.2.2.1⟩
  · rw [nc_step_eq_open now t d hg]
    obtain ⟨g1, g2, g3⟩ := nc_trans_frame now (now - (Nc.step_signal t d).t_phase_start)
        (Nc.idle_check now (Nc.step_dnorm t d)
          (now - (Nc.step_signal t d).t_phase_start) (Nc.step_signal t d)).1
    obtain ⟨f1, f2, f3, _⟩ := nc_idle_frame now (Nc.step_dnorm t d)
        (now - (Nc.step_signal t d).t_phase_start) (Nc.step_signal t d)
    exact ⟨g1.trans f1, g2.trans f2, (g3.trans f3).trans (nc_sig_frame t d).2.2.2.2.1⟩

lemma nc_step_hold_some (now t : ℚ) (d : Nc.BreathDetector) (h : ℚ)
    (h1 : (Nc.step now t d).1.idle_hold_start = some h)
    (h2 : (Nc.step now t d).1.phase ≠ Phase.idle) :
    d.phase ≠ Phase.idle ∧ Nc.idle_bounds_ok t d
    ∧ (d.idle_hold_start = some h ∨ (d.idle_hold_start = none ∧ h = now)) := by
  have hsig := nc_sig_frame t d
  have key : ∀ r1 : Nc.BreathDetector,
      r1 = (Nc.idle_check now (Nc.step_dnorm t d)
        (now - (Nc.step_signal t d).t_phase_start) (Nc.step_signal t d)).1 →
      r1.idle_hold_start = some h → r1.phase ≠ Phase.idle →
      d.phase ≠ Phase.idle ∧ Nc.idle_bounds_ok t d
      ∧ (d.idle_hold_start = some h ∨ (d.idle_hold_start = none ∧ h = now)) := by
    intro r1 hr1 hh hph
    have hdph : d.phase ≠ Phase.idle := by
      rcases nc_idle_cases now (Nc.step_dnorm t d)
          (now - (Nc.step_signal t d).t_phase_start) (Nc.step_signal t d) with hc | hc
      · intro hcon
        apply hph
        rw [hr1, hc, hsig.1]
        exact hcon
      · exact fun hcon => hph (by rw [hr1]; exact hc.1)
    have hph' : (Nc.step_signal t d).phase ≠ Phase.idle := by
      rw [hsig.1]
      exact hdph
    by_cases hb : |(Nc.step_signal t d).norm| ≤ IDLE_MAG_FRAC
        ∧ |Nc.step_dnorm t d| ≤ IDLE_SLOPE_FRAC
    · refine ⟨hdph, hb, ?_⟩
      rw [hr1, nc_idle_hold now (Nc.step_dnorm t d) _ _ hph', if_pos hb,
        hsig.2.2.2.1] at hh
      cases hd : d.idle_hold_start with
      | none =>
          right
          rw [hd] at hh
          simp only [Option.getD_none, Option.some.injEq] at hh
          exact ⟨rfl, hh.symm⟩
      | some h0 =>
          left
          rw [hd] at hh
          simp only [Option.getD_some, Option.some.injEq] at hh
          rw [hh]
    · exfalso
      rw [hr1, nc_idle_hold now (Nc.step_dnorm t d) _ _ hph', if_neg hb] at hh
      exact Option.noConfusion hh
  by_cases hg : now < d.refrac_until
  · have hstep := nc_step_eq_suppressed now t d hg
    exact key (Nc.step now t d).1 (by rw [hstep]) h1 h2
  · have hstep := nc_step_eq_open now t d hg
    rcases nc_trans_cases now (now - (Nc.step_signal t d).t_phase_start)
        (Nc.idle_check now (Nc.step_dnorm t d)
          (now - (Nc.step_signal t d).t_phase_start) (Nc.step_signal t d)).1 with hno | hfire
    · have h1' : (Nc.step now t d).1
          = (Nc.idle_check now (Nc.step_dnorm t d)
              (now - (Nc.step_signal t d).t_phase_start) (Nc.step_signal t d)).1 := by
        rw [hstep, hno]
      exact key (Nc.step now t d).1 h1' h1 h2
    · exfalso
      obtain ⟨_, _, _, hhold⟩ := hfire
      rw [hstep, hhold] at h1
      exact Option.noConfusion h1

lemma nc_step_hold_reset (now t : ℚ) (d : Nc.BreathDetector)
    (hph : d.phase ≠ Phase.idle) (hb : ¬Nc.idle_bounds_ok t d) :
    (Nc.step now t d).1.idle_hold_start = none := by
  have hsig := nc_sig_frame t d
  have hph' : (Nc.step_signal t d).phase ≠ Phase.idle := by
    rw [hsig.1]
    exact hph
  unfold Nc.idle_bounds_ok at hb
  have hr1 : (Nc.idle_check now (Nc.step_dnorm t d)
      (now - (Nc.step_signal t d).t_phase_start)
      (Nc.step_signal t d)).1.idle_hold_start = none := by
    rw [nc_idle_hold now (Nc.step_dnorm t d) _ _ hph', if_neg hb]
  by_cases hg : now < d.refrac_until
  · rw [nc_step_eq_suppressed now t d hg]
    exact hr1
  · rw [nc_step_eq_open now t d hg]
    rcases nc_trans_cases now (now - (Nc.step_signal t d).t_phase_start)
        (Nc.idle_check now (Nc.step_dnorm t d)
          (now - (Nc.step_signal t d).t_phase_start) (Nc.step_signal t d)).1 with hno | hfire
    · rw [hno]
      exact hr1
    · exact hfire.2.2.2

lemma nc_step_idle_entry (now t : ℚ) (d : Nc.BreathDetector)
    (hph : d.phase ≠ Phase.idle) (hpost : (Nc.step now t d).1.phase = Phase.idle) :
    Nc.idle_bounds_ok t d
    ∧ ∃ h, d.idle_hold_start = some h ∧ IDLE_HOLD_S * (15/10) ≤ now - h
        ∧ MIN_PHASE_S ≤ now - d.t_phase_start := by
  have hsig := nc_sig_frame t d
  have key : (Nc.idle_check now (Nc.step_dnorm t d)
      (now - (Nc.step_signal t d).t_phase_start) (Nc.step_signal t d)).1.phase = Phase.idle →
      Nc.idle_bounds_ok t d
      ∧ ∃ h, d.idle_hold_start = some h ∧ IDLE_HOLD_S * (15/10) ≤ now - h
          ∧ MIN_PHASE_S ≤ now - d.t_phase_start := by
    intro hidle
    rcases nc_idle_cases now (Nc.step_dnorm t d)
        (now - (Nc.step_signal t d).t_phase_start) (Nc.step_signal t d) with hc | hc
    · exfalso
      rw [hc, hsig.1] at hidle
      exact hph hidle
    · obtain ⟨_, _, hmag, hslope, ⟨h, hh, hlong⟩, hpa⟩ := hc
      refine ⟨⟨hmag, hslope⟩, h, ?_, hlong, ?_⟩
      · rw [← hsig.2.2.2.1]
        exact hh
      · rw [← hsig.2.1]
        exact hpa
  by_cases hg : now < d.refrac_until
  · rw [nc_step_eq_suppressed now t d hg] at hpost
    exact key hpost
  · rw [nc_step_eq_open now t d hg] at hpost
    rcases nc_trans_cases now (now - (Nc.step_signal t d).t_phase_start)
        (Nc.idle_check now (Nc.step_dnorm t d)
          (now - (Nc.step_signal t d).t_phase_start) (Nc.step_signal t d)).1 with hno | hfire
    · rw [hno] at hpost
      exact key hpost
    · exfalso
      rcases hfire.2.1 with ⟨hph2, _, _⟩ | ⟨hph2, _, _⟩ <;>
        (rw [hpost] at hph2; exact Phase.noConfusion hph2)

lemma nc_preset_th_lb (i : ℤ) :
    27/100 ≤ (SENSITIVITY_PRESETS.getD (max 0 (min 9 i)).toNat (0, 0, 0, 0)).2.2.1 := by
  have hn : (max 0 (min 9 i)).toNat ≤ 9 := by omega
  set n := (max 0 (min 9 i)).toNat with hdef
  interval_cases n <;> norm_num [SENSITIVITY_PRESETS]

lemma nc_applyEv_inv (e : Ev) (d : Nc.BreathDetector)
    (h1 : SCALE_FLOOR ≤ d.scale_ex) (h2 : SCALE_FLOOR ≤ d.scale_in)
    (h3 : 27/100 ≤ d.th_start) :
    SCALE_FLOOR ≤ (Nc.applyEv e d).scale_ex
    ∧ SCALE_FLOOR ≤ (Nc.applyEv e d).scale_in
    ∧ 27/100 ≤ (Nc.applyEv e d).th_start := by
  cases e with
  | step now t =>
      obtain ⟨f1, f2, f3⟩ := nc_step_frame now t d
      obtain ⟨s1, s2, _⟩ := nc_sig_scale t d h1 h2
      refine ⟨?_, ?_, ?_⟩
      · show SCALE_FLOOR ≤ (Nc.step now t d).1.scale_ex
        rw [f1]
        exact s1
      · show SCALE_FLOOR ≤ (Nc.step now t d).1.scale_in
        rw [f2]
        exact s2
      · show 27/100 ≤ (Nc.step now t d).1.th_start
        rw [f3]
        exact h3
  | apply_sensitivity i => exact ⟨h1, h2, nc_preset_th_lb i⟩
  | apply_color_thresholds a b c l => exact ⟨h1, h2, h3⟩
  | set_thresholds cr cv fc cb => exact ⟨h1, h2, h3⟩

lemma nc_run_inv (t0 : ℚ) (evs : List Ev) :
    SCALE_FLOOR ≤ (Nc.run t0 evs).scale_ex
    ∧ SCALE_FLOOR ≤ (Nc.run t0 evs).scale_in
    ∧ 27/100 ≤ (Nc.run t0 evs).th_start := by
  unfold Nc.run
  suffices h : ∀ d : Nc.BreathDetector,
      SCALE_FLOOR ≤ d.scale_ex → SCALE_FLOOR ≤ d.scale_in → 27/100 ≤ d.th_start →
      SCALE_FLOOR ≤ (evs.foldl (fun d e => Nc.applyEv e d) d).scale_ex
      ∧ SCALE_FLOOR ≤ (evs.foldl (fun d e => Nc.applyEv e d) d).scale_in
      ∧ 27/100 ≤ (evs.foldl (fun d e => Nc.applyEv e d) d).th_start by
    exact h (Nc.init t0) (by norm_num [Nc.init, SCALE_FLOOR])
      (by norm_num [Nc.init, SCALE_FLOOR]) (by norm_num [Nc.init, TH_FRAC_START])
  induction evs with
  | nil => exact fun d u1 u2 u3 => ⟨u1, u2, u3⟩
  | cons e tl ih =>
      intro d u1 u2 u3
      rw [List.foldl_cons]
      obtain ⟨v1, v2, v3⟩ := nc_applyEv_inv e d u1 u2 u3
      exact ih (Nc.applyEv e d) v1 v2 v3

lemma nc_run_append (t0 : ℚ) (evs : List Ev) (e : Ev) :
    Nc.run t0 (evs ++ [e]) = Nc.applyEv e (Nc.run t0 evs) := by
  unfold Nc.run
  rw [List.foldl_append]
  rfl

lemma nc_run_cons_middle (t0 : ℚ) (evs1 : List Ev) (e : Ev) (evs2 : List Ev) :
    Nc.run t0 (evs1 ++ e :: evs2)
      = evs2.foldl (fun d ev => Nc.applyEv ev d) (Nc.applyEv e (Nc.run t0 evs1)) := by
  unfold Nc.run
  rw [List.foldl_append]
  rfl

lemma nc_fold_refrac (c : ℚ) (evs : List Ev) :
    ∀ d : Nc.BreathDetector, SCALE_FLOOR ≤ d.scale_ex → SCALE_FLOOR ≤ d.scale_in →
      27/100 ≤ d.th_start → c ≤ d.refrac_until →
      c ≤ (evs.foldl (fun d e => Nc.applyEv e d) d).refrac_until := by
  induction evs with
  | nil => exact fun d _ _ _ h4 => h4
  | cons e tl ih =>
      intro d h1 h2 h3 h4
      rw [List.foldl_cons]
      obtain ⟨v1, v2, v3⟩ := nc_applyEv_inv e d h1 h2 h3
      refine ih (Nc.applyEv e d) v1 v2 v3 ?_
      cases e with
      | step now t =>
          have hth : IDLE_MAG_FRAC < d.th_start := by
            rw [IDLE_MAG_FRAC]
            linarith
          rcases nc_step_main now t d hth with ⟨_, hsame⟩ | ⟨hgate, _, hset⟩
          · show c ≤ (Nc.step now t d).1.refrac_until
            rw [hsame]
            exact h4
          · show c ≤ (Nc.step now t d).1.refrac_until
            rw [hset]
            push_neg at hgate
            have : (0 : ℚ) < MIN_PHASE_S * (1/2) := by
              rw [MIN_PHASE_S]
              norm_num
            linarith
      | apply_sensitivity i => exact h4
      | apply_color_thresholds a b cth l => exact h4
      | set_thresholds cr cv fc cb => exact h4

lemma nc_refractory_trace (t0 : ℚ) (evs1 : List Ev) (now1 t1 : ℚ)
    (evs2 : List Ev) (now2 t2 : ℚ)
    (h1 : Nc.non_idle_transition (Nc.run t0 evs1)
      (Nc.step now1 t1 (Nc.run t0 evs1)).1)
    (h2 : Nc.non_idle_transition (Nc.run t0 (evs1 ++ Ev.step now1 t1 :: evs2))
      (Nc.step now2 t2 (Nc.run t0 (evs1 ++ Ev.step now1 t1 :: evs2))).1) :
    now1 + MIN_PHASE_S * (1/2) ≤ now2 := by
  obtain ⟨i1, i2, i3⟩ := nc_run_inv t0 evs1
  have hth1 : IDLE_MAG_FRAC < (Nc.run t0 evs1).th_start := by
    rw [IDLE_MAG_FRAC]
    linarith
  -- the first transition stamps the refractory deadline
  have hstamp : (Nc.step now1 t1 (Nc.run t0 evs1)).1.refrac_until
      = now1 + MIN_PHASE_S * (1/2) := by
    rcases nc_step_main now1 t1 (Nc.run t0 evs1) hth1 with ⟨hph, _⟩ | ⟨_, _, hset⟩
    · exfalso
      obtain ⟨hne, hio⟩ := h1
      rcases hph with hsame | hidle
      · exact hne (by rw [hsame])
      · rcases hio with hx | hx <;> (rw [hidle] at hx; exact Phase.noConfusion hx)
    · exact hset
  -- the deadline persists along evs2
  obtain ⟨j1, j2, j3⟩ := nc_applyEv_inv (Ev.step now1 t1) (Nc.run t0 evs1) i1 i2 i3
  have hcarry : now1 + MIN_PHASE_S * (1/2)
      ≤ (Nc.run t0 (evs1 ++ Ev.step now1 t1 :: evs2)).refrac_until := by
    rw [nc_run_cons_middle]
    refine nc_fold_refrac _ evs2 _ j1 j2 j3 ?_
    show now1 + MIN_PHASE_S * (1/2) ≤ (Nc.step now1 t1 (Nc.run t0 evs1)).1.refrac_until
    rw [hstamp]
  -- the second transition fires only at or after the deadline
  obtain ⟨k1, k2, k3⟩ := nc_run_inv t0 (evs1 ++ Ev.step now1 t1 :: evs2)
  have hth2 : IDLE_MAG_FRAC < (Nc.run t0 (evs1 ++ Ev.step now1 t1 :: evs2)).th_start := by
    rw [IDLE_MAG_FRAC]
    linarith
  rcases nc_step_main now2 t2 (Nc.run t0 (evs1 ++ Ev.step now1 t1 :: evs2)) hth2 with
    ⟨hph, _⟩ | ⟨hgate, _, _⟩
  · exfalso
    obtain ⟨hne, hio⟩ := h2
    rcases hph with hsame | hidle
    · exact hne (by rw [hsame])
    · rcases hio with hx | hx <;> (rw [hidle] at hx; exact Phase.noConfusion hx)
  · push_neg at hgate
    linarith

/-- Provenance of the idle-hold timer (nasal-clip): while the detector sits in
a non-idle phase with `idle_hold_start = some h`, the hold was started by a
sample step at wall-clock `h` whose idle bounds held, and every later sample
step also satisfied the idle bounds with the phase never passing through
Idle. -/
lemma nc_hold_provenance (t0 : ℚ) (evs : List Ev) :
    ∀ h : ℚ, (Nc.run t0 evs).phase ≠ Phase.idle →
    (Nc.run t0 evs).idle_hold_start = some h →
    ∃ j, ∃ hj : j < evs.length, ∃ tj : ℚ,
      evs.get ⟨j, hj⟩ = Ev.step h tj
      ∧ (Nc.run t0 (evs.take j)).phase ≠ Phase.idle
      ∧ Nc.idle_bounds_ok tj (Nc.run t0 (evs.take j))
      ∧ ∀ i, ∀ hi : i < evs.length, j < i → ∀ n' t' : ℚ,
          evs.get ⟨i, hi⟩ = Ev.step n' t' →
          (Nc.run t0 (evs.take i)).phase ≠ Phase.idle
          ∧ Nc.idle_bounds_ok t' (Nc.run t0 (evs.take i)) := by
  induction evs using List.reverseRecOn with
  | nil =>
      intro h _ hh
      exfalso
      have : (Nc.run t0 []).idle_hold_start = none := rfl
      rw [this] at hh
      exact Option.noConfusion hh
  | append_singleton tl e ih =>
      intro h hph hh
      rw [nc_run_append] at hph hh
      have htake : ∀ i, i ≤ tl.length → (tl ++ [e]).take i = tl.take i := fun i hi =>
        List.take_append_of_le_length hi
      cases e with
      | step now t =>
          obtain ⟨hdph, hbounds, hor⟩ := nc_step_hold_some now t (Nc.run t0 tl) h hh hph
          rcases hor with hsome | ⟨hnone, hnow⟩
          · obtain ⟨j, hj, tj, e1, e2, e3, e4⟩ := ih h hdph hsome
            refine ⟨j, by simp; omega, tj, ?_, ?_, ?_, ?_⟩
            · rw [List.get_append j hj]
              exact e1
            · rw [htake j (le_of_lt hj)]
              exact e2
            · rw [htake j (le_of_lt hj)]
              exact e3
            · intro i hi hji n' t' hev
              by_cases hitl : i < tl.length
              · rw [htake i (le_of_lt hitl)]
                rw [List.get_append i hitl] at hev
                exact e4 i hitl hji n' t' hev
              · have hieq : i = tl.length := by
                  simp at hi
                  omega
                subst hieq
                rw [htake tl.length le_rfl, List.take_length tl]
                have hev' : Ev.step now t = Ev.step n' t' := by
                  have hget : (tl ++ [Ev.step now t]).get ⟨tl.length, hi⟩ = Ev.step now t := by
                    simp
                  rw [hget] at hev
                  exact hev
                cases hev'
                exact ⟨hdph, hbounds⟩
          · refine ⟨tl.length, by simp, t, ?_, ?_, ?_, ?_⟩
            · have : (tl ++ [Ev.step now t]).get ⟨tl.length, by simp⟩ = Ev.step now t := by
                simp
              rw [this, hnow]
            · rw [htake tl.length le_rfl, List.take_length tl]
              exact hdph
            · rw [htake tl.length le_rfl, List.take_length tl]
              exact hbounds
            · intro i hi hji n' t' _
              exfalso
              simp at hi
              omega
      | apply_sensitivity ip =>
          obtain ⟨j, hj, tj, e1, e2, e3, e4⟩ := ih h hph hh
          refine ⟨j, by simp; omega, tj, ?_, ?_, ?_, ?_⟩
          · rw [List.get_append j hj]
            exact e1
          · rw [htake j (le_of_lt hj)]
            exact e2
          · rw [htake j (le_of_lt hj)]
            exact e3
          · intro i hi hji n' t' hev
            by_cases hitl : i < tl.length
            · rw [htake i (le_of_lt hitl)]
              rw [List.get_append i hitl] at hev
              exact e4 i hitl hji n' t' hev
            · exfalso
              have hieq : i = tl.length := by
                simp at hi
                omega
              subst hieq
              have : (tl ++ [Ev.apply_sensitivity ip]).get ⟨tl.length, hi⟩
                  = Ev.apply_sensitivity ip := by simp
              rw [this] at hev
              exact Ev.noConfusion hev
      | apply_color_thresholds a b c l =>
          obtain ⟨j, hj, tj, e1, e2, e3, e4⟩ := ih h hph hh
          refine ⟨j, by simp; omega, tj, ?_, ?_, ?_, ?_⟩
          · rw [List.get_append j hj]
            exact e1
          · rw [htake j (le_of_lt hj)]
            exact e2
          · rw [htake j (le_of_lt hj)]
            exact e3
          · intro i hi hji n' t' hev
            by_cases hitl : i < tl.length
            · rw [htake i (le_of_lt hitl)]
              rw [List.get_append i hitl] at hev
              exact e4 i hitl hji n' t' hev
            · exfalso
              have hieq : i = tl.length := by
                simp at hi
                omega
              subst hieq
              have : (tl ++ [Ev.apply_color_thresholds a b c l]).get ⟨tl.length, hi⟩
                  = Ev.apply_color_thresholds a b c l := by simp
              rw [this] at hev
              exact Ev.noConfusion hev
      | set_thresholds cr cv fc cb =>
          obtain ⟨j, hj, tj, e1, e2, e3, e4⟩ := ih h hph hh
          refine ⟨j, by simp; omega, tj, ?_, ?_, ?_, ?_⟩
          · rw [List.get_append j hj]
            exact e1
          · rw [htake j (le_of_lt hj)]
            exact e2
          · rw [htake j (le_of_lt hj)]
            exact e3
          · intro i hi hji n' t' hev
            by_cases hitl : i < tl.length
            · rw [htake i (le_of_lt hitl)]
              rw [List.get_append i hitl] at hev
              exact e4 i hitl hji n' t' hev
            · exfalso
              have hieq : i = tl.length := by
                simp at hi
                omega
              subst hieq
              have : (tl ++ [Ev.set_thresholds cr cv fc cb]).get ⟨tl.length, hi⟩
                  = Ev.set_thresholds cr cv fc cb := by simp
              rw [this] at hev
              exact Ev.noConfusion hev


lemma bm_stats_refl (m : BreathMetrics) : BreathMetrics.sameStats m m :=
  ⟨rfl, rfl, rfl, rfl, rfl, rfl, rfl, rfl, rfl⟩

lemma bm_stats_trans {a b c : BreathMetrics}
    (h1 : BreathMetrics.sameStats a b) (h2 : BreathMetrics.sameStats b c) :
    BreathMetrics.sameStats a c := by
  obtain ⟨p1, p2, p3, p4, p5, p6, p7, p8, p9⟩ := h1
  obtain ⟨q1, q2, q3, q4, q5, q6, q7, q8, q9⟩ := h2
  exact ⟨q1.trans p1, q2.trans p2, q3.trans p3, q4.trans p4, q5.trans p5,
    q6.trans p6, q7.trans p7, q8.trans p8, q9.trans p9⟩

lemma bm_stats_of_eq {a b : BreathMetrics} (h : b = a) : BreathMetrics.sameStats a b := by
  subst h
  exact bm_stats_refl b

lemma bm_record_sample_stats (m : BreathMetrics) (v : ℚ) :
    BreathMetrics.sameStats m (m.record_sample v) := by
  unfold BreathMetrics.record_sample
  split_ifs <;> exact ⟨rfl, rfl, rfl, rfl, rfl, rfl, rfl, rfl, rfl⟩

lemma bm_start_exhale_stats (m : BreathMetrics) :
    BreathMetrics.sameStats m m.start_exhale :=
  ⟨rfl, rfl, rfl, rfl, rfl, rfl, rfl, rfl, rfl⟩

lemma nc_sig_stats (t : ℚ) (d : Nc.BreathDetector) :
    BreathMetrics.sameStats d.mood (Nc.step_signal t d).mood := by
  simp only [Nc.step_signal]
  by_cases hph : d.phase = Phase.exh
  · rw [if_pos hph]
    exact bm_record_sample_stats _ _
  · rw [if_neg hph]
    exact bm_stats_refl _

lemma nc_trans_stats (now pa : ℚ) (y : Nc.BreathDetector)
    (h : ¬(y.phase = Phase.exh ∧ (Nc.trans_check now pa y).1.phase = Phase.inh)) :
    BreathMetrics.sameStats y.mood (Nc.trans_check now pa y).1.mood := by
  by_cases hA : y.phase ≠ Phase.inh ∧ y.th_start < y.norm
  · by_cases hB : MIN_PHASE_S ≤ pa ∨ y.phase = Phase.idle
    · have hexh : ¬(y.phase = Phase.exh) := by
        intro hex
        apply h
        refine ⟨hex, ?_⟩
        simp only [Nc.trans_check]
        rw [if_pos hA, if_pos hB]
      simp only [Nc.trans_check]
      rw [if_pos hA, if_pos hB]
      show BreathMetrics.sameStats y.mood (Nc.end_exhale_to_inhale now y).mood
      unfold Nc.end_exhale_to_inhale
      rw [if_neg hexh]
      exact bm_stats_refl _
    · simp only [Nc.trans_check]
      rw [if_pos hA, if_neg hB]
      exact bm_stats_refl _
  · by_cases hC : y.phase ≠ Phase.exh ∧ y.norm < -y.th_start
    · by_cases hD : MIN_PHASE_S ≤ pa ∨ y.phase = Phase.idle
      · simp only [Nc.trans_check]
        rw [if_neg hA, if_pos hC, if_pos hD]
        refine bm_stats_trans ?_ (bm_start_exhale_stats _)
        split
        · split <;> exact bm_stats_refl _
        · exact bm_stats_refl _
      · simp only [Nc.trans_check]
        rw [if_neg hA, if_pos hC, if_neg hD]
        exact bm_stats_refl _
    · simp only [Nc.trans_check]
      rw [if_neg hA, if_neg hC]
      exact bm_stats_refl _

lemma nc_step_stats (now t : ℚ) (d : Nc.BreathDetector)
    (hx : ¬(d.phase = Phase.exh ∧ (Nc.step now t d).1.phase = Phase.inh)) :
    BreathMetrics.sameStats d.mood (Nc.step now t d).1.mood := by
  have hsig := nc_sig_stats t d
  have hsf := nc_sig_frame t d
  by_cases hg : now < d.refrac_until
  · rw [nc_step_eq_suppressed now t d hg]
    refine bm_stats_trans hsig (bm_stats_of_eq ?_)
    exact (nc_idle_frame _ _ _ _).2.2.2.2.2.1
  · have hstep := nc_step_eq_open now t d hg
    have hr1m : (Nc.idle_check now (Nc.step_dnorm t d)
        (now - (Nc.step_signal t d).t_phase_start) (Nc.step_signal t d)).1.mood
        = (Nc.step_signal t d).mood :=
      (nc_idle_frame _ _ _ _).2.2.2.2.2.1
    rw [hstep]
    refine bm_stats_trans (bm_stats_trans hsig (bm_stats_of_eq hr1m)) ?_
    apply nc_trans_stats
    intro ⟨hrex, hrinh⟩
    rcases nc_idle_cases now (Nc.step_dnorm t d)
        (now - (Nc.step_signal t d).t_phase_start) (Nc.step_signal t d) with hc | hc
    · apply hx
      constructor
      · rw [← hsf.1, ← hc]
        exact hrex
      · rw [hstep]
        exact hrinh
    · rw [hc.1] at hrex
      exact Phase.noConfusion hrex

lemma nc_step_exh_idle (now t : ℚ) (d : Nc.BreathDetector)
    (hexh : d.phase = Phase.exh) (hidle : (Nc.step now t d).1.phase = Phase.idle) :
    (Nc.step now t d).1.last_inhale_duration = d.last_inhale_duration
    ∧ (Nc.step now t d).1.inhale_start_time = d.inhale_start_time
    ∧ (Nc.step now t d).1.exhale_start_time = d.exhale_start_time
    ∧ BreathMetrics.sameStats d.mood (Nc.step now t d).1.mood := by
  have hsf := nc_sig_frame t d
  have hmood : BreathMetrics.sameStats d.mood (Nc.step now t d).1.mood := by
    apply nc_step_stats
    intro ⟨_, hinh⟩
    rw [hidle] at hinh
    exact Phase.noConfusion hinh
  have hchain : ∀ r1 : Nc.BreathDetector,
      r1 = (Nc.idle_check now (Nc.step_dnorm t d)
        (now - (Nc.step_signal t d).t_phase_start) (Nc.step_signal t d)).1 →
      r1.last_inhale_duration = d.last_inhale_duration
      ∧ r1.inhale_start_time = d.inhale_start_time
      ∧ r1.exhale_start_time = d.exhale_start_time := by
    intro r1 hr1
    obtain ⟨_, _, _, _, _, _, f7, f8, f9⟩ := nc_idle_frame now (Nc.step_dnorm t d)
        (now - (Nc.step_signal t d).t_phase_start) (Nc.step_signal t d)
    rw [hr1]
    exact ⟨f7.trans hsf.2.2.2.2.2.2.2.1, f8.trans hsf.2.2.2.2.2.2.1,
      f9.trans hsf.2.2.2.2.2.1⟩
  by_cases hg : now < d.refrac_until
  · have hstep := nc_step_eq_suppressed now t d hg
    obtain ⟨c1, c2, c3⟩ := hchain (Nc.step now t d).1 (by rw [hstep])
    exact ⟨c1, c2, c3, hmood⟩
  · have hstep := nc_step_eq_open now t d hg
    rcases nc_trans_cases now (now - (Nc.step_signal t d).t_phase_start)
        (Nc.idle_check now (Nc.step_dnorm t d)
          (now - (Nc.step_signal t d).t_phase_start) (Nc.step_signal t d)).1 with hno | hfire
    · have h1' : (Nc.step now t d).1
          = (Nc.idle_check now (Nc.step_dnorm t d)
              (now - (Nc.step_signal t d).t_phase_start) (Nc.step_signal t d)).1 := by
        rw [hstep, hno]
      obtain ⟨c1, c2, c3⟩ := hchain (Nc.step now t d).1 h1'
      exact ⟨c1, c2, c3, hmood⟩
    · exfalso
      rcases hfire.2.1 with ⟨hph2, _, _⟩ | ⟨hph2, _, _⟩ <;>
        (rw [← hstep, hidle] at hph2; exact Phase.noConfusion hph2)

/-! ### C1 -/

/-- C1: at every instant of every execution (any interleaving of sample
steps, sensitivity changes, colour-threshold changes and mood-threshold
changes), both scale trackers stay at or above `SCALE_FLOOR`, and the
denominator used by the normaliser on the next sample step is therefore
never below the floor — in both firmware variants. -/
theorem C1_scale_floor_invariant (sq : ℚ → ℚ) (t0 : ℚ) (evs : List Ev) (t : ℚ) :
    (SCALE_FLOOR ≤ (Fw.run sq t0 evs).scale_ex
      ∧ SCALE_FLOOR ≤ (Fw.run sq t0 evs).scale_in
      ∧ SCALE_FLOOR ≤ Fw.step_denom t (Fw.run sq t0 evs))
    ∧ (SCALE_FLOOR ≤ (Nc.run t0 evs).scale_ex
      ∧ SCALE_FLOOR ≤ (Nc.run t0 evs).scale_in
      ∧ SCALE_FLOOR ≤ Nc.step_denom t (Nc.run t0 evs)) := by
  obtain ⟨f1, f2, _⟩ := fw_run_inv sq t0 evs
  obtain ⟨n1, n2, _⟩ := nc_run_inv t0 evs
  exact ⟨⟨f1, f2, (fw_sig_scale t _ f1 f2).2.2⟩, ⟨n1, n2, (nc_sig_scale t _ n1 n2).2.2⟩⟩

/-! ### C2 -/

/-- C2: in every execution a transition into Inhale or Exhale never occurs
within `MIN_PHASE_S * 0.5` of the previous non-idle transition, and while
`now < refrac_until` the inhale/exhale checks are suppressed (the phase can
only stay put or fall to Idle, and the refractory deadline is unchanged)
while the idle-entry hold tracking is still evaluated — in both firmware
variants. -/
theorem C2_refractory_window (sq : ℚ → ℚ) (t0 : ℚ) :
    (∀ (evs1 : List Ev) (now1 t1 : ℚ) (evs2 : List Ev) (now2 t2 : ℚ),
      Fw.non_idle_transition (Fw.run sq t0 evs1)
        (Fw.step sq now1 t1 (Fw.run sq t0 evs1)).1 →
      Fw.non_idle_transition (Fw.run sq t0 (evs1 ++ Ev.step now1 t1 :: evs2))
        (Fw.step sq now2 t2 (Fw.run sq t0 (evs1 ++ Ev.step now1 t1 :: evs2))).1 →
      now1 + MIN_PHASE_S * (1/2) ≤ now2)
    ∧ (∀ (now t : ℚ) (d : Fw.BreathDetector), now < d.refrac_until →
      ((Fw.step sq now t d).1.phase = d.phase ∨ (Fw.step sq now t d).1.phase = Phase.idle)
      ∧ (Fw.step sq now t d).1.refrac_until = d.refrac_until
      ∧ (d.phase ≠ Phase.idle →
          (Fw.idle_bounds_ok t d →
            (Fw.step sq now t d).1.idle_hold_start = some (d.idle_hold_start.getD now))
          ∧ (¬Fw.idle_bounds_ok t d → (Fw.step sq now t d).1.idle_hold_start = none)))
    ∧ (∀ (evs1 : List Ev) (now1 t1 : ℚ) (evs2 : List Ev) (now2 t2 : ℚ),
      Nc.non_idle_transition (Nc.run t0 evs1)
        (Nc.step now1 t1 (Nc.run t0 evs1)).1 →
      Nc.non_idle_transition (Nc.run t0 (evs1 ++ Ev.step now1 t1 :: evs2))
        (Nc.step now2 t2 (Nc.run t0 (evs1 ++ Ev.step now1 t1 :: evs2))).1 →
      now1 + MIN_PHASE_S * (1/2) ≤ now2)
    ∧ (∀ (now t : ℚ) (d : Nc.BreathDetector), now < d.refrac_until →
      ((Nc.step now t d).1.phase = d.phase ∨ (Nc.step now t d).1.phase = Phase.idle)
      ∧ (Nc.step now t d).1.refrac_until = d.refrac_until
      ∧ (d.phase ≠ Phase.idle →
          (Nc.idle_bounds_ok t d →
            (Nc.step now t d).1.idle_hold_start = some (d.idle_hold_start.getD now))
          ∧ (¬Nc.idle_bounds_ok t d → (Nc.step now t d).1.idle_hold_start = none))) := by
  refine ⟨?_, ?_, ?_, ?_⟩
  · exact fun evs1 now1 t1 evs2 now2 t2 h1 h2 =>
      fw_refractory_trace sq t0 evs1 now1 t1 evs2 now2 t2 h1 h2
  · exact fun now t d hg => fw_step_suppressed sq now t d hg
  · exact fun evs1 now1 t1 evs2 now2 t2 h1 h2 =>
      nc_refractory_trace t0 evs1 now1 t1 evs2 now2 t2 h1 h2
  · exact fun now t d hg => nc_step_suppressed now t d hg

/-- Witness for C2: a concrete first transition (Idle to Inhale at time 0)
followed by a second transition (Inhale to Exhale at time 0.3) respects the
0.1 s refractory spacing, and a step taken inside a refractory window
leaves the deadline unchanged — in both variants. -/
theorem C2_refractory_window_witness :
    (Fw.non_idle_transition (Fw.run (fun _ => 0) 0 [])
        (Fw.step (fun _ => 0) 0 (-1) (Fw.run (fun _ => 0) 0 [])).1
      ∧ Fw.non_idle_transition (Fw.run (fun _ => 0) 0 ([] ++ Ev.step 0 (-1) :: []))
          (Fw.step (fun _ => 0) (3/10) 10
            (Fw.run (fun _ => 0) 0 ([] ++ Ev.step 0 (-1) :: []))).1
      ∧ (0 : ℚ) + MIN_PHASE_S * (1/2) ≤ 3/10)
    ∧ ((0 : ℚ) < ({ Fw.init 0 with refrac_until := 1 } : Fw.BreathDetector).refrac_until
      ∧ (Fw.step (fun _ => 0) 0 0 { Fw.init 0 with refrac_until := 1 }).1.refrac_until
          = ({ Fw.init 0 with refrac_until := 1 } : Fw.BreathDetector).refrac_until)
    ∧ (Nc.non_idle_transition (Nc.run 0 []) (Nc.step 0 (-1) (Nc.run 0 [])).1
      ∧ Nc.non_idle_transition (Nc.run 0 ([] ++ Ev.step 0 (-1) :: []))
          (Nc.step (3/10) 10 (Nc.run 0 ([] ++ Ev.step 0 (-1) :: []))).1
      ∧ (0 : ℚ) + MIN_PHASE_S * (1/2) ≤ 3/10)
    ∧ ((0 : ℚ) < ({ Nc.init 0 with refrac_until := 1 } : Nc.BreathDetector).refrac_until
      ∧ (Nc.step 0 0 { Nc.init 0 with refrac_until := 1 }).1.refrac_until
          = ({ Nc.init 0 with refrac_until := 1 } : Nc.BreathDetector).refrac_until) := by
  have hf1 : Fw.non_idle_transition (Fw.run (fun _ => 0) 0 [])
      (Fw.step (fun _ => 0) 0 (-1) (Fw.run (fun _ => 0) 0 [])).1 := by
    unfold Fw.non_idle_transition
    exact of_decide_eq_true (by with_unfolding_all rfl)
  have hf2 : Fw.non_idle_transition (Fw.run (fun _ => 0) 0 ([] ++ Ev.step 0 (-1) :: []))
      (Fw.step (fun _ => 0) (3/10) 10
        (Fw.run (fun _ => 0) 0 ([] ++ Ev.step 0 (-1) :: []))).1 := by
    unfold Fw.non_idle_transition
    exact of_decide_eq_true (by with_unfolding_all rfl)
  have hn1 : Nc.non_idle_transition (Nc.run 0 []) (Nc.step 0 (-1) (Nc.run 0 [])).1 := by
    unfold Nc.non_idle_transition
    exact of_decide_eq_true (by with_unfolding_all rfl)
  have hn2 : Nc.non_idle_transition (Nc.run 0 ([] ++ Ev.step 0 (-1) :: []))
      (Nc.step (3/10) 10 (Nc.run 0 ([] ++ Ev.step 0 (-1) :: []))).1 := by
    unfold Nc.non_idle_transition
    exact of_decide_eq_true (by with_unfolding_all rfl)
  have hgf : (0 : ℚ)
      < ({ Fw.init 0 with refrac_until := 1 } : Fw.BreathDetector).refrac_until := by
    show (0 : ℚ) < 1
    norm_num
  have hgn : (0 : ℚ)
      < ({ Nc.init 0 with refrac_until := 1 } : Nc.BreathDetector).refrac_until := by
    show (0 : ℚ) < 1
    norm_num
  refine ⟨⟨hf1, hf2, ?_⟩, ⟨hgf, ?_⟩, ⟨hn1, hn2, ?_⟩, ⟨hgn, ?_⟩⟩
  · exact (C2_refractory_window (fun _ => 0) 0).1 [] 0 (-1) [] (3/10) 10 hf1 hf2
  · exact ((C2_refractory_window (fun _ => 0) 0).2.1 0 0 _ hgf).2.1
  · exact (C2_refractory_window (fun _ => 0) 0).2.2.1 [] 0 (-1) [] (3/10) 10 hn1 hn2
  · exact ((C2_refractory_window (fun _ => 0) 0).2.2.2 0 0 _ hgn).2.1

/-! ### C6 -/

/-- C6: the detector enters Idle only when the magnitude and slope bounds
hold at the entering sample, a hold timestamp `h` is present with
`now - h ≥ 1.5 * IDLE_HOLD_S` and the phase has lasted at least
`MIN_PHASE_S`; a sample violating the bounds in a non-idle phase resets
the hold to `none`; and whenever a non-idle state carries `hold = some h`,
the hold was started by the sample step at wall-clock `h` whose bounds
held, with every later sample step also satisfying the bounds and the
phase never passing through Idle — so the bounds held continuously over
the whole hold window.  Both firmware variants. -/
theorem C6_idle_entry_conditions (sq : ℚ → ℚ) (t0 : ℚ) :
    (∀ (now t : ℚ) (d : Fw.BreathDetector), d.phase ≠ Phase.idle →
      (Fw.step sq now t d).1.phase = Phase.idle →
      Fw.idle_bounds_ok t d
      ∧ ∃ h, d.idle_hold_start = some h ∧ IDLE_HOLD_S * (15/10) ≤ now - h
          ∧ MIN_PHASE_S ≤ now - d.t_phase_start)
    ∧ (∀ (now t : ℚ) (d : Fw.BreathDetector), d.phase ≠ Phase.idle →
      ¬Fw.idle_bounds_ok t d → (Fw.step sq now t d).1.idle_hold_start = none)
    ∧ (∀ (evs : List Ev) (h : ℚ), (Fw.run sq t0 evs).phase ≠ Phase.idle →
      (Fw.run sq t0 evs).idle_hold_start = some h →
      ∃ j, ∃ hj : j < evs.length, ∃ tj : ℚ,
        evs.get ⟨j, hj⟩ = Ev.step h tj
        ∧ (Fw.run sq t0 (evs.take j)).phase ≠ Phase.idle
        ∧ Fw.idle_bounds_ok tj (Fw.run sq t0 (evs.take j))
        ∧ ∀ i, ∀ hi : i < evs.length, j < i → ∀ n' t' : ℚ,
            evs.get ⟨i, hi⟩ = Ev.step n' t' →
            (Fw.run sq t0 (evs.take i)).phase ≠ Phase.idle
            ∧ Fw.idle_bounds_ok t' (Fw.run sq t0 (evs.take i)))
    ∧ (∀ (now t : ℚ) (d : Nc.BreathDetector), d.phase ≠ Phase.idle →
      (Nc.step now t d).1.phase = Phase.idle →
      Nc.idle_bounds_ok t d
      ∧ ∃ h, d.idle_hold_start = some h ∧ IDLE_HOLD_S * (15/10) ≤ now - h
          ∧ MIN_PHASE_S ≤ now - d.t_phase_start)
    ∧ (∀ (now t : ℚ) (d : Nc.BreathDetector), d.phase ≠ Phase.idle →
      ¬Nc.idle_bounds_ok t d → (Nc.step now t d).1.idle_hold_start = none)
    ∧ (∀ (evs : List Ev) (h : ℚ), (Nc.run t0 evs).phase ≠ Phase.idle →
      (Nc.run t0 evs).idle_hold_start = some h →
      ∃ j, ∃ hj : j < evs.length, ∃ tj : ℚ,
        evs.get ⟨j, hj⟩ = Ev.step h tj
        ∧ (Nc.run t0 (evs.take j)).phase ≠ Phase.idle
        ∧ Nc.idle_bounds_ok tj (Nc.run t0 (evs.take j))
        ∧ ∀ i, ∀ hi : i < evs.length, j < i → ∀ n' t' : ℚ,
            evs.get ⟨i, hi⟩ = Ev.step n' t' →
            (Nc.run t0 (evs.take i)).phase ≠ Phase.idle
            ∧ Nc.idle_bounds_ok t' (Nc.run t0 (evs.take i))) := by
  refine ⟨?_, ?_, ?_, ?_, ?_, ?_⟩
  · exact fun now t d h1 h2 => fw_step_idle_entry sq now t d h1 h2
  · exact fun now t d h1 h2 => fw_step_hold_reset sq now t d h1 h2
  · exact fun evs h h1 h2 => fw_hold_provenance sq t0 evs h h1 h2
  · exact fun now t d h1 h2 => nc_step_idle_entry now t d h1 h2
  · exact fun now t d h1 h2 => nc_step_hold_reset now t d h1 h2
  · exact fun evs h h1 h2 => nc_hold_provenance t0 evs h h1 h2

/-- Witness for C6: a concrete Exhale state with a hold stamped at time 0
enters Idle at time 4 with the bounds satisfied; a violating sample resets
the hold; and a concrete three-step run ending in Inhale with
`hold = some 2` traces the hold back to its starting step event — in both
variants. -/
theorem C6_idle_entry_conditions_witness :
    (({ Fw.init 0 with phase := Phase.exh, idle_hold_start := some 0 } :
          Fw.BreathDetector).phase ≠ Phase.idle
      ∧ (Fw.step (fun _ => 0) 4 0
          { Fw.init 0 with phase := Phase.exh, idle_hold_start := some 0 }).1.phase
          = Phase.idle
      ∧ Fw.idle_bounds_ok 0
          { Fw.init 0 with phase := Phase.exh, idle_hold_start := some 0 })
    ∧ (({ Fw.init 0 with phase := Phase.exh } : Fw.BreathDetector).phase ≠ Phase.idle
      ∧ ¬Fw.idle_bounds_ok (-1) { Fw.init 0 with phase := Phase.exh }
      ∧ (Fw.step (fun _ => 0) 0 (-1)
          { Fw.init 0 with phase := Phase.exh }).1.idle_hold_start = none)
    ∧ ((Fw.run (fun _ => 0) 0
          [Ev.step 0 (-1), Ev.step 1 (2891/4750), Ev.step 2 (-133397/4512500)]).phase
          ≠ Phase.idle
      ∧ (Fw.run (fun _ => 0) 0
          [Ev.step 0 (-1), Ev.step 1 (2891/4750),
            Ev.step 2 (-133397/4512500)]).idle_hold_start = some 2
      ∧ ∃ j, ∃ hj : j < ([Ev.step 0 (-1), Ev.step 1 (2891/4750),
            Ev.step 2 (-133397/4512500)] : List Ev).length, ∃ tj : ℚ,
          [Ev.step 0 (-1), Ev.step 1 (2891/4750),
            Ev.step 2 (-133397/4512500)].get ⟨j, hj⟩ = Ev.step 2 tj)
    ∧ (({ Nc.init 0 with phase := Phase.exh, idle_hold_start := some 0 } :
          Nc.BreathDetector).phase ≠ Phase.idle
      ∧ (Nc.step 4 0
          { Nc.init 0 with phase := Phase.exh, idle_hold_start := some 0 }).1.phase
          = Phase.idle
      ∧ Nc.idle_bounds_ok 0
          { Nc.init 0 with phase := Phase.exh, idle_hold_start := some 0 })
    ∧ (({ Nc.init 0 with phase := Phase.exh } : Nc.BreathDetector).phase ≠ Phase.idle
      ∧ ¬Nc.idle_bounds_ok (-1) { Nc.init 0 with phase := Phase.exh }
      ∧ (Nc.step 0 (-1) { Nc.init 0 with phase := Phase.exh }).1.idle_hold_start = none)
    ∧ ((Nc.run 0 [Ev.step 0 (-1), Ev.step 1 (2891/4750),
          Ev.step 2 (-133397/4512500)]).phase ≠ Phase.idle
      ∧ (Nc.run 0 [Ev.step 0 (-1), Ev.step 1 (2891/4750),
          Ev.step 2 (-133397/4512500)]).idle_hold_start = some 2
      ∧ ∃ j, ∃ hj : j < ([Ev.step 0 (-1), Ev.step 1 (2891/4750),
            Ev.step 2 (-133397/4512500)] : List Ev).length, ∃ tj : ℚ,
          [Ev.step 0 (-1), Ev.step 1 (2891/4750),
            Ev.step 2 (-133397/4512500)].get ⟨j, hj⟩ = Ev.step 2 tj) := by
  have hfa1 : ({ Fw.init 0 with phase := Phase.exh, idle_hold_start := some 0 } :
      Fw.BreathDetector).phase ≠ Phase.idle :=
    of_decide_eq_true (by with_unfolding_all rfl)
  have hfa2 : (Fw.step (fun _ => 0) 4 0
      { Fw.init 0 with phase := Phase.exh, idle_hold_start := some 0 }).1.phase
      = Phase.idle :=
    of_decide_eq_true (by with_unfolding_all rfl)
  have hfb1 : ({ Fw.init 0 with phase := Phase.exh } : Fw.BreathDetector).phase
      ≠ Phase.idle :=
    of_decide_eq_true (by with_unfolding_all rfl)
  have hfb2 : ¬Fw.idle_bounds_ok (-1) { Fw.init 0 with phase := Phase.exh } := by
    unfold Fw.idle_bounds_ok
    exact of_decide_eq_true (by with_unfolding_all rfl)
  have hfc1 : (Fw.run (fun _ => 0) 0
      [Ev.step 0 (-1), Ev.step 1 (2891/4750), Ev.step 2 (-133397/4512500)]).phase
      ≠ Phase.idle :=
    of_decide_eq_true (by with_unfolding_all rfl)
  have hfc2 : (Fw.run (fun _ => 0) 0
      [Ev.step 0 (-1), Ev.step 1 (2891/4750),
        Ev.step 2 (-133397/4512500)]).idle_hold_start = some 2 :=
    of_decide_eq_true (by with_unfolding_all rfl)
  have hna1 : ({ Nc.init 0 with phase := Phase.exh, idle_hold_start := some 0 } :
      Nc.BreathDetector).phase ≠ Phase.idle :=
    of_decide_eq_true (by with_unfolding_all rfl)
  have hna2 : (Nc.step 4 0
      { Nc.init 0 with phase := Phase.exh, idle_hold_start := some 0 }).1.phase
      = Phase.idle :=
    of_decide_eq_true (by with_unfolding_all rfl)
  have hnb1 : ({ Nc.init 0 with phase := Phase.exh } : Nc.BreathDetector).phase
      ≠ Phase.idle :=
    of_decide_eq_true (by with_unfolding_all rfl)
  have hnb2 : ¬Nc.idle_bounds_ok (-1) { Nc.init 0 with phase := Phase.exh } := by
    unfold Nc.idle_bounds_ok
    exact of_decide_eq_true (by with_unfolding_all rfl)
  have hnc1 : (Nc.run 0 [Ev.step 0 (-1), Ev.step 1 (2891/4750),
      Ev.step 2 (-133397/4512500)]).phase ≠ Phase.idle :=
    of_decide_eq_true (by with_unfolding_all rfl)
  have hnc2 : (Nc.run 0 [Ev.step 0 (-1), Ev.step 1 (2891/4750),
      Ev.step 2 (-133397/4512500)]).idle_hold_start = some 2 :=
    of_decide_eq_true (by with_unfolding_all rfl)
  refine ⟨⟨hfa1, hfa2, ?_⟩, ⟨hfb1, hfb2, ?_⟩, ⟨hfc1, hfc2, ?_⟩,
    ⟨hna1, hna2, ?_⟩, ⟨hnb1, hnb2, ?_⟩, ⟨hnc1, hnc2, ?_⟩⟩
  · exact ((C6_idle_entry_conditions (fun _ => 0) 0).1 4 0 _ hfa1 hfa2).1
  · exact (C6_idle_entry_conditions (fun _ => 0) 0).2.1 0 (-1) _ hfb1 hfb2
  · obtain ⟨j, hj, tj, hget, _⟩ :=
      (C6_idle_entry_conditions (fun _ => 0) 0).2.2.1
        [Ev.step 0 (-1), Ev.step 1 (2891/4750), Ev.step 2 (-133397/4512500)] 2 hfc1 hfc2
    exact ⟨j, hj, tj, hget⟩
  · exact ((C6_idle_entry_conditions (fun _ => 0) 0).2.2.2.1 4 0 _ hna1 hna2).1
  · exact (C6_idle_entry_conditions (fun _ => 0) 0).2.2.2.2.1 0 (-1) _ hnb1 hnb2
  · obtain ⟨j, hj, tj, hget, _⟩ :=
      (C6_idle_entry_conditions (fun _ => 0) 0).2.2.2.2.2
        [Ev.step 0 (-1), Ev.step 1 (2891/4750), Ev.step 2 (-133397/4512500)] 2 hnc1 hnc2
    exact ⟨j, hj, tj, hget⟩

/-! ### C10 -/

/-- C10: when an exhale ends through the Exhale-to-Idle path, the
inhale-side detector fields are untouched and the mood layer's per-breath
state is unchanged (in the firmware the whole `MoodAnalyzer` state, in the
nasal clip the breath count, calibration state and all six per-breath
metric fields); and more generally the mood layer's per-breath state only
ever changes on an Exhale-to-Inhale transition. -/
theorem C10_exhale_to_idle_frame (sq : ℚ → ℚ) (now t : ℚ) :
    (∀ d : Fw.BreathDetector, d.phase = Phase.exh →
      (Fw.step sq now t d).1.phase = Phase.idle →
      (Fw.step sq now t d).1.last_inhale_duration = d.last_inhale_duration
      ∧ (Fw.step sq now t d).1.inhale_start_time = d.inhale_start_time
      ∧ (Fw.step sq now t d).1.exhale_start_time = d.exhale_start_time
      ∧ (Fw.step sq now t d).1.mood = d.mood)
    ∧ (∀ d : Fw.BreathDetector,
      ¬(d.phase = Phase.exh ∧ (Fw.step sq now t d).1.phase = Phase.inh) →
      (Fw.step sq now t d).1.mood = d.mood)
    ∧ (∀ d : Nc.BreathDetector, d.phase = Phase.exh →
      (Nc.step now t d).1.phase = Phase.idle →
      (Nc.step now t d).1.last_inhale_duration = d.last_inhale_duration
      ∧ (Nc.step now t d).1.inhale_start_time = d.inhale_start_time
      ∧ (Nc.step now t d).1.exhale_start_time = d.exhale_start_time
      ∧ BreathMetrics.sameStats d.mood (Nc.step now t d).1.mood)
    ∧ (∀ d : Nc.BreathDetector,
      ¬(d.phase = Phase.exh ∧ (Nc.step now t d).1.phase = Phase.inh) →
      BreathMetrics.sameStats d.mood (Nc.step now t d).1.mood) := by
  refine ⟨?_, ?_, ?_, ?_⟩
  · exact fun d h1 h2 => fw_step_exh_idle sq now t d h1 h2
  · exact fun d hx => fw_step_mood sq now t d hx
  · exact fun d h1 h2 => nc_step_exh_idle now t d h1 h2
  · exact fun d hx => nc_step_stats now t d hx

/-- Witness for C10: a concrete Exhale state (exhale started at time 0,
hold stamped at time 0) falls to Idle at time 4 with its mood layer's
per-breath state untouched, in both variants. -/
theorem C10_exhale_to_idle_frame_witness :
    (({ Fw.init 0 with phase := Phase.exh, exhale_start_time := some 0, idle_hold_start := some 0 } : Fw.BreathDetector).phase = Phase.exh
      ∧ (Fw.step (fun _ => 0) 4 0
          { Fw.init 0 with phase := Phase.exh, exhale_start_time := some 0, idle_hold_start := some 0 }).1.phase = Phase.idle
      ∧ (Fw.step (fun _ => 0) 4 0
          { Fw.init 0 with phase := Phase.exh, exhale_start_time := some 0, idle_hold_start := some 0 }).1.mood
        = ({ Fw.init 0 with phase := Phase.exh, exhale_start_time := some 0, idle_hold_start := some 0 } : Fw.BreathDetector).mood)
    ∧ (¬(({ Fw.init 0 with phase := Phase.exh, exhale_start_time := some 0, idle_hold_start := some 0 } : Fw.BreathDetector).phase = Phase.exh
          ∧ (Fw.step (fun _ => 0) 4 0
            { Fw.init 0 with phase := Phase.exh, exhale_start_time := some 0, idle_hold_start := some 0 }).1.phase = Phase.inh)
      ∧ (Fw.step (fun _ => 0) 4 0
          { Fw.init 0 with phase := Phase.exh, exhale_start_time := some 0, idle_hold_start := some 0 }).1.mood
        = ({ Fw.init 0 with phase := Phase.exh, exhale_start_time := some 0, idle_hold_start := some 0 } : Fw.BreathDetector).mood)
    ∧ (({ Nc.init 0 with phase := Phase.exh, exhale_start_time := some 0, idle_hold_start := some 0 } : Nc.BreathDetector).phase = Phase.exh
      ∧ (Nc.step 4 0
          { Nc.init 0 with phase := Phase.exh, exhale_start_time := some 0, idle_hold_start := some 0 }).1.phase = Phase.idle
      ∧ BreathMetrics.sameStats
          ({ Nc.init 0 with phase := Phase.exh, exhale_start_time := some 0, idle_hold_start := some 0 } : Nc.BreathDetector).mood
          (Nc.step 4 0
            { Nc.init 0 with phase := Phase.exh, exhale_start_time := some 0, idle_hold_start := some 0 }).1.mood)
    ∧ (¬(({ Nc.init 0 with phase := Phase.exh, exhale_start_time := some 0, idle_hold_start := some 0 } : Nc.BreathDetector).phase = Phase.exh
          ∧ (Nc.step 4 0
            { Nc.init 0 with phase := Phase.exh, exhale_start_time := some 0, idle_hold_start := some 0 }).1.phase = Phase.inh)
      ∧ BreathMetrics.sameStats
          ({ Nc.init 0 with phase := Phase.exh, exhale_start_time := some 0, idle_hold_start := some 0 } : Nc.BreathDetector).mood
          (Nc.step 4 0
            { Nc.init 0 with phase := Phase.exh, exhale_start_time := some 0, idle_hold_start := some 0 }).1.mood) := by
  have hf1 : ({ Fw.init 0 with phase := Phase.exh, exhale_start_time := some 0, idle_hold_start := some 0 } : Fw.BreathDetector).phase = Phase.exh := rfl
  have hf2 : (Fw.step (fun _ => 0) 4 0
      { Fw.init 0 with phase := Phase.exh, exhale_start_time := some 0, idle_hold_start := some 0 }).1.phase = Phase.idle :=
    of_decide_eq_true (by with_unfolding_all rfl)
  have hfx : ¬(({ Fw.init 0 with phase := Phase.exh, exhale_start_time := some 0, idle_hold_start := some 0 } : Fw.BreathDetector).phase = Phase.exh
      ∧ (Fw.step (fun _ => 0) 4 0
        { Fw.init 0 with phase := Phase.exh, exhale_start_time := some 0, idle_hold_start := some 0 }).1.phase = Phase.inh) :=
    of_decide_eq_true (by with_unfolding_all rfl)
  have hn1 : ({ Nc.init 0 with phase := Phase.exh, exhale_start_time := some 0, idle_hold_start := some 0 } : Nc.BreathDetector).phase = Phase.exh := rfl
  have hn2 : (Nc.step 4 0
      { Nc.init 0 with phase := Phase.exh, exhale_start_time := some 0, idle_hold_start := some 0 }).1.phase = Phase.idle :=
    of_decide_eq_true (by with_unfolding_all rfl)
  have hnx : ¬(({ Nc.init 0 with phase := Phase.exh, exhale_start_time := some 0, idle_hold_start := some 0 } : Nc.BreathDetector).phase = Phase.exh
      ∧ (Nc.step 4 0
        { Nc.init 0 with phase := Phase.exh, exhale_start_time := some 0, idle_hold_start := some 0 }).1.phase = Phase.inh) :=
    of_decide_eq_true (by with_unfolding_all rfl)
  refine ⟨⟨hf1, hf2, ?_⟩, ⟨hfx, ?_⟩, ⟨hn1, hn2, ?_⟩, ⟨hnx, ?_⟩⟩
  · exact ((C10_exhale_to_idle_frame (fun _ => 0) 4 0).1 _ hf1 hf2).2.2.2
  · exact (C10_exhale_to_idle_frame (fun _ => 0) 4 0).2.1 _ hfx
  · exact ((C10_exhale_to_idle_frame (fun _ => 0) 4 0).2.2.1 _ hn1 hn2).2.2.2
  · exact (C10_exhale_to_idle_frame (fun _ => 0) 4 0).2.2.2 _ hnx

end BreathSense
